import Mathlib

/-!
# QDnsLookupRunnable::query (Windows backend)

A shallow embedding of `src/network/kernel/qdnslookup_win.cpp`.

* strings (`QString`, `QStringView`, the `PWSTR` names of a record) are values compared by
  content, as `QStringView::operator==` does; a null view and an empty view are both `""`;
* the `pNext`-linked record list is a `List DNS_RECORD`, the null pointer being `[]`;
  `queryRun` is the same function with the list standing in memory, the loop following
  `pNext`, where a run can fault or fail to end;
* the payload union `DNS_RECORD::Data` is given by its views, one field per union member; the
  decoder only ever reads the view selected by `wType`;
* the calls made on the operating system are logged, in order, in a list of `PlatformCall`;
* routines whose bodies are outside the translated file are the fields of `Env`.
-/

namespace QDnsLookupWin

abbrev QString := String

abbrev QByteArray := List Nat

abbrev DNS_STATUS := Int

/-! ## Qt declarations used by `query` -/

/-- Modelled from the spec: the protocol of a `QHostAddress` (qabstractsocket.h is not among the
sources); the spec speaks of the nameserver's "own address family (IPv4 or IPv6)". -/
inductive NetworkLayerProtocol
  | IPv4Protocol
  | IPv6Protocol
  | AnyIPProtocol
  | UnknownNetworkLayerProtocol
deriving DecidableEq, Repr

/-- Modelled from the spec: `QHostAddress` (qhostaddress.h is not among the sources), the
"generic host address" of the spec: null, an IPv4 address held as a 32-bit number in host byte
order, the 16 bytes of an IPv6 address, or the wildcard address. -/
inductive QHostAddress
  | Null
  | IPv4 (ip4Addr : Nat)
  | IPv6 (ip6Addr : List Nat)
  | Any
deriving DecidableEq, Repr

namespace QHostAddress

/-- Modelled from the spec: `QHostAddress::isNull`, true of the default-constructed address
only ("nameserver: optional IP address"). -/
def isNull : QHostAddress → Bool
  | Null => true
  | _ => false

/-- Modelled from the spec: `QHostAddress::protocol`, the address family of the address. -/
def protocol : QHostAddress → NetworkLayerProtocol
  | Null => .UnknownNetworkLayerProtocol
  | IPv4 _ => .IPv4Protocol
  | IPv6 _ => .IPv6Protocol
  | Any => .AnyIPProtocol

/-- Modelled from the spec: `QHostAddress::toIPv4Address`, the IPv4 address as a number in host
byte order. -/
def toIPv4Address : QHostAddress → Nat
  | IPv4 a => a
  | _ => 0

end QHostAddress

namespace QDnsLookup

/-- Modelled from the spec: `QDnsLookup::Error` (qdnslookup.h is not among the sources), the error
taxonomy of the spec. -/
inductive Error
  | NoError
  | ResolverError
  | OperationCancelledError
  | InvalidRequestError
  | InvalidReplyError
  | ServerFailureError
  | ServerRefusedError
  | NotFoundError
  | TimeoutError
deriving DecidableEq, Repr

/-! Modelled from the spec: `QDnsLookup::Type` (qdnslookup.h is not among the sources), the
"enumerated tag (A, AAAA, CNAME, MX, NS, PTR, SRV, TXT, ...)"; the numbers are the DNS
resource-record type numbers. -/

/-- Modelled from the spec: record-type tag of an IPv4 address record. -/
def A : Nat := 1

/-- Modelled from the spec: record-type tag of an IPv6 address record. -/
def AAAA : Nat := 28

/-- Modelled from the spec: record-type tag of a canonical-name record. -/
def CNAME : Nat := 5

/-- Modelled from the spec: record-type tag of a mail-exchange record. -/
def MX : Nat := 15

/-- Modelled from the spec: record-type tag of a name-server record. -/
def NS : Nat := 2

/-- Modelled from the spec: record-type tag of a pointer record. -/
def PTR : Nat := 12

/-- Modelled from the spec: record-type tag of a service record. -/
def SRV : Nat := 33

/-- Modelled from the spec: record-type tag of a text record. -/
def TXT : Nat := 16

end QDnsLookup

/-- Modelled from the spec: HostAddressRecord {name, ttl, address}. -/
structure QDnsHostAddressRecord where
  name : QString := ""
  timeToLive : Nat := 0
  value : QHostAddress := .Null
deriving DecidableEq, Repr

/-- Modelled from the spec: DomainNameRecord {name, ttl, value}, used for CNAME, NS and PTR. -/
structure QDnsDomainNameRecord where
  name : QString := ""
  timeToLive : Nat := 0
  value : QString := ""
deriving DecidableEq, Repr

/-- Modelled from the spec: MailExchangeRecord {name, ttl, exchange, preference}. -/
structure QDnsMailExchangeRecord where
  name : QString := ""
  exchange : QString := ""
  preference : Nat := 0
  timeToLive : Nat := 0
deriving DecidableEq, Repr

/-- Modelled from the spec: ServiceRecord {name, ttl, target, port, priority, weight}. -/
structure QDnsServiceRecord where
  name : QString := ""
  target : QString := ""
  port : Nat := 0
  priority : Nat := 0
  timeToLive : Nat := 0
  weight : Nat := 0
deriving DecidableEq, Repr

/-- Modelled from the spec: TextRecord {name, ttl, ordered sequence of byte-string values}. -/
structure QDnsTextRecord where
  name : QString := ""
  timeToLive : Nat := 0
  values : List QByteArray := []
deriving DecidableEq, Repr

/-- Modelled from the spec: the Reply, "one ordered sequence per record kind, plus an error kind
and human-readable error message" (qdnslookup_p.h is not among the sources). -/
structure QDnsLookupReply where
  error : QDnsLookup.Error := .NoError
  errorString : QString := ""
  canonicalNameRecords : List QDnsDomainNameRecord := []
  hostAddressRecords : List QDnsHostAddressRecord := []
  mailExchangeRecords : List QDnsMailExchangeRecord := []
  nameServerRecords : List QDnsDomainNameRecord := []
  pointerRecords : List QDnsDomainNameRecord := []
  serviceRecords : List QDnsServiceRecord := []
  textRecords : List QDnsTextRecord := []
deriving DecidableEq, Repr

/-- Modelled from the spec: the Query Request {name, record type, nameserver, port}, the members
of `QDnsLookupRunnable` that `query` reads (qdnslookup_p.h is not among the sources). -/
structure QDnsLookupRunnable where
  requestName : QString
  requestType : Nat
  nameserver : QHostAddress
  port : Nat

/-- Modelled from the spec: `DnsPort` (qdnslookup_p.h is not among the sources), the default DNS
port. -/
def DnsPort : Nat := 53

/-! ## Platform declarations -/

/-- Modelled from the spec: the success status (winerror.h is not among the sources), with the
value of the Windows SDK. -/
def ERROR_SUCCESS : DNS_STATUS := 0

/-- Modelled from the spec: "the platform timeout code" (winerror.h is not among the sources),
with the value of the Windows SDK. -/
def ERROR_TIMEOUT : DNS_STATUS := 1460

/-- Modelled from the spec: start of the reserved "DNS response code" range, the format-error
code (winerror.h is not among the sources), with the value of the Windows SDK. -/
def DNS_ERROR_RCODE_FORMAT_ERROR : DNS_STATUS := 9001

/-- Modelled from the spec: the server-failure code, Windows SDK value. -/
def DNS_ERROR_RCODE_SERVER_FAILURE : DNS_STATUS := 9002

/-- Modelled from the spec: the name-error code, Windows SDK value. -/
def DNS_ERROR_RCODE_NAME_ERROR : DNS_STATUS := 9003

/-- Modelled from the spec: the not-implemented code, Windows SDK value. -/
def DNS_ERROR_RCODE_NOT_IMPLEMENTED : DNS_STATUS := 9004

/-- Modelled from the spec: the refused code, Windows SDK value. -/
def DNS_ERROR_RCODE_REFUSED : DNS_STATUS := 9005

/-- Modelled from the spec: end of the reserved "DNS response code" range
(`DNS_ERROR_RCODE_BADTIME` in the Windows SDK). -/
def DNS_ERROR_RCODE_LAST : DNS_STATUS := 9018

/-- Modelled from the spec: query option of windns.h (not among the sources), Windows SDK value. -/
def DNS_QUERY_STANDARD : Nat := 0

/-- Modelled from the spec: query option of windns.h (not among the sources), "forcing
fully-qualified" queries, Windows SDK value. -/
def DNS_QUERY_TREAT_AS_FQDN : Nat := 0x1000

/-- The bytes `b0 b1 b2 b3` of a 32-bit word read in the opposite order. -/
def byteSwap32 (x : Nat) : Nat :=
  (x % 256) * 2 ^ 24 + (x / 2 ^ 8 % 256) * 2 ^ 16 + (x / 2 ^ 16 % 256) * 2 ^ 8 + x / 2 ^ 24 % 256

/-- Modelled from the spec: Winsock `ntohl` ("network byte order"), on the little-endian hosts
Windows runs on. -/
def ntohl (netlong : Nat) : Nat := byteSwap32 netlong

/-- Modelled from the spec: Winsock `htonl`, on the little-endian hosts Windows runs on. -/
def htonl (hostlong : Nat) : Nat := byteSwap32 hostlong

/-- Modelled from the spec: the socket address filled in by `setSockaddr`
(qnativesocketengine_p.h is not among the sources): family, port and address. -/
structure sockaddr where
  sa_family : Nat := 0
  sa_port : Nat := 0
  sa_addr : QHostAddress := .Null
deriving DecidableEq, Repr

/-- The struct `Qt_DnsAddr`: `CHAR MaxSa[32]` holds the socket address placed in it. -/
structure DNS_ADDR where
  MaxSa : sockaddr := {}
  DnsAddrUserDword : List Nat := List.replicate 8 0
deriving DecidableEq, Repr

/-- The struct `Qt_DnsAddrArray`. -/
structure DNS_ADDR_ARRAY where
  MaxCount : Nat := 0
  AddrCount : Nat := 0
  Tag : Nat := 0
  Family : Nat := 0
  WordReserved : Nat := 0
  Flags : Nat := 0
  MatchFlag : Nat := 0
  Reserved1 : Nat := 0
  Reserved2 : Nat := 0
  AddrArray : List DNS_ADDR := []
deriving DecidableEq, Repr

/-- The value of `sizeof(DNS_ADDR)`: `CHAR MaxSa[32]` and `DWORD DnsAddrUserDword[8]`. -/
def sizeof_DNS_ADDR : Nat := 32 + 8 * 4

/-- The value of `sizeof(DNS_ADDR_ARRAY)`: seven `DWORD`s and two `WORD`s; the flexible array adds nothing. -/
def sizeof_DNS_ADDR_ARRAY : Nat := 4 + 4 + 4 + 2 + 2 + 4 + 4 + 4 + 4

/-- The struct `Qt_DNS_QUERY_REQUEST`; the completion callback and its context stay null. -/
structure DNS_QUERY_REQUEST where
  Version : Nat := 0
  QueryName : QString := ""
  QueryType : Nat := 0
  QueryOptions : Nat := 0
  pDnsServerList : Option DNS_ADDR_ARRAY := none
  InterfaceIndex : Nat := 0
deriving DecidableEq, Repr

/-- Modelled from the spec: `IP4_ARRAY` of windns.h, the "legacy fixed-capacity address array
(capacity 1)". -/
structure IP4_ARRAY where
  AddrCount : Nat := 0
  AddrArray0 : Nat := 0
deriving DecidableEq, Repr

/-- Modelled from the spec: view `Data.A` of the payload union (windns.h). -/
structure DNS_A_DATA where
  IpAddress : Nat := 0

/-- Modelled from the spec: view `Data.AAAA` of the payload union, 16 bytes. -/
structure DNS_AAAA_DATA where
  Ip6Address : List Nat := []

/-- Modelled from the spec: the views `Data.Cname`, `Data.Ns`, `Data.Ptr`. -/
structure DNS_PTR_DATA where
  pNameHost : QString := ""

/-- Modelled from the spec: view `Data.Mx`. -/
structure DNS_MX_DATA where
  pNameExchange : QString := ""
  wPreference : Nat := 0

/-- Modelled from the spec: view `Data.Srv`. -/
structure DNS_SRV_DATA where
  pNameTarget : QString := ""
  wPriority : Nat := 0
  wWeight : Nat := 0
  wPort : Nat := 0

/-- Modelled from the spec: view `Data.Txt`, the "count-prefixed array of byte-strings";
`pStringArray i` is the string at index `i`. -/
structure DNS_TXT_DATA where
  dwStringCount : Nat := 0
  pStringArray : Nat → QString := fun _ => ""

/-- The payload union of a record, by its views. -/
structure DNS_RECORD_DATA where
  A : DNS_A_DATA := {}
  AAAA : DNS_AAAA_DATA := {}
  Cname : DNS_PTR_DATA := {}
  Mx : DNS_MX_DATA := {}
  Ns : DNS_PTR_DATA := {}
  Ptr : DNS_PTR_DATA := {}
  Srv : DNS_SRV_DATA := {}
  Txt : DNS_TXT_DATA := {}

/-- Modelled from the spec: the Raw Record Node (`DNS_RECORD` of windns.h): "a type tag, a name
reference, a time-to-live, and a type-specific payload union"; the `pNext` link is the tail of
the list the node stands in. -/
structure DNS_RECORD where
  pName : QString := ""
  wType : Nat := 0
  dwTtl : Nat := 0
  Data : DNS_RECORD_DATA := {}

abbrev PDNS_RECORD := List DNS_RECORD

/-- One call on the operating system's resolver library, with its arguments. -/
inductive PlatformCall
  | DnsQueryEx (request : DNS_QUERY_REQUEST)
  | DnsQuery_W (name : QString) (wType : Nat) (options : Nat) (srvList : IP4_ARRAY)
  | DnsRecordListFree (list : PDNS_RECORD)

namespace PlatformCall

/-- Whether the call is one of the two query entry points. -/
def isQuery : PlatformCall → Bool
  | DnsQueryEx _ => true
  | DnsQuery_W _ _ _ _ => true
  | DnsRecordListFree _ => false

/-- Whether the call is `DnsRecordListFree`. -/
def isListFree : PlatformCall → Bool
  | DnsRecordListFree _ => true
  | _ => false

end PlatformCall

/-- The routines `query` calls whose bodies are outside the translated file: Qt helpers and the
resolver entry points of the operating system. -/
structure Env where
  /-- The helper `QDnsLookupRunnable::decodeLabel`. -/
  decodeLabel : QString → QString
  /-- The conversion `QStringView::toLatin1`. -/
  toLatin1 : QString → QByteArray
  /-- The translation `tr` of a message. -/
  tr : String → QString
  /-- The text `QSystemError(status, QSystemError::NativeError).toString()`. -/
  systemErrorString : DNS_STATUS → QString
  /-- The helper `QDnsLookupReply::makeDnsRcodeError`. -/
  makeDnsRcodeError : Int → QDnsLookupReply → QDnsLookupReply
  /-- The helper `QDnsLookupReply::makeTimeoutError`. -/
  makeTimeoutError : QDnsLookupReply → QDnsLookupReply
  /-- The helper `QDnsLookupReply::makeResolverSystemError`. -/
  makeResolverSystemError : Int → QDnsLookupReply → QDnsLookupReply
  /-- The call `setSockaddr(sa, address, port)`, giving the socket address it leaves in `sa`. -/
  setSockaddr : sockaddr → QHostAddress → Nat → sockaddr
  /-- The result of `GetProcAddress(GetModuleHandle(L"Dnsapi"), "DnsQueryEx")`: `none` is the
  null pointer; the function gives the status and `results.pQueryRecords`. -/
  myDnsQueryEx : Option (DNS_QUERY_REQUEST → DNS_STATUS × PDNS_RECORD)
  /-- The call `DnsQuery_W(name, type, options, &srvList, &dns_records, NULL)`, giving the status and
  `dns_records`. -/
  DnsQuery_W : QString → Nat → Nat → IP4_ARRAY → DNS_STATUS × PDNS_RECORD

/-! ## The decoder -/

/-- The two locals `lastEncodedName` and `cachedDecodedName` that the lambdas capture. -/
structure NameCache where
  lastEncodedName : QString := ""
  cachedDecodedName : QString := ""
deriving DecidableEq, Repr

/-- The lambda `extractAndCacheHost`: the string it returns and the captured locals after. -/
def extractAndCacheHost (env : Env) (_c : NameCache) (name : QString) : QString × NameCache :=
  let lastEncodedName := name
  let cachedDecodedName := env.decodeLabel name
  (cachedDecodedName, { lastEncodedName := lastEncodedName, cachedDecodedName := cachedDecodedName })

/-- The lambda `extractMaybeCachedHost`. -/
def extractMaybeCachedHost (env : Env) (c : NameCache) (name : QString) : QString × NameCache :=
  if c.lastEncodedName = name then (c.cachedDecodedName, c) else extractAndCacheHost env c name

/-- The inner loop of the TXT branch: `for (i = 0; i < dwStringCount; ++i) values << ...`. -/
def txtValues (env : Env) (txt : DNS_TXT_DATA) : List QByteArray :=
  (List.range txt.dwStringCount).foldl
    (fun values i => values ++ [env.toLatin1 (txt.pStringArray i)]) []

/-- The body of the record loop, for the node `ptr`. The reference `name` is copied into the
record before `extractAndCacheHost` is called again, so it is the value returned by
`extractMaybeCachedHost`. -/
def decodeRecord (env : Env) (st : QDnsLookupReply × NameCache) (ptr : DNS_RECORD) :
    QDnsLookupReply × NameCache :=
  let reply := st.1
  let (name, c) := extractMaybeCachedHost env st.2 ptr.pName
  if ptr.wType = QDnsLookup.A then
    let record : QDnsHostAddressRecord :=
      { name := name, timeToLive := ptr.dwTtl, value := .IPv4 (ntohl ptr.Data.A.IpAddress) }
    ({ reply with hostAddressRecords := reply.hostAddressRecords ++ [record] }, c)
  else if ptr.wType = QDnsLookup.AAAA then
    let addr := ptr.Data.AAAA.Ip6Address
    let record : QDnsHostAddressRecord :=
      { name := name, timeToLive := ptr.dwTtl, value := .IPv6 addr }
    ({ reply with hostAddressRecords := reply.hostAddressRecords ++ [record] }, c)
  else if ptr.wType = QDnsLookup.CNAME then
    let (value, c2) := extractAndCacheHost env c ptr.Data.Cname.pNameHost
    let record : QDnsDomainNameRecord :=
      { name := name, timeToLive := ptr.dwTtl, value := value }
    ({ reply with canonicalNameRecords := reply.canonicalNameRecords ++ [record] }, c2)
  else if ptr.wType = QDnsLookup.MX then
    let record : QDnsMailExchangeRecord :=
      { name := name, exchange := env.decodeLabel ptr.Data.Mx.pNameExchange,
        preference := ptr.Data.Mx.wPreference, timeToLive := ptr.dwTtl }
    ({ reply with mailExchangeRecords := reply.mailExchangeRecords ++ [record] }, c)
  else if ptr.wType = QDnsLookup.NS then
    let record : QDnsDomainNameRecord :=
      { name := name, timeToLive := ptr.dwTtl, value := env.decodeLabel ptr.Data.Ns.pNameHost }
    ({ reply with nameServerRecords := reply.nameServerRecords ++ [record] }, c)
  else if ptr.wType = QDnsLookup.PTR then
    let record : QDnsDomainNameRecord :=
      { name := name, timeToLive := ptr.dwTtl, value := env.decodeLabel ptr.Data.Ptr.pNameHost }
    ({ reply with pointerRecords := reply.pointerRecords ++ [record] }, c)
  else if ptr.wType = QDnsLookup.SRV then
    let record : QDnsServiceRecord :=
      { name := name, target := env.decodeLabel ptr.Data.Srv.pNameTarget,
        port := ptr.Data.Srv.wPort, priority := ptr.Data.Srv.wPriority,
        timeToLive := ptr.dwTtl, weight := ptr.Data.Srv.wWeight }
    ({ reply with serviceRecords := reply.serviceRecords ++ [record] }, c)
  else if ptr.wType = QDnsLookup.TXT then
    let record : QDnsTextRecord :=
      { name := name, timeToLive := ptr.dwTtl, values := txtValues env ptr.Data.Txt }
    ({ reply with textRecords := reply.textRecords ++ [record] }, c)
  else
    (reply, c)

/-- The record loop `for (ptr = ptrStart; ptr != NULL; ptr = ptr->pNext)`, from a given state of
the reply and of the captured locals. -/
def decodeLoop (env : Env) (st : QDnsLookupReply × NameCache) (ptrStart : PDNS_RECORD) :
    QDnsLookupReply × NameCache :=
  ptrStart.foldl (decodeRecord env) st

/-- The part of `query` after the strategy branches: the null check, the declaration of the two
cache locals, the record loop and `DnsRecordListFree`. `calls` are the platform calls made so
far. -/
def extractResults (env : Env) (reply : QDnsLookupReply) (ptrStart : PDNS_RECORD)
    (calls : List PlatformCall) : QDnsLookupReply × List PlatformCall :=
  if ptrStart.isEmpty then
    (reply, calls)
  else
    let st := decodeLoop env (reply, { lastEncodedName := "", cachedDecodedName := "" }) ptrStart
    (st.1, calls ++ [.DnsRecordListFree ptrStart])

/-- The request the extended strategy builds. -/
def buildRequest (env : Env) (self : QDnsLookupRunnable) : DNS_QUERY_REQUEST :=
  let request : DNS_QUERY_REQUEST :=
    { Version := 1, QueryName := self.requestName, QueryType := self.requestType,
      QueryOptions := DNS_QUERY_STANDARD ||| DNS_QUERY_TREAT_AS_FQDN }
  if !self.nameserver.isNull then
    let sa := env.setSockaddr {} self.nameserver (if self.port = DnsPort then 0 else self.port)
    let addr : DNS_ADDR := { MaxSa := sa }
    { request with
      pDnsServerList := some
        { MaxCount := sizeof_DNS_ADDR_ARRAY + sizeof_DNS_ADDR, AddrCount := 1,
          Family := sa.sa_family, AddrArray := [addr] } }
  else
    request

/-- The legacy strategy from the call of `DnsQuery_W` on: the call, the `switch` on its status
and, after `ptrStart = dns_records`, the shared tail. -/
def queryLegacyCall (env : Env) (self : QDnsLookupRunnable) (reply : QDnsLookupReply)
    (requestNameUtf16 : QString) (srvList : IP4_ARRAY) : QDnsLookupReply × List PlatformCall :=
  let results := env.DnsQuery_W requestNameUtf16 self.requestType DNS_QUERY_STANDARD srvList
  let status := results.1
  let calls :=
    [PlatformCall.DnsQuery_W requestNameUtf16 self.requestType DNS_QUERY_STANDARD srvList]
  if status = ERROR_SUCCESS then
    extractResults env reply results.2 calls
  else if status = DNS_ERROR_RCODE_FORMAT_ERROR then
    ({ reply with error := .InvalidRequestError,
                  errorString := env.tr "Server could not process query" }, calls)
  else if status = DNS_ERROR_RCODE_SERVER_FAILURE
      ∨ status = DNS_ERROR_RCODE_NOT_IMPLEMENTED then
    ({ reply with error := .ServerFailureError,
                  errorString := env.tr "Server failure" }, calls)
  else if status = DNS_ERROR_RCODE_NAME_ERROR then
    ({ reply with error := .NotFoundError,
                  errorString := env.tr "Non existent domain" }, calls)
  else if status = DNS_ERROR_RCODE_REFUSED then
    ({ reply with error := .ServerRefusedError,
                  errorString := env.tr "Server refused to answer" }, calls)
  else
    ({ reply with error := .InvalidReplyError,
                  errorString := env.systemErrorString status }, calls)

/-- The function `QDnsLookupRunnable::query`: the reply it leaves and the platform calls it made, in order.
The name handed to `DnsQuery_W` is `requestName` taken through UTF-8 and back, which leaves a
string unchanged. -/
def query (env : Env) (self : QDnsLookupRunnable) (reply : QDnsLookupReply) :
    QDnsLookupReply × List PlatformCall :=
  match env.myDnsQueryEx with
  | some myDnsQueryEx =>
    let request := buildRequest env self
    let results := myDnsQueryEx request
    let status := results.1
    let calls := [PlatformCall.DnsQueryEx request]
    if DNS_ERROR_RCODE_FORMAT_ERROR ≤ status ∧ status ≤ DNS_ERROR_RCODE_LAST then
      (env.makeDnsRcodeError (status - DNS_ERROR_RCODE_FORMAT_ERROR + 1) reply, calls)
    else if status = ERROR_TIMEOUT then
      (env.makeTimeoutError reply, calls)
    else if status ≠ ERROR_SUCCESS then
      (env.makeResolverSystemError status reply, calls)
    else
      extractResults env reply results.2 calls
  | none =>
    let requestNameUtf16 := self.requestName
    let srvList : IP4_ARRAY := {}
    if !self.nameserver.isNull then
      if self.nameserver.protocol = .IPv4Protocol then
        queryLegacyCall env self reply requestNameUtf16
          { srvList with AddrCount := 1, AddrArray0 := htonl self.nameserver.toIPv4Address }
      else if self.nameserver.protocol = .IPv6Protocol then
        ({ reply with
            error := .ResolverError,
            errorString := env.tr "IPv6 addresses for nameservers are currently not supported" },
          [])
      else
        queryLegacyCall env self reply requestNameUtf16 srvList
    else
      queryLegacyCall env self reply requestNameUtf16 srvList

/-- The server list the legacy strategy hands to `DnsQuery_W`: zeroed, and holding the
nameserver in network byte order when it is an IPv4 address. -/
def legacySrvList (self : QDnsLookupRunnable) : IP4_ARRAY :=
  match self.nameserver with
  | .IPv4 a => { AddrCount := 1, AddrArray0 := htonl a }
  | _ => {}

/-! ## A double for the platform, and sample inputs -/

/-- Modelled from the spec: `QDnsLookupReply::makeDnsRcodeError` (qdnslookup_p.h is not among the
sources), "signal a response-code error" with the given numeric code, the error kind following
the taxonomy of the spec. -/
def makeDnsRcodeErrorDouble (rcode : Int) (reply : QDnsLookupReply) : QDnsLookupReply :=
  if rcode = 1 then
    { reply with error := .InvalidRequestError, errorString := "Server could not process query" }
  else if rcode = 2 ∨ rcode = 4 then
    { reply with error := .ServerFailureError, errorString := "Server failure" }
  else if rcode = 3 then
    { reply with error := .NotFoundError, errorString := "Non existent domain" }
  else if rcode = 5 then
    { reply with error := .ServerRefusedError, errorString := "Server refused to answer" }
  else
    { reply with error := .InvalidReplyError,
                 errorString := "Invalid reply received (rcode " ++ toString rcode ++ ")" }

/-- Modelled from the spec: `QDnsLookupReply::makeTimeoutError` (qdnslookup_p.h is not among the
sources), "signal a timeout error". -/
def makeTimeoutErrorDouble (reply : QDnsLookupReply) : QDnsLookupReply :=
  { reply with error := .TimeoutError, errorString := "Request timed out" }

/-- Modelled from the spec: `QDnsLookupReply::makeResolverSystemError` (qdnslookup_p.h is not
among the sources), "signal a generic resolver/system error carrying the platform status
text". -/
def makeResolverSystemErrorDouble (code : Int) (reply : QDnsLookupReply) : QDnsLookupReply :=
  { reply with error := .ResolverError, errorString := "System error " ++ toString code }

/-- Modelled from the spec: `setSockaddr` (qnativesocketengine_p.h is not among the sources):
the address family is "derived from the nameserver's own address family"; 2 and 23 are
`AF_INET` and `AF_INET6` on Windows. -/
def setSockaddrDouble (sa : sockaddr) (address : QHostAddress) (port : Nat) : sockaddr :=
  match address with
  | .IPv4 _ => { sa_family := 2, sa_port := port, sa_addr := address }
  | .IPv6 _ => { sa_family := 23, sa_port := port, sa_addr := address }
  | .Any => { sa_family := 23, sa_port := port, sa_addr := address }
  | .Null => sa

/-- Modelled from the spec: `QStringView::toLatin1`: a character outside Latin-1 becomes `?`. -/
def toLatin1Double (s : QString) : QByteArray :=
  s.toList.map (fun ch => if ch.toNat < 256 then ch.toNat else 63)

/-- A double for the platform: the resolver answers every query with `status` and `records`;
`extended` tells whether `DnsQueryEx` is found. Names made of plain letters, digits, dots and
hyphens decode to themselves, so `decodeLabel` is the identity here. -/
def platformDouble (extended : Bool) (status : DNS_STATUS) (records : PDNS_RECORD) : Env where
  decodeLabel := fun name => name
  toLatin1 := toLatin1Double
  tr := fun message => message
  systemErrorString := fun code => "System error " ++ toString code
  makeDnsRcodeError := makeDnsRcodeErrorDouble
  makeTimeoutError := makeTimeoutErrorDouble
  makeResolverSystemError := makeResolverSystemErrorDouble
  setSockaddr := setSockaddrDouble
  myDnsQueryEx := if extended then some (fun _ => (status, records)) else none
  DnsQuery_W := fun _ _ _ _ => (status, records)

/-- A double for a platform on which `DnsQueryEx` is not found. -/
def legacyDouble (status : DNS_STATUS) (records : PDNS_RECORD) : Env :=
  platformDouble false status records

/-- A request for the A records of `example.com` from the default nameserver. -/
def sampleRequest : QDnsLookupRunnable :=
  { requestName := "example.com", requestType := QDnsLookup.A, nameserver := .Null,
    port := DnsPort }

/-- The same request sent to the IPv6 nameserver `2001:db8::1`. -/
def sampleRequestV6 : QDnsLookupRunnable :=
  { sampleRequest with
    nameserver := .IPv6 [0x20, 0x01, 0x0d, 0xb8, 0, 0, 0, 0, 0, 0, 0, 0, 0, 0, 0, 1] }

/-- An A node for `example.com`: TTL 300, 93.184.216.34 stored in network byte order. -/
def sampleA : DNS_RECORD :=
  { pName := "example.com", wType := QDnsLookup.A, dwTtl := 300,
    Data := { A := { IpAddress := htonl (93 * 2 ^ 24 + 184 * 2 ^ 16 + 216 * 2 ^ 8 + 34) } } }

/-! ## The decoder the specification describes -/

/-- The dispatch on the type tag with the owner name already decoded, following the
specification of the Record Decoder: A and AAAA give a HostAddressRecord, CNAME, NS and PTR a
DomainNameRecord from their name payload, MX a MailExchangeRecord, SRV a ServiceRecord, TXT a
TextRecord; any other type tag is skipped. -/
def appendDecoded (env : Env) (reply : QDnsLookupReply) (name : QString) (ptr : DNS_RECORD) :
    QDnsLookupReply :=
  if ptr.wType = QDnsLookup.A then
    { reply with hostAddressRecords := reply.hostAddressRecords ++
        [{ name := name, timeToLive := ptr.dwTtl, value := .IPv4 (ntohl ptr.Data.A.IpAddress) }] }
  else if ptr.wType = QDnsLookup.AAAA then
    { reply with hostAddressRecords := reply.hostAddressRecords ++
        [{ name := name, timeToLive := ptr.dwTtl, value := .IPv6 ptr.Data.AAAA.Ip6Address }] }
  else if ptr.wType = QDnsLookup.CNAME then
    { reply with canonicalNameRecords := reply.canonicalNameRecords ++
        [{ name := name, timeToLive := ptr.dwTtl,
           value := env.decodeLabel ptr.Data.Cname.pNameHost }] }
  else if ptr.wType = QDnsLookup.MX then
    { reply with mailExchangeRecords := reply.mailExchangeRecords ++
        [{ name := name, exchange := env.decodeLabel ptr.Data.Mx.pNameExchange,
           preference := ptr.Data.Mx.wPreference, timeToLive := ptr.dwTtl }] }
  else if ptr.wType = QDnsLookup.NS then
    { reply with nameServerRecords := reply.nameServerRecords ++
        [{ name := name, timeToLive := ptr.dwTtl,
           value := env.decodeLabel ptr.Data.Ns.pNameHost }] }
  else if ptr.wType = QDnsLookup.PTR then
    { reply with pointerRecords := reply.pointerRecords ++
        [{ name := name, timeToLive := ptr.dwTtl,
           value := env.decodeLabel ptr.Data.Ptr.pNameHost }] }
  else if ptr.wType = QDnsLookup.SRV then
    { reply with serviceRecords := reply.serviceRecords ++
        [{ name := name, target := env.decodeLabel ptr.Data.Srv.pNameTarget,
           port := ptr.Data.Srv.wPort, priority := ptr.Data.Srv.wPriority,
           timeToLive := ptr.dwTtl, weight := ptr.Data.Srv.wWeight }] }
  else if ptr.wType = QDnsLookup.TXT then
    { reply with textRecords := reply.textRecords ++
        [{ name := name, timeToLive := ptr.dwTtl,
           values := (List.range ptr.Data.Txt.dwStringCount).map
             (fun i => env.toLatin1 (ptr.Data.Txt.pStringArray i)) }] }
  else
    reply

/-- The decoder without the cache: every node has its own name decoded by `decodeLabel`,
independently of the nodes before it. -/
def decodeIndependent (env : Env) (reply : QDnsLookupReply) (records : PDNS_RECORD) :
    QDnsLookupReply :=
  records.foldl (fun r ptr => appendDecoded env r (env.decodeLabel ptr.pName) ptr) reply

/-- The cache slot answers for the name it holds what `decodeLabel` would answer. -/
def NameCache.Consistent (env : Env) (c : NameCache) : Prop :=
  c.cachedDecodedName = env.decodeLabel c.lastEncodedName

/-- The cache slot is either consistent or still in the state the two locals start in. -/
def NameCache.Settled (env : Env) (c : NameCache) : Prop :=
  c.Consistent env ∨ (c.lastEncodedName = "" ∧ c.cachedDecodedName = "")

/-- A list of two nodes: one of an unsupported type (SOA, type 6) followed by `sampleA`. -/
def sampleWithUnknown : PDNS_RECORD :=
  [{ pName := "example.com", wType := 6, dwTtl := 60 }, sampleA]

/-- The type tags the decoder has a branch for. -/
def isSupportedType (wType : Nat) : Bool :=
  wType = QDnsLookup.A || wType = QDnsLookup.AAAA || wType = QDnsLookup.CNAME
    || wType = QDnsLookup.MX || wType = QDnsLookup.NS || wType = QDnsLookup.PTR
    || wType = QDnsLookup.SRV || wType = QDnsLookup.TXT

/-- The HostAddressRecord of an A or AAAA node whose owner name decodes to `name`. -/
def hostAddressEntry (name : QString) (ptr : DNS_RECORD) : QDnsHostAddressRecord :=
  { name := name, timeToLive := ptr.dwTtl,
    value := if ptr.wType = QDnsLookup.A then .IPv4 (ntohl ptr.Data.A.IpAddress)
             else .IPv6 ptr.Data.AAAA.Ip6Address }

/-- The DomainNameRecord of a node whose owner name decodes to `name`, for the name payload
`pNameHost` of its kind. -/
def domainNameEntry (env : Env) (name : QString) (ptr : DNS_RECORD) (pNameHost : QString) :
    QDnsDomainNameRecord :=
  { name := name, timeToLive := ptr.dwTtl, value := env.decodeLabel pNameHost }

/-- The MailExchangeRecord of an MX node whose owner name decodes to `name`. -/
def mailExchangeEntry (env : Env) (name : QString) (ptr : DNS_RECORD) : QDnsMailExchangeRecord :=
  { name := name, exchange := env.decodeLabel ptr.Data.Mx.pNameExchange,
    preference := ptr.Data.Mx.wPreference, timeToLive := ptr.dwTtl }

/-- The ServiceRecord of an SRV node whose owner name decodes to `name`. -/
def serviceEntry (env : Env) (name : QString) (ptr : DNS_RECORD) : QDnsServiceRecord :=
  { name := name, target := env.decodeLabel ptr.Data.Srv.pNameTarget,
    port := ptr.Data.Srv.wPort, priority := ptr.Data.Srv.wPriority,
    timeToLive := ptr.dwTtl, weight := ptr.Data.Srv.wWeight }

/-- The TextRecord of a TXT node whose owner name decodes to `name`. -/
def textEntry (env : Env) (name : QString) (ptr : DNS_RECORD) : QDnsTextRecord :=
  { name := name, timeToLive := ptr.dwTtl,
    values := (List.range ptr.Data.Txt.dwStringCount).map
      (fun i => env.toLatin1 (ptr.Data.Txt.pStringArray i)) }

/-- What `out` holds beyond `reply` is, sequence by sequence, one entry for each node of the
matching type, in the order of `nodes`; a node comes with the decoded owner name it was given. -/
def AppendedInWireOrder (env : Env) (reply out : QDnsLookupReply)
    (nodes : List (QString × DNS_RECORD)) : Prop :=
  out.hostAddressRecords = reply.hostAddressRecords ++
      (nodes.filter (fun p => p.2.wType = QDnsLookup.A ∨ p.2.wType = QDnsLookup.AAAA)).map
        (fun p => hostAddressEntry p.1 p.2)
    ∧ out.canonicalNameRecords = reply.canonicalNameRecords ++
      (nodes.filter (fun p => p.2.wType = QDnsLookup.CNAME)).map
        (fun p => domainNameEntry env p.1 p.2 p.2.Data.Cname.pNameHost)
    ∧ out.mailExchangeRecords = reply.mailExchangeRecords ++
      (nodes.filter (fun p => p.2.wType = QDnsLookup.MX)).map
        (fun p => mailExchangeEntry env p.1 p.2)
    ∧ out.nameServerRecords = reply.nameServerRecords ++
      (nodes.filter (fun p => p.2.wType = QDnsLookup.NS)).map
        (fun p => domainNameEntry env p.1 p.2 p.2.Data.Ns.pNameHost)
    ∧ out.pointerRecords = reply.pointerRecords ++
      (nodes.filter (fun p => p.2.wType = QDnsLookup.PTR)).map
        (fun p => domainNameEntry env p.1 p.2 p.2.Data.Ptr.pNameHost)
    ∧ out.serviceRecords = reply.serviceRecords ++
      (nodes.filter (fun p => p.2.wType = QDnsLookup.SRV)).map
        (fun p => serviceEntry env p.1 p.2)
    ∧ out.textRecords = reply.textRecords ++
      (nodes.filter (fun p => p.2.wType = QDnsLookup.TXT)).map
        (fun p => textEntry env p.1 p.2)

/-- A CNAME node, then two A nodes that share the owner name the CNAME points to. -/
def sampleChain : PDNS_RECORD :=
  [{ pName := "www.example.com", wType := QDnsLookup.CNAME, dwTtl := 60,
     Data := { Cname := { pNameHost := "example.com" } } },
   sampleA, sampleA]

/-- A TXT node whose string array is empty. -/
def sampleTxtEmpty : DNS_RECORD :=
  { pName := "example.com", wType := QDnsLookup.TXT, dwTtl := 60,
    Data := { Txt := { dwStringCount := 0 } } }

/-- A TXT node with the two strings `ab` and `c`. -/
def sampleTxt : DNS_RECORD :=
  { pName := "example.com", wType := QDnsLookup.TXT, dwTtl := 60,
    Data := { Txt := { dwStringCount := 2,
                       pStringArray := fun i => if i = 0 then "ab" else "c" } } }

/-- The seven record sequences of `a` are those of `b`. -/
def QDnsLookupReply.sameRecords (a b : QDnsLookupReply) : Prop :=
  a.canonicalNameRecords = b.canonicalNameRecords
    ∧ a.hostAddressRecords = b.hostAddressRecords
    ∧ a.mailExchangeRecords = b.mailExchangeRecords
    ∧ a.nameServerRecords = b.nameServerRecords
    ∧ a.pointerRecords = b.pointerRecords
    ∧ a.serviceRecords = b.serviceRecords
    ∧ a.textRecords = b.textRecords

/-- Each record sequence of `out` starts with the whole of the same sequence of `reply`, in the
same order. -/
def QDnsLookupReply.keepsRecordsOf (out reply : QDnsLookupReply) : Prop :=
  reply.canonicalNameRecords <+: out.canonicalNameRecords
    ∧ reply.hostAddressRecords <+: out.hostAddressRecords
    ∧ reply.mailExchangeRecords <+: out.mailExchangeRecords
    ∧ reply.nameServerRecords <+: out.nameServerRecords
    ∧ reply.pointerRecords <+: out.pointerRecords
    ∧ reply.serviceRecords <+: out.serviceRecords
    ∧ reply.textRecords <+: out.textRecords

/-- Modelled from the spec: what the three error helpers of the reply (qdnslookup_p.h is not
among the sources) are allowed to do: they "signal" an error on the reply, that is, write its
error kind and message, and leave the record sequences as they are. -/
def Env.HelpersSetErrorOnly (env : Env) : Prop :=
  (∀ rcode reply, (env.makeDnsRcodeError rcode reply).sameRecords reply)
    ∧ (∀ reply, (env.makeTimeoutError reply).sameRecords reply)
    ∧ (∀ code reply, (env.makeResolverSystemError code reply).sameRecords reply)

/-- The state the two cache locals are declared in. -/
def NameCache.start : NameCache := { lastEncodedName := "", cachedDecodedName := "" }

/-- A reply that already holds one host-address record. -/
def sampleReply : QDnsLookupReply :=
  { hostAddressRecords := [{ name := "old.example.com", timeToLive := 5, value := .IPv4 1 }] }

/-- The ways a run of `query` can end, told from the reply it leaves: one of the three error
helpers was called on the incoming reply, or the error fields were assigned an error kind, or
the record loop ran over a list (which, on the null list, leaves the reply as it came). -/
def ReturnsNormally (env : Env) (reply out : QDnsLookupReply) : Prop :=
  (∃ rcode, out = env.makeDnsRcodeError rcode reply)
    ∨ out = env.makeTimeoutError reply
    ∨ (∃ status, out = env.makeResolverSystemError status reply)
    ∨ (∃ e msg, e ≠ QDnsLookup.Error.NoError
          ∧ out = { reply with error := e, errorString := msg })
    ∨ (∃ records, out = (decodeLoop env (reply, NameCache.start) records).1)

/-- The 32-bit word a little-endian host reads from the four bytes `b0 b1 b2 b3` standing in
memory in this order, lowest address first: the way the platform stores the four bytes of an
IPv4 address taken from the wire. -/
def wordOfBytes (b0 b1 b2 b3 : Nat) : Nat :=
  b0 + b1 * 2 ^ 8 + b2 * 2 ^ 16 + b3 * 2 ^ 24

/-- An SRV node with three different 16-bit fields. -/
def sampleSrv : DNS_RECORD :=
  { pName := "_sip._tcp.example.com", wType := QDnsLookup.SRV, dwTtl := 120,
    Data := { Srv := { pNameTarget := "sip.example.com", wPriority := 10, wWeight := 20,
                       wPort := 5060 } } }

/-- An MX node. -/
def sampleMx : DNS_RECORD :=
  { pName := "example.com", wType := QDnsLookup.MX, dwTtl := 3600,
    Data := { Mx := { pNameExchange := "mail.example.com", wPreference := 10 } } }

/-- A CNAME node whose other name views hold other names. -/
def sampleCname : DNS_RECORD :=
  { pName := "www.example.com", wType := QDnsLookup.CNAME, dwTtl := 60,
    Data := { Cname := { pNameHost := "example.com" }, Ns := { pNameHost := "ns.invalid" },
              Ptr := { pNameHost := "ptr.invalid" } } }

/-- An NS node. -/
def sampleNs : DNS_RECORD :=
  { pName := "example.com", wType := QDnsLookup.NS, dwTtl := 86400,
    Data := { Ns := { pNameHost := "a.iana-servers.net" } } }

/-- A PTR node. -/
def samplePtr : DNS_RECORD :=
  { pName := "34.216.184.93.in-addr.arpa", wType := QDnsLookup.PTR, dwTtl := 30,
    Data := { Ptr := { pNameHost := "example.com" } } }

/-- An AAAA node for `2001:db8::1`. -/
def sampleAAAA : DNS_RECORD :=
  { pName := "example.com", wType := QDnsLookup.AAAA, dwTtl := 300,
    Data := { AAAA := { Ip6Address :=
      [0x20, 0x01, 0x0d, 0xb8, 0, 0, 0, 0, 0, 0, 0, 0, 0, 0, 0, 1] } } }

/-- A request sent to the IPv4 nameserver 192.0.2.53 on the default port. -/
def sampleRequestV4 : QDnsLookupRunnable :=
  { sampleRequest with nameserver := .IPv4 (192 * 2 ^ 24 + 2 * 2 ^ 8 + 53) }

/-- The same request on port 5353. -/
def sampleRequestPort : QDnsLookupRunnable :=
  { sampleRequestV4 with port := 5353 }

end QDnsLookupWin

/-! # vxkex.h: stand-ins for the DPI functions of later Windows versions

A shallow embedding of `GetSystemMetricsForDpi`, `GetScaleFactorForMonitor` and
`GetDpiForMonitor` of `qtbase/src/plugins/platforms/windows/vxkex.h`. `INT` and `UINT` are 32
bits wide; a value is an `Int` or a `Nat`, and every conversion and every product that can leave
the 32 bits is written out. The functions of the operating system are parameters. -/

namespace vxkex

/-- The `UINT` an `INT` becomes in an unsigned operation. -/
def toUINT (x : Int) : Nat := (x % 2 ^ 32).toNat

/-- The `INT` a `UINT` becomes when it is stored in one. -/
def toINT (x : Nat) : Int :=
  if x % 2 ^ 32 < 2 ^ 31 then ((x % 2 ^ 32 : Nat) : Int) else ((x % 2 ^ 32 : Nat) : Int) - 2 ^ 32

/-- The constant of winuser.h (Windows SDK). -/
def USER_DEFAULT_SCREEN_DPI : Int := 96

/-- The indices of the `switch` of `GetSystemMetricsForDpi`, in the order of its case labels,
with their values in winuser.h (Windows SDK): `SM_CXVSCROLL`, `SM_CYHSCROLL`, `SM_CYCAPTION`,
`SM_CYVTHUMB`, `SM_CXHTHUMB`, `SM_CXICON`, `SM_CYICON`, `SM_CXCURSOR`, `SM_CYCURSOR`,
`SM_CYMENU`, `SM_CYVSCROLL`, `SM_CXHSCROLL`, `SM_CXMIN`, `SM_CXMINTRACK`, `SM_CYMIN`,
`SM_CYMINTRACK`, `SM_CXSIZE`, `SM_CXFRAME`, `SM_CYFRAME`, `SM_CXICONSPACING`,
`SM_CYICONSPACING`, `SM_CXSMICON`, `SM_CYSMICON`, `SM_CYSMCAPTION`, `SM_CXSMSIZE`,
`SM_CYSMSIZE`, `SM_CXMENUSIZE`, `SM_CYMENUSIZE`, `SM_CXMENUCHECK`, `SM_CYMENUCHECK`. -/
def pixelMetrics : List Int :=
  [2, 3, 4, 9, 10, 11, 12, 13, 14, 15, 20, 21, 28, 34, 29, 35, 30, 32, 33, 38, 39, 49, 50, 51,
   52, 53, 54, 55, 71, 72]

/-- The index `SM_CXICON` of winuser.h (Windows SDK). -/
def SM_CXICON : Int := 11

/-- The index `SM_CXSCREEN` of winuser.h (Windows SDK), not one of the case labels. -/
def SM_CXSCREEN : Int := 0

/-- The function `vxkex::GetSystemMetricsForDpi`. `Value *= Dpi` multiplies an `INT` by a
`UINT`: the product is taken in `UINT` and stored back in the `INT`; `Value /= 96` is the
signed division, which truncates. -/
def GetSystemMetricsForDpi (GetSystemMetrics : Int → Int) (Index : Int) (Dpi : Nat) : Int :=
  let Value := GetSystemMetrics Index
  if Index ∈ pixelMetrics then
    let Value := toINT (toUINT Value * Dpi)
    Int.tdiv Value USER_DEFAULT_SCREEN_DPI
  else
    Value

/-- The functions of the operating system the DPI stand-ins call: `GetDC n` is what the `n`-th
call of `GetDC(NULL)` returns, `none` being the null handle. -/
structure Gdi where
  IsProcessDPIAware : Bool
  GetDC : Nat → Option Nat
  GetDeviceCaps : Nat → Int → Int

/-- The index `LOGPIXELSX` of wingdi.h (Windows SDK). -/
def LOGPIXELSX : Int := 88

/-- The index `LOGPIXELSY` of wingdi.h (Windows SDK). -/
def LOGPIXELSY : Int := 90

/-- The result `S_OK` of winerror.h (Windows SDK). -/
def S_OK : Int := 0

/-- The result `E_INVALIDARG` of winerror.h (Windows SDK), 0x80070057 as an `HRESULT`. -/
def E_INVALIDARG : Int := 0x80070057 - 2 ^ 32

/-- The enumerator `MDT_EFFECTIVE_DPI` of shellscalingapi.h (Windows SDK). -/
def MDT_EFFECTIVE_DPI : Int := 0

/-- The macro `MDT_MAXIMUM_DPI` defined at the head of vxkex.h. -/
def MDT_MAXIMUM_DPI : Int := 3

/-- The enumerator `SCALE_100_PERCENT` of shtypes.h (Windows SDK). -/
def SCALE_100_PERCENT : Int := 100

/-- The function `vxkex::GetScaleFactorForMonitor`, `calls` being the number of calls of
`GetDC` made before: the result, the scale factor written, and the number of calls of `GetDC`
after. There is no result when `LogPixelsX` is zero: the division faults. -/
def GetScaleFactorForMonitor (gdi : Gdi) (calls : Nat) : Option (Int × Int × Nat) :=
  match gdi.GetDC calls with
  | none => some (S_OK, SCALE_100_PERCENT, calls + 1)
  | some DeviceContext =>
    let LogPixelsX := toUINT (gdi.GetDeviceCaps DeviceContext LOGPIXELSX)
    if LogPixelsX = 0 then
      none
    else
      some (S_OK, ((9600 / LogPixelsX : Nat) : Int), calls + 1)

/-- The function `vxkex::GetDpiForMonitor`; `DpiX` and `DpiY` tell whether the two pointers are
non-null. The result comes with the pair written to `*DpiX` and `*DpiY`, if one is written.
There is no result when `GetScaleFactorForMonitor` has none. -/
def GetDpiForMonitor (gdi : Gdi) (calls : Nat) (DpiType : Int) (DpiX DpiY : Bool) :
    Option (Int × Option (Nat × Nat)) :=
  if DpiType ≥ MDT_MAXIMUM_DPI then
    some (E_INVALIDARG, none)
  else if !DpiX || !DpiY then
    some (E_INVALIDARG, none)
  else if !gdi.IsProcessDPIAware then
    some (S_OK, some (USER_DEFAULT_SCREEN_DPI.toNat, USER_DEFAULT_SCREEN_DPI.toNat))
  else
    match gdi.GetDC calls with
    | none => some (S_OK, some (USER_DEFAULT_SCREEN_DPI.toNat, USER_DEFAULT_SCREEN_DPI.toNat))
    | some DeviceContext =>
      let x := toUINT (gdi.GetDeviceCaps DeviceContext LOGPIXELSX)
      let y := toUINT (gdi.GetDeviceCaps DeviceContext LOGPIXELSY)
      if DpiType = MDT_EFFECTIVE_DPI then
        match GetScaleFactorForMonitor gdi (calls + 1) with
        | none => none
        | some (_, ScaleFactor, _) =>
          let x := (x * toUINT ScaleFactor) % 2 ^ 32
          let y := (y * toUINT ScaleFactor) % 2 ^ 32
          some (S_OK, some (x / 100, y / 100))
      else
        some (S_OK, some (x, y))

/-- A system on which every call of `GetDC` succeeds and the device has `L` dots per inch in
both directions. -/
def gdiDouble (L : Int) : Gdi :=
  { IsProcessDPIAware := true, GetDC := fun n => some n, GetDeviceCaps := fun _ _ => L }

/-- A system on which the first call of `GetDC` succeeds and every later one returns the null
handle, the device having `L` dots per inch in both directions. -/
def gdiSecondDcFails (L : Int) : Gdi :=
  { IsProcessDPIAware := true, GetDC := fun n => if n = 0 then some 0 else none,
    GetDeviceCaps := fun _ _ => L }

/-- A system on which `GetDC` returns the null handle. -/
def gdiNoDc (L : Int) : Gdi :=
  { IsProcessDPIAware := true, GetDC := fun _ => none, GetDeviceCaps := fun _ _ => L }

end vxkex

/-! # QVulkanInstance

A shallow embedding of the configuration and creation functions of
`src/gui/vulkan/qvulkaninstance.cpp`. The state is the private object behind `d_ptr`; the
platform plugin is a parameter. -/

namespace QVulkan

abbrev VkResult := Int

abbrev VkInstance := Nat

/-- The result `VK_SUCCESS` of the Vulkan headers. -/
def VK_SUCCESS : VkResult := 0

/-- The result `VK_NOT_READY` of the Vulkan headers. -/
def VK_NOT_READY : VkResult := 1

/-- The null handle. -/
def VK_NULL_HANDLE : VkInstance := 0

/-- What a `QPlatformVulkanInstance` answers to the queries `create` makes of it. -/
structure QPlatformVulkanInstance where
  isValid : Bool
  vkInstance : VkInstance
  enabledLayers : List String
  enabledExtensions : List String
  errorCode : VkResult
deriving DecidableEq, Repr

/-- The members of `QVulkanInstancePrivate` the translated functions use; `platformInst` is
`none` when the scoped pointer is null, `funcs` tells whether the functions object exists. -/
structure QVulkanInstancePrivate where
  platformInst : Option QPlatformVulkanInstance := none
  vkInst : VkInstance := VK_NULL_HANDLE
  flags : Nat := 0
  layers : List String := []
  extensions : List String := []
  apiVersion : List Nat := []
  errorCode : VkResult := VK_SUCCESS
  funcs : Bool := false
  deviceFuncs : List Nat := []
  debugFilters : List Nat := []
  debugUtilsFilters : List Nat := []
deriving DecidableEq, Repr

/-- The platform plugin: what `createPlatformVulkanInstance` returns for the instance (`none`
is the null pointer), and what the methods of the platform instance that change it leave. -/
structure Platform where
  createPlatformVulkanInstance : QVulkanInstancePrivate → Option QPlatformVulkanInstance
  createOrAdoptInstance :
    QVulkanInstancePrivate → QPlatformVulkanInstance → QPlatformVulkanInstance
  setDebugFilters : List Nat → QPlatformVulkanInstance → QPlatformVulkanInstance
  setDebugUtilsFilters : List Nat → QPlatformVulkanInstance → QPlatformVulkanInstance

/-- The function `QVulkanInstancePrivate::ensureVulkan`. -/
def ensureVulkan (plat : Platform) (d : QVulkanInstancePrivate) :
    Bool × QVulkanInstancePrivate :=
  match d.platformInst with
  | none =>
    let d := { d with platformInst := plat.createPlatformVulkanInstance d }
    match d.platformInst with
    | none => (false, d)
    | some _ => (true, d)
  | some _ => (true, d)

/-- The function `QVulkanInstancePrivate::reset`. -/
def reset (d : QVulkanInstancePrivate) : QVulkanInstancePrivate :=
  { d with deviceFuncs := [], funcs := false, platformInst := none, vkInst := VK_NULL_HANDLE,
           errorCode := VK_SUCCESS }

/-- The function `QVulkanInstance::destroy`. -/
def destroy (d : QVulkanInstancePrivate) : QVulkanInstancePrivate :=
  reset d

/-- The function `QVulkanInstance::isValid`. -/
def isValid (d : QVulkanInstancePrivate) : Bool :=
  match d.platformInst with
  | none => false
  | some platformInst => platformInst.isValid

/-- The function `QVulkanInstance::setVkInstance`. -/
def setVkInstance (d : QVulkanInstancePrivate) (existingVkInstance : VkInstance) :
    QVulkanInstancePrivate :=
  if isValid d then d else { d with vkInst := existingVkInstance }

/-- The function `QVulkanInstance::setFlags`. -/
def setFlags (d : QVulkanInstancePrivate) (flags : Nat) : QVulkanInstancePrivate :=
  if isValid d then d else { d with flags := flags }

/-- The function `QVulkanInstance::setLayers`. -/
def setLayers (d : QVulkanInstancePrivate) (layers : List String) : QVulkanInstancePrivate :=
  if isValid d then d else { d with layers := layers }

/-- The function `QVulkanInstance::setExtensions`. -/
def setExtensions (d : QVulkanInstancePrivate) (extensions : List String) :
    QVulkanInstancePrivate :=
  if isValid d then d else { d with extensions := extensions }

/-- The function `QVulkanInstance::setApiVersion`. -/
def setApiVersion (d : QVulkanInstancePrivate) (vulkanVersion : List Nat) :
    QVulkanInstancePrivate :=
  if isValid d then d else { d with apiVersion := vulkanVersion }

/-- The function `QVulkanInstance::create`: what it returns and the state it leaves. After
`ensureVulkan` has returned true the platform instance is never null, so the arm for `none`
after it is not reached; it is given the `else` branch that the source has for a null platform
instance. -/
def create (plat : Platform) (d : QVulkanInstancePrivate) : Bool × QVulkanInstancePrivate :=
  let d := if isValid d then destroy d else d
  let (ok, d) := ensureVulkan plat d
  if !ok then
    (false, d)
  else
    match d.platformInst with
    | none => (false, { d with errorCode := VK_NOT_READY })
    | some platformInst =>
      let platformInst := plat.createOrAdoptInstance d platformInst
      if platformInst.isValid then
        let d := { d with vkInst := platformInst.vkInstance,
                          layers := platformInst.enabledLayers,
                          extensions := platformInst.enabledExtensions,
                          errorCode := VK_SUCCESS,
                          funcs := true }
        let platformInst := plat.setDebugFilters d.debugFilters platformInst
        let platformInst := plat.setDebugUtilsFilters d.debugUtilsFilters platformInst
        (true, { d with platformInst := some platformInst })
      else
        (false, { d with errorCode := platformInst.errorCode, platformInst := none })

/-- The function `QVulkanInstance::errorCode`. -/
def errorCode (d : QVulkanInstancePrivate) : VkResult := d.errorCode

/-- A platform plugin without Vulkan support: it has no platform instance to give. -/
def noVulkan : Platform :=
  { createPlatformVulkanInstance := fun _ => none
    createOrAdoptInstance := fun _ p => p
    setDebugFilters := fun _ p => p
    setDebugUtilsFilters := fun _ p => p }

/-- A platform plugin whose instance is created with the handle 7 and the requested layers and
extensions, or adopts the handle it was given. -/
def workingVulkan : Platform :=
  { createPlatformVulkanInstance := fun _ =>
      some { isValid := false, vkInstance := VK_NULL_HANDLE, enabledLayers := [],
             enabledExtensions := [], errorCode := VK_SUCCESS }
    createOrAdoptInstance := fun d p =>
      { p with isValid := true, vkInstance := if d.vkInst = VK_NULL_HANDLE then 7 else d.vkInst,
               enabledLayers := d.layers, enabledExtensions := d.extensions }
    setDebugFilters := fun _ p => p
    setDebugUtilsFilters := fun _ p => p }

/-- A platform plugin whose instance creation fails with `VK_ERROR_INCOMPATIBLE_DRIVER`. -/
def failingVulkan : Platform :=
  { workingVulkan with
    createOrAdoptInstance := fun _ p => { p with isValid := false, errorCode := -9 } }

end QVulkan

namespace QDnsLookupWin

/-- The address family `AF_INET` of winsock2.h (Windows SDK). -/
def AF_INET : Nat := 2

/-- The address family `AF_INET6` of winsock2.h (Windows SDK). -/
def AF_INET6 : Nat := 23

/-- Modelled from the spec: what `setSockaddr` (qnativesocketengine_p.h is not among the
sources) writes as the family of the socket address: the "address family is derived from the
nameserver's own address family (IPv4 or IPv6)". -/
def Env.SetSockaddrWritesFamily (env : Env) : Prop :=
  (∀ sa ip4Addr port, (env.setSockaddr sa (.IPv4 ip4Addr) port).sa_family = AF_INET)
    ∧ (∀ sa ip6Addr port, (env.setSockaddr sa (.IPv6 ip6Addr) port).sa_family = AF_INET6)

/-! ## The record list in memory

The functions above take the record list as a value. Here it stands in memory, each node with
its `pNext` pointer, and the loop follows the pointers: a run can then read through a pointer at
which no node stands, or go round a cycle for ever. -/

/-- A node as it stands in memory: the record and its `pNext` pointer, 0 being the null
pointer. -/
structure RecordNode where
  record : DNS_RECORD
  pNext : Nat

/-- The memory record lists are handed back in: the node at an address, `none` where no node
stands. -/
abbrev RecordMemory := Nat → Option RecordNode

/-- How a run ends within the steps it is allowed: it returns a value, it faults on a read
through a pointer at which no node stands, or it is still running. -/
inductive Run (α : Type)
  | returned (a : α)
  | fault
  | running

/-- The nodes reached from `ptr` through `pNext` are the records of the list, in order, and the
last `pNext` is null: the memory holds at `ptr` a finite null-terminated list. -/
def IsRecordList (memory : RecordMemory) : Nat → PDNS_RECORD → Prop
  | ptr, [] => ptr = 0
  | ptr, record :: rest =>
    ptr ≠ 0 ∧ ∃ pNext, memory ptr = some ⟨record, pNext⟩ ∧ IsRecordList memory pNext rest

/-- The record loop `for (ptr = ptrStart; ptr != NULL; ptr = ptr->pNext)` on a list in memory,
allowed `steps` passes through its body. -/
def walkRecords (env : Env) (memory : RecordMemory) :
    Nat → Nat → QDnsLookupReply × NameCache → Run (QDnsLookupReply × NameCache)
  | 0, ptr, st => if ptr = 0 then .returned st else .running
  | steps + 1, ptr, st =>
    if ptr = 0 then
      .returned st
    else
      match memory ptr with
      | none => .fault
      | some node => walkRecords env memory steps node.pNext (decodeRecord env st node.record)

/-- The part of `query` after the strategy branches, on a list in memory: the null check, the
declaration of the two cache locals, the record loop and `DnsRecordListFree`. -/
def extractResultsRun (env : Env) (memory : RecordMemory) (steps : Nat)
    (reply : QDnsLookupReply) (ptrStart : Nat) : Run QDnsLookupReply :=
  if ptrStart = 0 then
    .returned reply
  else
    match walkRecords env memory steps ptrStart
        (reply, { lastEncodedName := "", cachedDecodedName := "" }) with
    | .returned st => .returned st.1
    | .fault => .fault
    | .running => .running

/-- The platform seen from `query` at the level of memory: what `GetProcAddress` finds and what
the two query calls give, the record list being a pointer into `memory`. -/
structure PlatformMemory where
  memory : RecordMemory
  myDnsQueryEx : Option (DNS_QUERY_REQUEST → DNS_STATUS × Nat)
  DnsQuery_W : QString → Nat → Nat → IP4_ARRAY → DNS_STATUS × Nat

/-- The legacy strategy from the call of `DnsQuery_W` on, the list in memory. -/
def queryLegacyCallRun (env : Env) (pm : PlatformMemory) (steps : Nat)
    (self : QDnsLookupRunnable) (reply : QDnsLookupReply) (requestNameUtf16 : QString)
    (srvList : IP4_ARRAY) : Run QDnsLookupReply :=
  let results := pm.DnsQuery_W requestNameUtf16 self.requestType DNS_QUERY_STANDARD srvList
  let status := results.1
  if status = ERROR_SUCCESS then
    extractResultsRun env pm.memory steps reply results.2
  else if status = DNS_ERROR_RCODE_FORMAT_ERROR then
    .returned { reply with error := .InvalidRequestError,
                           errorString := env.tr "Server could not process query" }
  else if status = DNS_ERROR_RCODE_SERVER_FAILURE
      ∨ status = DNS_ERROR_RCODE_NOT_IMPLEMENTED then
    .returned { reply with error := .ServerFailureError,
                           errorString := env.tr "Server failure" }
  else if status = DNS_ERROR_RCODE_NAME_ERROR then
    .returned { reply with error := .NotFoundError,
                           errorString := env.tr "Non existent domain" }
  else if status = DNS_ERROR_RCODE_REFUSED then
    .returned { reply with error := .ServerRefusedError,
                           errorString := env.tr "Server refused to answer" }
  else
    .returned { reply with error := .InvalidReplyError,
                           errorString := env.systemErrorString status }

/-- The function `QDnsLookupRunnable::query` with the record list in memory, the record loop
allowed `steps` passes: how the run ends and, when it returns, the reply it leaves. The Qt
helpers are those of `env`; the platform is `pm`. -/
def queryRun (env : Env) (pm : PlatformMemory) (steps : Nat) (self : QDnsLookupRunnable)
    (reply : QDnsLookupReply) : Run QDnsLookupReply :=
  match pm.myDnsQueryEx with
  | some myDnsQueryEx =>
    let request := buildRequest env self
    let results := myDnsQueryEx request
    let status := results.1
    if DNS_ERROR_RCODE_FORMAT_ERROR ≤ status ∧ status ≤ DNS_ERROR_RCODE_LAST then
      .returned (env.makeDnsRcodeError (status - DNS_ERROR_RCODE_FORMAT_ERROR + 1) reply)
    else if status = ERROR_TIMEOUT then
      .returned (env.makeTimeoutError reply)
    else if status ≠ ERROR_SUCCESS then
      .returned (env.makeResolverSystemError status reply)
    else
      extractResultsRun env pm.memory steps reply results.2
  | none =>
    let requestNameUtf16 := self.requestName
    let srvList : IP4_ARRAY := {}
    if !self.nameserver.isNull then
      if self.nameserver.protocol = .IPv4Protocol then
        queryLegacyCallRun env pm steps self reply requestNameUtf16
          { srvList with AddrCount := 1, AddrArray0 := htonl self.nameserver.toIPv4Address }
      else if self.nameserver.protocol = .IPv6Protocol then
        .returned
          { reply with
            error := .ResolverError,
            errorString := env.tr "IPv6 addresses for nameservers are currently not supported" }
      else
        queryLegacyCallRun env pm steps self reply requestNameUtf16 srvList
    else
      queryLegacyCallRun env pm steps self reply requestNameUtf16 srvList

/-- The platform `pm` hands back in memory what the platform calls of `env` answer with: the
same entry point is found or not, every status is the same, and every pointer returned heads,
in the memory, the finite null-terminated list of the records of the answer. -/
def PlatformMemory.Holds (pm : PlatformMemory) (env : Env) : Prop :=
  (match pm.myDnsQueryEx, env.myDnsQueryEx with
    | some onMemory, some onLists =>
      ∀ request, (onMemory request).1 = (onLists request).1
        ∧ IsRecordList pm.memory (onMemory request).2 (onLists request).2
    | none, none => True
    | _, _ => False)
    ∧ ∀ name wType options srvList,
        (pm.DnsQuery_W name wType options srvList).1
            = (env.DnsQuery_W name wType options srvList).1
          ∧ IsRecordList pm.memory (pm.DnsQuery_W name wType options srvList).2
              (env.DnsQuery_W name wType options srvList).2

/-- The reply of a run of `query` reports an error: one of the three error helpers was called on
the incoming reply, or its error fields were assigned an error kind. -/
def ReportsError (env : Env) (reply out : QDnsLookupReply) : Prop :=
  (∃ rcode, out = env.makeDnsRcodeError rcode reply)
    ∨ out = env.makeTimeoutError reply
    ∨ (∃ status, out = env.makeResolverSystemError status reply)
    ∨ (∃ e msg, e ≠ QDnsLookup.Error.NoError
          ∧ out = { reply with error := e, errorString := msg })

/-- A memory holding the list `sampleChain`: its three nodes at the addresses 1, 2 and 3. -/
def memoryDouble : RecordMemory := fun ptr =>
  match ptr, sampleChain with
  | 1, [r1, _, _] => some ⟨r1, 2⟩
  | 2, [_, r2, _] => some ⟨r2, 3⟩
  | 3, [_, _, r3] => some ⟨r3, 0⟩
  | _, _ => none

/-- A memory in which the node at the address 1 points to itself. -/
def memoryCycle : RecordMemory := fun ptr =>
  if ptr = 1 then some ⟨sampleA, 1⟩ else none

/-- A platform at the level of memory that answers every query with `status` and the list at
the address 1 of `memoryDouble`. -/
def platformMemoryDouble (extended : Bool) (status : DNS_STATUS) : PlatformMemory :=
  { memory := memoryDouble
    myDnsQueryEx := if extended then some (fun _ => (status, 1)) else none
    DnsQuery_W := fun _ _ _ _ => (status, 1) }

/-! ## The two strategies: status mapping -/

/-- Unless the nameserver is an IPv6 address, the legacy strategy is the call of `DnsQuery_W`
with the server list `legacySrvList` and what follows it. -/
theorem query_legacy_eq_call (env : Env) (self : QDnsLookupRunnable) (reply : QDnsLookupReply)
    (hEx : env.myDnsQueryEx = none) (hNs : self.nameserver.protocol ≠ .IPv6Protocol) :
    query env self reply
      = queryLegacyCall env self reply self.requestName (legacySrvList self) := by
  unfold query
  rw [hEx]
  cases hn : self.nameserver <;>
    simp_all [QHostAddress.isNull, QHostAddress.protocol, QHostAddress.toIPv4Address,
      legacySrvList]

/-- C1: under the extended strategy, when the platform call returns a status `s` with
`DNS_ERROR_RCODE_FORMAT_ERROR <= s <= DNS_ERROR_RCODE_LAST`, `query` returns the reply that
`makeDnsRcodeError` leaves when called on the incoming reply with the code
`s - DNS_ERROR_RCODE_FORMAT_ERROR + 1`; that code lies between 1 and
`DNS_ERROR_RCODE_LAST - DNS_ERROR_RCODE_FORMAT_ERROR + 1`; the only platform call is the query
itself, and the record list the platform handed back plays no part in the result. -/
theorem query_extended_rcode_error (env : Env) (self : QDnsLookupRunnable)
    (reply : QDnsLookupReply) (myDnsQueryEx : DNS_QUERY_REQUEST → DNS_STATUS × PDNS_RECORD)
    (status : DNS_STATUS) (records : PDNS_RECORD)
    (hEx : env.myDnsQueryEx = some myDnsQueryEx)
    (hRes : myDnsQueryEx (buildRequest env self) = (status, records))
    (hLo : DNS_ERROR_RCODE_FORMAT_ERROR ≤ status) (hHi : status ≤ DNS_ERROR_RCODE_LAST) :
    query env self reply
        = (env.makeDnsRcodeError (status - DNS_ERROR_RCODE_FORMAT_ERROR + 1) reply,
           [PlatformCall.DnsQueryEx (buildRequest env self)])
      ∧ 1 ≤ status - DNS_ERROR_RCODE_FORMAT_ERROR + 1
      ∧ status - DNS_ERROR_RCODE_FORMAT_ERROR + 1
          ≤ DNS_ERROR_RCODE_LAST - DNS_ERROR_RCODE_FORMAT_ERROR + 1 := by
  refine ⟨?_, by linarith, by linarith⟩
  unfold query
  rw [hEx]
  simp only [hRes]
  rw [if_pos ⟨hLo, hHi⟩]

/-- The status `DNS_ERROR_RCODE_NAME_ERROR` under the extended strategy: code 3. -/
theorem query_extended_rcode_error_witness :
    (platformDouble true 9003 [sampleA]).myDnsQueryEx = some (fun _ => (9003, [sampleA]))
      ∧ DNS_ERROR_RCODE_FORMAT_ERROR ≤ (9003 : DNS_STATUS)
      ∧ (9003 : DNS_STATUS) ≤ DNS_ERROR_RCODE_LAST
      ∧ (query (platformDouble true 9003 [sampleA]) sampleRequest {}
            = (makeDnsRcodeErrorDouble (9003 - DNS_ERROR_RCODE_FORMAT_ERROR + 1) {},
               [PlatformCall.DnsQueryEx
                  (buildRequest (platformDouble true 9003 [sampleA]) sampleRequest)])
          ∧ 1 ≤ (9003 : DNS_STATUS) - DNS_ERROR_RCODE_FORMAT_ERROR + 1
          ∧ (9003 : DNS_STATUS) - DNS_ERROR_RCODE_FORMAT_ERROR + 1
              ≤ DNS_ERROR_RCODE_LAST - DNS_ERROR_RCODE_FORMAT_ERROR + 1) :=
  ⟨rfl, by decide, by decide,
    query_extended_rcode_error (platformDouble true 9003 [sampleA]) sampleRequest {}
      (fun _ => (9003, [sampleA])) 9003 [sampleA] rfl rfl (by decide) (by decide)⟩

/-- C10: under the extended strategy, when the platform call returns `ERROR_TIMEOUT`, `query`
returns the reply that `makeTimeoutError` leaves when called on the incoming reply; the only
platform call is the query itself and the record list plays no part in the result. -/
theorem query_extended_timeout (env : Env) (self : QDnsLookupRunnable)
    (reply : QDnsLookupReply) (myDnsQueryEx : DNS_QUERY_REQUEST → DNS_STATUS × PDNS_RECORD)
    (records : PDNS_RECORD)
    (hEx : env.myDnsQueryEx = some myDnsQueryEx)
    (hRes : myDnsQueryEx (buildRequest env self) = (ERROR_TIMEOUT, records)) :
    query env self reply
      = (env.makeTimeoutError reply, [PlatformCall.DnsQueryEx (buildRequest env self)]) := by
  unfold query
  rw [hEx]
  simp only [hRes]
  rw [if_neg (by decide)]
  simp

/-- A timeout under the extended strategy, on the platform double. -/
theorem query_extended_timeout_witness :
    (platformDouble true ERROR_TIMEOUT [sampleA]).myDnsQueryEx
        = some (fun _ => (ERROR_TIMEOUT, [sampleA]))
      ∧ query (platformDouble true ERROR_TIMEOUT [sampleA]) sampleRequest {}
          = (makeTimeoutErrorDouble {},
             [PlatformCall.DnsQueryEx
                (buildRequest (platformDouble true ERROR_TIMEOUT [sampleA]) sampleRequest)]) :=
  ⟨rfl,
    query_extended_timeout (platformDouble true ERROR_TIMEOUT [sampleA]) sampleRequest {}
      (fun _ => (ERROR_TIMEOUT, [sampleA])) [sampleA] rfl rfl⟩

/-- C2: under the legacy strategy (nameserver not an IPv6 address, so that `DnsQuery_W` is
called), the status of `DnsQuery_W` sets the error kind by the table: format error gives
`InvalidRequestError`; server failure or not implemented gives `ServerFailureError`; name error
gives `NotFoundError`; refused gives `ServerRefusedError`. In each case the rest of the reply is
the incoming reply, and the only platform call is the query itself. -/
theorem query_legacy_status_table (env : Env) (self : QDnsLookupRunnable)
    (reply : QDnsLookupReply) (status : DNS_STATUS) (records : PDNS_RECORD)
    (hEx : env.myDnsQueryEx = none)
    (hNs : self.nameserver.protocol ≠ .IPv6Protocol)
    (hRes : env.DnsQuery_W self.requestName self.requestType DNS_QUERY_STANDARD
              (legacySrvList self) = (status, records)) :
    (status = DNS_ERROR_RCODE_FORMAT_ERROR →
        query env self reply
          = ({ reply with error := .InvalidRequestError,
                          errorString := env.tr "Server could not process query" },
             [PlatformCall.DnsQuery_W self.requestName self.requestType DNS_QUERY_STANDARD
                (legacySrvList self)]))
      ∧ (status = DNS_ERROR_RCODE_SERVER_FAILURE ∨ status = DNS_ERROR_RCODE_NOT_IMPLEMENTED →
        query env self reply
          = ({ reply with error := .ServerFailureError,
                          errorString := env.tr "Server failure" },
             [PlatformCall.DnsQuery_W self.requestName self.requestType DNS_QUERY_STANDARD
                (legacySrvList self)]))
      ∧ (status = DNS_ERROR_RCODE_NAME_ERROR →
        query env self reply
          = ({ reply with error := .NotFoundError,
                          errorString := env.tr "Non existent domain" },
             [PlatformCall.DnsQuery_W self.requestName self.requestType DNS_QUERY_STANDARD
                (legacySrvList self)]))
      ∧ (status = DNS_ERROR_RCODE_REFUSED →
        query env self reply
          = ({ reply with error := .ServerRefusedError,
                          errorString := env.tr "Server refused to answer" },
             [PlatformCall.DnsQuery_W self.requestName self.requestType DNS_QUERY_STANDARD
                (legacySrvList self)])) := by
  rw [query_legacy_eq_call env self reply hEx hNs]
  unfold queryLegacyCall
  simp only [hRes]
  refine ⟨?_, ?_, ?_, ?_⟩
  · intro h
    subst h
    simp [ERROR_SUCCESS, DNS_ERROR_RCODE_FORMAT_ERROR]
  · intro h
    rcases h with h | h <;> subst h <;>
      simp [ERROR_SUCCESS, DNS_ERROR_RCODE_FORMAT_ERROR, DNS_ERROR_RCODE_SERVER_FAILURE,
        DNS_ERROR_RCODE_NOT_IMPLEMENTED]
  · intro h
    subst h
    simp [ERROR_SUCCESS, DNS_ERROR_RCODE_FORMAT_ERROR, DNS_ERROR_RCODE_SERVER_FAILURE,
      DNS_ERROR_RCODE_NOT_IMPLEMENTED, DNS_ERROR_RCODE_NAME_ERROR]
  · intro h
    subst h
    simp [ERROR_SUCCESS, DNS_ERROR_RCODE_FORMAT_ERROR, DNS_ERROR_RCODE_SERVER_FAILURE,
      DNS_ERROR_RCODE_NOT_IMPLEMENTED, DNS_ERROR_RCODE_NAME_ERROR, DNS_ERROR_RCODE_REFUSED]

/-- The status `DNS_ERROR_RCODE_NAME_ERROR` under the legacy strategy: `NotFoundError`. -/
theorem query_legacy_status_table_witness :
    (legacyDouble DNS_ERROR_RCODE_NAME_ERROR [sampleA]).myDnsQueryEx = none
      ∧ sampleRequest.nameserver.protocol ≠ .IPv6Protocol
      ∧ (query (legacyDouble DNS_ERROR_RCODE_NAME_ERROR [sampleA]) sampleRequest {}).1
          = { error := .NotFoundError, errorString := "Non existent domain" } :=
  ⟨rfl, by decide,
    congrArg Prod.fst
      ((query_legacy_status_table (legacyDouble DNS_ERROR_RCODE_NAME_ERROR [sampleA])
        sampleRequest {} DNS_ERROR_RCODE_NAME_ERROR [sampleA] rfl (by decide) rfl).2.2.1 rfl)⟩

/-- C3: under the legacy strategy, for every request whose nameserver is an IPv6 address, `query`
sets the error kind to `ResolverError` with the message "IPv6 addresses for nameservers are
currently not supported", leaves the rest of the reply as it was, and makes no platform call at
all. -/
theorem query_legacy_ipv6_nameserver (env : Env) (self : QDnsLookupRunnable)
    (reply : QDnsLookupReply) (ip6Addr : List Nat)
    (hEx : env.myDnsQueryEx = none) (hNs : self.nameserver = .IPv6 ip6Addr) :
    query env self reply
      = ({ reply with
            error := .ResolverError,
            errorString := env.tr "IPv6 addresses for nameservers are currently not supported" },
         []) := by
  unfold query
  rw [hEx]
  simp [hNs, QHostAddress.isNull, QHostAddress.protocol]

/-- The nameserver `2001:db8::1` under the legacy strategy. -/
theorem query_legacy_ipv6_nameserver_witness :
    (legacyDouble ERROR_SUCCESS [sampleA]).myDnsQueryEx = none
      ∧ sampleRequestV6.nameserver
          = .IPv6 [0x20, 0x01, 0x0d, 0xb8, 0, 0, 0, 0, 0, 0, 0, 0, 0, 0, 0, 1]
      ∧ query (legacyDouble ERROR_SUCCESS [sampleA]) sampleRequestV6 {}
          = ({ error := .ResolverError,
               errorString := "IPv6 addresses for nameservers are currently not supported" },
             []) :=
  ⟨rfl, rfl,
    query_legacy_ipv6_nameserver (legacyDouble ERROR_SUCCESS [sampleA]) sampleRequestV6 {}
      [0x20, 0x01, 0x0d, 0xb8, 0, 0, 0, 0, 0, 0, 0, 0, 0, 0, 0, 1] rfl rfl⟩

/-! ## Release of the record list -/

/-- On success with a non-null list, the list is released exactly once, after the query. -/
theorem extractResults_calls (env : Env) (reply : QDnsLookupReply) (ptr : DNS_RECORD)
    (rest : PDNS_RECORD) (calls : List PlatformCall) :
    (extractResults env reply (ptr :: rest) calls).2
      = calls ++ [PlatformCall.DnsRecordListFree (ptr :: rest)] := by
  simp [extractResults]

/-- Under the extended strategy no status other than success leads to a release of the list. -/
theorem query_extended_error_calls (env : Env) (self : QDnsLookupRunnable)
    (reply : QDnsLookupReply) (myDnsQueryEx : DNS_QUERY_REQUEST → DNS_STATUS × PDNS_RECORD)
    (hEx : env.myDnsQueryEx = some myDnsQueryEx)
    (hErr : (myDnsQueryEx (buildRequest env self)).1 ≠ ERROR_SUCCESS) :
    (query env self reply).2 = [PlatformCall.DnsQueryEx (buildRequest env self)] := by
  unfold query
  rw [hEx]
  simp only
  split_ifs <;> rfl

/-- Under the legacy strategy no status other than success leads to a release of the list. -/
theorem queryLegacyCall_error_calls (env : Env) (self : QDnsLookupRunnable)
    (reply : QDnsLookupReply) (name : QString) (srvList : IP4_ARRAY)
    (hErr : (env.DnsQuery_W name self.requestType DNS_QUERY_STANDARD srvList).1
              ≠ ERROR_SUCCESS) :
    (queryLegacyCall env self reply name srvList).2
      = [PlatformCall.DnsQuery_W name self.requestType DNS_QUERY_STANDARD srvList] := by
  unfold queryLegacyCall
  simp only
  split_ifs <;> first | rfl | contradiction

/-- C4, at the failing input: the extended call answers `DNS_ERROR_RCODE_NAME_ERROR` and hands
back a list of one node; `query` reports the error and returns having made the query call only,
so the list is released zero times. On the same list with `ERROR_SUCCESS` it is released once,
and the legacy strategy behaves in the same two ways. -/
theorem query_error_path_keeps_record_list :
    (query (platformDouble true DNS_ERROR_RCODE_NAME_ERROR [sampleA]) sampleRequest {}).2
        = [PlatformCall.DnsQueryEx
            (buildRequest (platformDouble true DNS_ERROR_RCODE_NAME_ERROR [sampleA])
              sampleRequest)]
      ∧ ((query (platformDouble true DNS_ERROR_RCODE_NAME_ERROR [sampleA]) sampleRequest {}).2.filter
            PlatformCall.isListFree).length = 0
      ∧ ((query (platformDouble true ERROR_SUCCESS [sampleA]) sampleRequest {}).2.filter
            PlatformCall.isListFree).length = 1
      ∧ ((query (legacyDouble DNS_ERROR_RCODE_NAME_ERROR [sampleA]) sampleRequest {}).2.filter
            PlatformCall.isListFree).length = 0
      ∧ ((query (legacyDouble ERROR_SUCCESS [sampleA]) sampleRequest {}).2.filter
            PlatformCall.isListFree).length = 1 := by
  refine ⟨rfl, ?_, ?_, ?_, ?_⟩ <;> decide

/-! ## The name cache -/

/-- Appending one element per step is mapping. -/
theorem foldl_append_singleton {α β : Type} (f : α → β) (l : List α) (init : List β) :
    l.foldl (fun acc a => acc ++ [f a]) init = init ++ l.map f := by
  induction l generalizing init with
  | nil => simp
  | cons a l ih => simp [ih]

/-- The inner loop of the TXT branch converts the strings `0 .. dwStringCount - 1` in order. -/
theorem txtValues_eq_map (env : Env) (txt : DNS_TXT_DATA) :
    txtValues env txt
      = (List.range txt.dwStringCount).map (fun i => env.toLatin1 (txt.pStringArray i)) := by
  unfold txtValues
  rw [foldl_append_singleton (fun i => env.toLatin1 (txt.pStringArray i))]
  simp

/-- On a consistent slot `extractMaybeCachedHost` answers `decodeLabel name` and leaves the slot
consistent. -/
theorem extractMaybeCachedHost_consistent (env : Env) (c : NameCache) (name : QString)
    (hc : c.Consistent env) :
    (extractMaybeCachedHost env c name).1 = env.decodeLabel name
      ∧ (extractMaybeCachedHost env c name).2.Consistent env := by
  unfold extractMaybeCachedHost
  split_ifs with h
  · exact ⟨by rw [← h]; exact hc, hc⟩
  · exact ⟨rfl, rfl⟩

/-- The loop body appends what the dispatch on the type tag gives for the resolved owner
name. -/
theorem decodeRecord_fst (env : Env) (reply : QDnsLookupReply) (c : NameCache)
    (ptr : DNS_RECORD) :
    (decodeRecord env (reply, c) ptr).1
      = appendDecoded env reply (extractMaybeCachedHost env c ptr.pName).1 ptr := by
  unfold decodeRecord appendDecoded
  simp only [txtValues_eq_map, extractAndCacheHost]
  split_ifs <;> rfl

/-- The loop body keeps the slot consistent, the CNAME branch included. -/
theorem decodeRecord_consistent (env : Env) (reply : QDnsLookupReply) (c : NameCache)
    (ptr : DNS_RECORD) (hc : c.Consistent env) :
    (decodeRecord env (reply, c) ptr).2.Consistent env := by
  have h := (extractMaybeCachedHost_consistent env c ptr.pName hc).2
  unfold decodeRecord
  simp only [extractAndCacheHost]
  split_ifs <;> first | exact h | rfl

/-- From a consistent slot the record loop is the decoder without the cache. -/
theorem decodeLoop_consistent (env : Env) (records : PDNS_RECORD) (reply : QDnsLookupReply)
    (c : NameCache) (hc : c.Consistent env) :
    (decodeLoop env (reply, c) records).1 = decodeIndependent env reply records := by
  induction records generalizing reply c with
  | nil => rfl
  | cons ptr rest ih =>
    have hstep : decodeRecord env (reply, c) ptr
        = ((decodeRecord env (reply, c) ptr).1, (decodeRecord env (reply, c) ptr).2) := rfl
    simp only [decodeLoop, decodeIndependent, List.foldl_cons] at ih ⊢
    rw [hstep, ih _ _ (decodeRecord_consistent env reply c ptr hc), decodeRecord_fst,
      (extractMaybeCachedHost_consistent env c ptr.pName hc).1]

/-- The reply left by the shared tail of `query` is the reply of the record loop started with
both cache locals empty (on the null list the loop has nothing to do). -/
theorem extractResults_fst (env : Env) (reply : QDnsLookupReply) (records : PDNS_RECORD)
    (calls : List PlatformCall) :
    (extractResults env reply records calls).1
      = (decodeLoop env (reply, { lastEncodedName := "", cachedDecodedName := "" }) records).1 := by
  cases records <;> simp [extractResults, decodeLoop]

/-- C5: the cache is transparent. Given that `decodeLabel` maps the empty name to the empty
string (the state the two cache locals start in), for every record list the reply produced by
the decoder of `query`, which resolves owner names through `extractMaybeCachedHost` and
`extractAndCacheHost`, is the reply produced by the decoder that applies `decodeLabel` to every
node's own name: at the first node, at nodes sharing the owner name of the node before, and at
nodes that follow a CNAME node. -/
theorem cache_transparent (env : Env) (reply : QDnsLookupReply) (records : PDNS_RECORD)
    (calls : List PlatformCall) (hEmpty : env.decodeLabel "" = "") :
    (extractResults env reply records calls).1 = decodeIndependent env reply records := by
  rw [extractResults_fst]
  exact decodeLoop_consistent env records reply _ hEmpty.symm

/-- The cache on a CNAME node followed by two A nodes sharing an owner name. -/
theorem cache_transparent_witness :
    (platformDouble true ERROR_SUCCESS sampleChain).decodeLabel "" = ""
      ∧ (extractResults (platformDouble true ERROR_SUCCESS sampleChain) {} sampleChain []).1
          = decodeIndependent (platformDouble true ERROR_SUCCESS sampleChain) {} sampleChain :=
  ⟨rfl, cache_transparent (platformDouble true ERROR_SUCCESS sampleChain) {} sampleChain [] rfl⟩

/-! ## Unsupported type tags -/

/-- A node of unsupported type appends nothing. -/
theorem appendDecoded_unsupported (env : Env) (reply : QDnsLookupReply) (name : QString)
    (ptr : DNS_RECORD) (h : isSupportedType ptr.wType = false) :
    appendDecoded env reply name ptr = reply := by
  simp only [isSupportedType, Bool.or_eq_false_iff, decide_eq_false_iff_not] at h
  obtain ⟨⟨⟨⟨⟨⟨⟨h1, h2⟩, h3⟩, h4⟩, h5⟩, h6⟩, h7⟩, h8⟩ := h
  simp [appendDecoded, h1, h2, h3, h4, h5, h6, h7, h8]

/-- The dispatch never touches the error fields. -/
theorem appendDecoded_error (env : Env) (reply : QDnsLookupReply) (name : QString)
    (ptr : DNS_RECORD) :
    (appendDecoded env reply name ptr).error = reply.error
      ∧ (appendDecoded env reply name ptr).errorString = reply.errorString := by
  unfold appendDecoded
  split_ifs <;> exact ⟨rfl, rfl⟩

/-- Removing the nodes of unsupported type does not change what is decoded. -/
theorem decodeIndependent_filter (env : Env) (records : PDNS_RECORD) (reply : QDnsLookupReply) :
    decodeIndependent env reply (records.filter (fun ptr => isSupportedType ptr.wType))
      = decodeIndependent env reply records := by
  induction records generalizing reply with
  | nil => rfl
  | cons ptr rest ih =>
    simp only [decodeIndependent] at ih ⊢
    cases h : isSupportedType ptr.wType
    · rw [List.filter_cons_of_neg (by simp [h]), List.foldl_cons,
        appendDecoded_unsupported env reply _ ptr h]
      exact ih reply
    · rw [List.filter_cons_of_pos (by simp [h]), List.foldl_cons, List.foldl_cons]
      exact ih _

/-- Decoding never touches the error fields. -/
theorem decodeIndependent_error (env : Env) (records : PDNS_RECORD) (reply : QDnsLookupReply) :
    (decodeIndependent env reply records).error = reply.error
      ∧ (decodeIndependent env reply records).errorString = reply.errorString := by
  induction records generalizing reply with
  | nil => exact ⟨rfl, rfl⟩
  | cons ptr rest ih =>
    simp only [decodeIndependent, List.foldl_cons] at ih ⊢
    rw [(ih _).1, (ih _).2]
    exact appendDecoded_error env reply _ ptr

/-- C6: nodes of unsupported type are skipped. Given that `decodeLabel` maps the empty name to
the empty string, for every record list the decoder leaves the same reply as on the list with
every node removed whose type tag is not one of A, AAAA, CNAME, MX, NS, PTR, SRV, TXT; and the
error kind and error message are the ones the reply came with. -/
theorem unsupported_types_skipped (env : Env) (reply : QDnsLookupReply) (records : PDNS_RECORD)
    (calls : List PlatformCall) (hEmpty : env.decodeLabel "" = "") :
    (extractResults env reply records calls).1
        = (extractResults env reply
            (records.filter (fun ptr => isSupportedType ptr.wType)) calls).1
      ∧ (extractResults env reply records calls).1.error = reply.error
      ∧ (extractResults env reply records calls).1.errorString = reply.errorString := by
  have h1 : (extractResults env reply records calls).1 = decodeIndependent env reply records := by
    rw [extractResults_fst]
    exact decodeLoop_consistent env records reply _ hEmpty.symm
  have h2 : (extractResults env reply
      (records.filter (fun ptr => isSupportedType ptr.wType)) calls).1
        = decodeIndependent env reply
            (records.filter (fun ptr => isSupportedType ptr.wType)) := by
    rw [extractResults_fst]
    exact decodeLoop_consistent env _ reply _ hEmpty.symm
  rw [h1, h2, decodeIndependent_filter]
  exact ⟨rfl, decodeIndependent_error env records reply⟩

/-- An SOA node in front of an A node leaves the reply of the A node alone. -/
theorem unsupported_types_skipped_witness :
    (platformDouble true ERROR_SUCCESS sampleWithUnknown).decodeLabel "" = ""
      ∧ sampleWithUnknown.filter (fun ptr => isSupportedType ptr.wType) = [sampleA]
      ∧ ((extractResults (platformDouble true ERROR_SUCCESS sampleWithUnknown) {}
            sampleWithUnknown []).1
          = (extractResults (platformDouble true ERROR_SUCCESS sampleWithUnknown) {}
              (sampleWithUnknown.filter (fun ptr => isSupportedType ptr.wType)) []).1
        ∧ (extractResults (platformDouble true ERROR_SUCCESS sampleWithUnknown) {}
              sampleWithUnknown []).1.error = QDnsLookup.Error.NoError
        ∧ (extractResults (platformDouble true ERROR_SUCCESS sampleWithUnknown) {}
              sampleWithUnknown []).1.errorString = "") :=
  ⟨rfl, rfl,
    unsupported_types_skipped (platformDouble true ERROR_SUCCESS sampleWithUnknown) {}
      sampleWithUnknown [] rfl⟩

/-! ## Order of the decoded records -/

/-- One node appends its entry to the sequence of its type and to no other. -/
theorem appendDecoded_wire_order (env : Env) (reply : QDnsLookupReply) (name : QString)
    (ptr : DNS_RECORD) :
    AppendedInWireOrder env reply (appendDecoded env reply name ptr) [(name, ptr)] := by
  unfold AppendedInWireOrder appendDecoded hostAddressEntry domainNameEntry mailExchangeEntry
    serviceEntry textEntry
  simp only [QDnsLookup.A, QDnsLookup.AAAA, QDnsLookup.CNAME, QDnsLookup.MX, QDnsLookup.NS,
    QDnsLookup.PTR, QDnsLookup.SRV, QDnsLookup.TXT]
  split_ifs with h1 h2 h3 h4 h5 h6 h7 h8 <;> simp_all

/-- Decoding one run of nodes after another appends the entries of both, in order. -/
theorem AppendedInWireOrder.trans (env : Env) (r0 r1 r2 : QDnsLookupReply)
    (l1 l2 : List (QString × DNS_RECORD))
    (h1 : AppendedInWireOrder env r0 r1 l1) (h2 : AppendedInWireOrder env r1 r2 l2) :
    AppendedInWireOrder env r0 r2 (l1 ++ l2) := by
  obtain ⟨a1, a2, a3, a4, a5, a6, a7⟩ := h1
  obtain ⟨b1, b2, b3, b4, b5, b6, b7⟩ := h2
  unfold AppendedInWireOrder
  simp only [List.filter_append, List.map_append]
  refine ⟨?_, ?_, ?_, ?_, ?_, ?_, ?_⟩
  · rw [b1, a1, List.append_assoc]
  · rw [b2, a2, List.append_assoc]
  · rw [b3, a3, List.append_assoc]
  · rw [b4, a4, List.append_assoc]
  · rw [b5, a5, List.append_assoc]
  · rw [b6, a6, List.append_assoc]
  · rw [b7, a7, List.append_assoc]

/-- On a settled slot `extractMaybeCachedHost` answers `decodeLabel name`, or the empty string
for the empty name; the slot stays settled. -/
theorem extractMaybeCachedHost_settled (env : Env) (c : NameCache) (name : QString)
    (hc : c.Settled env) :
    ((extractMaybeCachedHost env c name).1 = env.decodeLabel name
        ∨ (name = "" ∧ (extractMaybeCachedHost env c name).1 = ""))
      ∧ (extractMaybeCachedHost env c name).2.Settled env := by
  unfold extractMaybeCachedHost
  split_ifs with h
  · refine ⟨?_, hc⟩
    rcases hc with hc | ⟨h1, h2⟩
    · exact Or.inl (by rw [← h]; exact hc)
    · exact Or.inr ⟨by rw [← h]; exact h1, h2⟩
  · exact ⟨Or.inl rfl, Or.inl rfl⟩

/-- The loop body keeps the slot settled. -/
theorem decodeRecord_settled (env : Env) (reply : QDnsLookupReply) (c : NameCache)
    (ptr : DNS_RECORD) (hc : c.Settled env) :
    (decodeRecord env (reply, c) ptr).2.Settled env := by
  have h := (extractMaybeCachedHost_settled env c ptr.pName hc).2
  unfold decodeRecord
  simp only [extractAndCacheHost]
  split_ifs <;> first | exact h | exact Or.inl rfl

/-- The record loop, from any reply and any settled slot, appends in wire order. -/
theorem decodeLoop_wire_order (env : Env) (records : PDNS_RECORD) (reply : QDnsLookupReply)
    (c : NameCache) (hc : c.Settled env) :
    ∃ names : List QString, names.length = records.length
      ∧ (∀ p ∈ names.zip records,
          p.1 = env.decodeLabel p.2.pName ∨ (p.2.pName = "" ∧ p.1 = ""))
      ∧ AppendedInWireOrder env reply (decodeLoop env (reply, c) records).1
          (names.zip records) := by
  induction records generalizing reply c with
  | nil => exact ⟨[], rfl, by simp, by simp [AppendedInWireOrder, decodeLoop]⟩
  | cons ptr rest ih =>
    obtain ⟨names, hlen, hnames, hrest⟩ :=
      ih (decodeRecord env (reply, c) ptr).1 (decodeRecord env (reply, c) ptr).2
        (decodeRecord_settled env reply c ptr hc)
    refine ⟨(extractMaybeCachedHost env c ptr.pName).1 :: names, by simp [hlen], ?_, ?_⟩
    · intro p hp
      rw [List.zip_cons_cons, List.mem_cons] at hp
      rcases hp with hp | hp
      · subst hp
        exact (extractMaybeCachedHost_settled env c ptr.pName hc).1
      · exact hnames p hp
    · have hstep :=
        appendDecoded_wire_order env reply (extractMaybeCachedHost env c ptr.pName).1 ptr
      rw [← decodeRecord_fst] at hstep
      have h := AppendedInWireOrder.trans env _ _ _ _ _ hstep hrest
      simpa [decodeLoop] using h

/-- C7: wire order is kept per kind. For every record list there is one decoded owner name per
node (the node's own name decoded by `decodeLabel`, or the empty string for an empty name) such
that each sequence of the reply after decoding is the sequence before followed by one entry for
each node of the matching type, in list order and with nothing dropped: A and AAAA nodes feed
the host-address sequence in the order they stand in the list, CNAME nodes the canonical-name
sequence, MX the mail-exchange, NS the name-server, PTR the pointer, SRV the service and TXT the
text sequence. -/
theorem wire_order_preserved (env : Env) (reply : QDnsLookupReply) (records : PDNS_RECORD)
    (calls : List PlatformCall) :
    ∃ names : List QString, names.length = records.length
      ∧ (∀ p ∈ names.zip records,
          p.1 = env.decodeLabel p.2.pName ∨ (p.2.pName = "" ∧ p.1 = ""))
      ∧ AppendedInWireOrder env reply (extractResults env reply records calls).1
          (names.zip records) := by
  rw [extractResults_fst]
  exact decodeLoop_wire_order env records reply _ (Or.inr ⟨rfl, rfl⟩)

/-! ## Single nodes -/

/-- Swapping the bytes of the word `b0 b1 b2 b3` gives `b3 b2 b1 b0`. -/
theorem byteSwap32_bytes (b0 b1 b2 b3 : Nat) (h0 : b0 < 256) (h1 : b1 < 256) (h2 : b2 < 256)
    (h3 : b3 < 256) :
    byteSwap32 (b0 * 2 ^ 24 + b1 * 2 ^ 16 + b2 * 2 ^ 8 + b3)
      = b3 * 2 ^ 24 + b2 * 2 ^ 16 + b1 * 2 ^ 8 + b0 := by
  unfold byteSwap32
  omega

/-- A 32-bit address stored in network byte order is read back unchanged. -/
theorem ntohl_htonl (a : Nat) (h : a < 2 ^ 32) : ntohl (htonl a) = a := by
  have hb : a = (a / 2 ^ 24 % 256) * 2 ^ 24 + (a / 2 ^ 16 % 256) * 2 ^ 16
      + (a / 2 ^ 8 % 256) * 2 ^ 8 + a % 256 := by omega
  have hlt : ∀ n : Nat, n % 256 < 256 := fun n => Nat.mod_lt n (by decide)
  unfold ntohl htonl
  rw [hb, byteSwap32_bytes _ _ _ _ (hlt _) (hlt _) (hlt _) (hlt _),
    byteSwap32_bytes _ _ _ _ (hlt _) (hlt _) (hlt _) (hlt _)]

/-- C8: for every record list made of exactly one A node, with TTL `t` and the address `a`
stored in network byte order, decoding into an empty reply gives a host-address sequence of
exactly one HostAddressRecord with time-to-live `t` and address `a` (its name is the decoded
owner name), and leaves every other sequence empty and the error fields untouched. -/
theorem single_A_record (env : Env) (ptr : DNS_RECORD) (t a : Nat) (calls : List PlatformCall)
    (hType : ptr.wType = QDnsLookup.A) (hTtl : ptr.dwTtl = t) (ha : a < 2 ^ 32)
    (hAddr : ptr.Data.A.IpAddress = htonl a) :
    (extractResults env {} [ptr] calls).1
      = { hostAddressRecords :=
            [{ name := if ptr.pName = "" then "" else env.decodeLabel ptr.pName,
               timeToLive := t, value := .IPv4 a }] } := by
  rw [extractResults_fst]
  simp only [decodeLoop, List.foldl_cons, List.foldl_nil, decodeRecord_fst, appendDecoded,
    hType, hTtl, hAddr, ntohl_htonl a ha, extractMaybeCachedHost, extractAndCacheHost]
  by_cases h : ptr.pName = ""
  · simp [h]
  · have h2 : ¬ ("" = ptr.pName) := fun e => h e.symm
    simp [h, h2]

/-- One A node with TTL 300 and address 93.184.216.34. -/
theorem single_A_record_witness :
    sampleA.wType = QDnsLookup.A ∧ sampleA.dwTtl = 300
      ∧ 93 * 2 ^ 24 + 184 * 2 ^ 16 + 216 * 2 ^ 8 + 34 < 2 ^ 32
      ∧ sampleA.Data.A.IpAddress = htonl (93 * 2 ^ 24 + 184 * 2 ^ 16 + 216 * 2 ^ 8 + 34)
      ∧ (extractResults (platformDouble true ERROR_SUCCESS [sampleA]) {} [sampleA] []).1
          = { hostAddressRecords :=
                [{ name := "example.com", timeToLive := 300,
                   value := .IPv4 (93 * 2 ^ 24 + 184 * 2 ^ 16 + 216 * 2 ^ 8 + 34) }] } :=
  ⟨rfl, rfl, by decide, rfl,
    single_A_record (platformDouble true ERROR_SUCCESS [sampleA]) sampleA 300
      (93 * 2 ^ 24 + 184 * 2 ^ 16 + 216 * 2 ^ 8 + 34) [] rfl rfl (by decide) rfl⟩

/-- C9: for every TXT node with string count `n`, whatever the reply and the cache hold when the
loop reaches it, the decoder appends exactly one TextRecord to the text sequence and changes
nothing else in the reply; the value sequence of that record has exactly `n` entries, the
`i`-th being `toLatin1` of the node's `i`-th string; for `n = 0` the record is appended with an
empty value sequence. -/
theorem txt_record_values (env : Env) (reply : QDnsLookupReply) (c : NameCache)
    (ptr : DNS_RECORD) (hType : ptr.wType = QDnsLookup.TXT) :
    ∃ record : QDnsTextRecord,
      (decodeRecord env (reply, c) ptr).1
          = { reply with textRecords := reply.textRecords ++ [record] }
        ∧ record.timeToLive = ptr.dwTtl
        ∧ record.values
            = (List.range ptr.Data.Txt.dwStringCount).map
                (fun i => env.toLatin1 (ptr.Data.Txt.pStringArray i))
        ∧ record.values.length = ptr.Data.Txt.dwStringCount
        ∧ (∀ i, i < ptr.Data.Txt.dwStringCount →
            record.values[i]? = some (env.toLatin1 (ptr.Data.Txt.pStringArray i)))
        ∧ (ptr.Data.Txt.dwStringCount = 0 → record.values = []) := by
  refine ⟨textEntry env (extractMaybeCachedHost env c ptr.pName).1 ptr, ?_, rfl, rfl, ?_, ?_, ?_⟩
  · rw [decodeRecord_fst]
    simp [appendDecoded, hType, textEntry, QDnsLookup.TXT, QDnsLookup.A, QDnsLookup.AAAA,
      QDnsLookup.CNAME, QDnsLookup.MX, QDnsLookup.NS, QDnsLookup.PTR, QDnsLookup.SRV]
  · simp [textEntry]
  · intro i hi
    simp [textEntry, hi]
  · intro h0
    simp [textEntry, h0]

/-- A TXT node with no string, and one with two strings. -/
theorem txt_record_values_witness :
    sampleTxtEmpty.wType = QDnsLookup.TXT
      ∧ (extractResults (platformDouble true ERROR_SUCCESS [sampleTxtEmpty]) {}
            [sampleTxtEmpty] []).1.textRecords
          = [{ name := "example.com", timeToLive := 60, values := [] }]
      ∧ (extractResults (platformDouble true ERROR_SUCCESS [sampleTxt]) {}
            [sampleTxt] []).1.textRecords
          = [{ name := "example.com", timeToLive := 60, values := [[97, 98], [99]] }]
      ∧ ∃ record : QDnsTextRecord,
          (decodeRecord (platformDouble true ERROR_SUCCESS [sampleTxtEmpty]) ({}, {})
              sampleTxtEmpty).1
              = { textRecords := [record] }
            ∧ record.timeToLive = sampleTxtEmpty.dwTtl
            ∧ record.values
                = (List.range sampleTxtEmpty.Data.Txt.dwStringCount).map
                    (fun i => (platformDouble true ERROR_SUCCESS [sampleTxtEmpty]).toLatin1
                      (sampleTxtEmpty.Data.Txt.pStringArray i))
            ∧ record.values.length = sampleTxtEmpty.Data.Txt.dwStringCount
            ∧ (∀ i, i < sampleTxtEmpty.Data.Txt.dwStringCount →
                record.values[i]?
                  = some ((platformDouble true ERROR_SUCCESS [sampleTxtEmpty]).toLatin1
                      (sampleTxtEmpty.Data.Txt.pStringArray i)))
            ∧ (sampleTxtEmpty.Data.Txt.dwStringCount = 0 → record.values = []) :=
  ⟨rfl, by decide, by decide,
    txt_record_values (platformDouble true ERROR_SUCCESS [sampleTxtEmpty]) {} {}
      sampleTxtEmpty rfl⟩

/-! ## The remaining statuses -/

/-- C11: under the extended strategy every status has exactly one outcome. A status inside the
reserved range gives the response-code error, `ERROR_TIMEOUT` the timeout error, and
`ERROR_SUCCESS` the decoding of the returned list; every other status `s` gives the reply that
`makeResolverSystemError` leaves when called on the incoming reply with that same `s`, the only
platform call being the query itself. The four conditions on the status exclude one another and
leave no status out. -/
theorem query_extended_status_partition (env : Env) (self : QDnsLookupRunnable)
    (reply : QDnsLookupReply) (myDnsQueryEx : DNS_QUERY_REQUEST → DNS_STATUS × PDNS_RECORD)
    (status : DNS_STATUS) (records : PDNS_RECORD)
    (hEx : env.myDnsQueryEx = some myDnsQueryEx)
    (hRes : myDnsQueryEx (buildRequest env self) = (status, records)) :
    (status ≠ ERROR_SUCCESS → status ≠ ERROR_TIMEOUT
        → ¬ (DNS_ERROR_RCODE_FORMAT_ERROR ≤ status ∧ status ≤ DNS_ERROR_RCODE_LAST)
        → query env self reply
            = (env.makeResolverSystemError status reply,
               [PlatformCall.DnsQueryEx (buildRequest env self)]))
      ∧ (DNS_ERROR_RCODE_FORMAT_ERROR ≤ status ∧ status ≤ DNS_ERROR_RCODE_LAST
        → query env self reply
            = (env.makeDnsRcodeError (status - DNS_ERROR_RCODE_FORMAT_ERROR + 1) reply,
               [PlatformCall.DnsQueryEx (buildRequest env self)]))
      ∧ (status = ERROR_TIMEOUT
        → query env self reply
            = (env.makeTimeoutError reply, [PlatformCall.DnsQueryEx (buildRequest env self)]))
      ∧ (status = ERROR_SUCCESS
        → query env self reply
            = extractResults env reply records
                [PlatformCall.DnsQueryEx (buildRequest env self)])
      ∧ ((DNS_ERROR_RCODE_FORMAT_ERROR ≤ status ∧ status ≤ DNS_ERROR_RCODE_LAST)
          ∨ status = ERROR_TIMEOUT ∨ status = ERROR_SUCCESS
          ∨ (status ≠ ERROR_SUCCESS ∧ status ≠ ERROR_TIMEOUT
              ∧ ¬ (DNS_ERROR_RCODE_FORMAT_ERROR ≤ status ∧ status ≤ DNS_ERROR_RCODE_LAST)))
      ∧ ¬ ((DNS_ERROR_RCODE_FORMAT_ERROR ≤ status ∧ status ≤ DNS_ERROR_RCODE_LAST)
            ∧ status = ERROR_TIMEOUT)
      ∧ ¬ ((DNS_ERROR_RCODE_FORMAT_ERROR ≤ status ∧ status ≤ DNS_ERROR_RCODE_LAST)
            ∧ status = ERROR_SUCCESS)
      ∧ ¬ (status = ERROR_TIMEOUT ∧ status = ERROR_SUCCESS) := by
  have hq : query env self reply
      = if DNS_ERROR_RCODE_FORMAT_ERROR ≤ status ∧ status ≤ DNS_ERROR_RCODE_LAST then
          (env.makeDnsRcodeError (status - DNS_ERROR_RCODE_FORMAT_ERROR + 1) reply,
            [PlatformCall.DnsQueryEx (buildRequest env self)])
        else if status = ERROR_TIMEOUT then
          (env.makeTimeoutError reply, [PlatformCall.DnsQueryEx (buildRequest env self)])
        else if status ≠ ERROR_SUCCESS then
          (env.makeResolverSystemError status reply,
            [PlatformCall.DnsQueryEx (buildRequest env self)])
        else
          extractResults env reply records [PlatformCall.DnsQueryEx (buildRequest env self)] := by
    unfold query
    rw [hEx]
    simp only [hRes]
  refine ⟨?_, ?_, ?_, ?_, ?_, ?_, ?_, ?_⟩
  · intro hS hT hR
    rw [hq, if_neg hR, if_neg hT, if_pos hS]
  · intro hR
    rw [hq, if_pos hR]
  · intro hT
    have hR : ¬ (DNS_ERROR_RCODE_FORMAT_ERROR ≤ status ∧ status ≤ DNS_ERROR_RCODE_LAST) := by
      rw [hT]; decide
    rw [hq, if_neg hR, if_pos hT]
  · intro hS
    have hR : ¬ (DNS_ERROR_RCODE_FORMAT_ERROR ≤ status ∧ status ≤ DNS_ERROR_RCODE_LAST) := by
      rw [hS]; decide
    have hT : ¬ status = ERROR_TIMEOUT := by
      rw [hS]; decide
    rw [hq, if_neg hR, if_neg hT, if_neg (not_not.mpr hS)]
  · by_cases hR : DNS_ERROR_RCODE_FORMAT_ERROR ≤ status ∧ status ≤ DNS_ERROR_RCODE_LAST
    · exact Or.inl hR
    · by_cases hT : status = ERROR_TIMEOUT
      · exact Or.inr (Or.inl hT)
      · by_cases hS : status = ERROR_SUCCESS
        · exact Or.inr (Or.inr (Or.inl hS))
        · exact Or.inr (Or.inr (Or.inr ⟨hS, hT, hR⟩))
  · rintro ⟨hR, hT⟩
    rw [hT] at hR
    exact absurd hR (by decide)
  · rintro ⟨hR, hS⟩
    rw [hS] at hR
    exact absurd hR (by decide)
  · rintro ⟨hT, hS⟩
    rw [hT] at hS
    exact absurd hS (by decide)

/-- The status 5 (access denied) under the extended strategy: a system error carrying 5. -/
theorem query_extended_status_partition_witness :
    (platformDouble true 5 [sampleA]).myDnsQueryEx = some (fun _ => (5, [sampleA]))
      ∧ (query (platformDouble true 5 [sampleA]) sampleRequest {}).1
          = { error := .ResolverError, errorString := "System error 5" } :=
  ⟨rfl,
    congrArg Prod.fst
      ((query_extended_status_partition (platformDouble true 5 [sampleA]) sampleRequest {}
        (fun _ => (5, [sampleA])) 5 [sampleA] rfl rfl).1
        (by decide) (by decide) (by decide))⟩

/-- C12: under the legacy strategy (nameserver not an IPv6 address, so that `DnsQuery_W` is
called), every status other than success, format error, server failure, not implemented, name
error and refused sets the error kind to `InvalidReplyError` and the message to the native
error text of that status, leaves the rest of the reply as it was and makes no other platform
call; `ERROR_TIMEOUT` is such a status. -/
theorem query_legacy_other_status (env : Env) (self : QDnsLookupRunnable)
    (reply : QDnsLookupReply) (status : DNS_STATUS) (records : PDNS_RECORD)
    (hEx : env.myDnsQueryEx = none)
    (hNs : self.nameserver.protocol ≠ .IPv6Protocol)
    (hRes : env.DnsQuery_W self.requestName self.requestType DNS_QUERY_STANDARD
              (legacySrvList self) = (status, records))
    (h0 : status ≠ ERROR_SUCCESS) (h1 : status ≠ DNS_ERROR_RCODE_FORMAT_ERROR)
    (h2 : status ≠ DNS_ERROR_RCODE_SERVER_FAILURE)
    (h3 : status ≠ DNS_ERROR_RCODE_NOT_IMPLEMENTED)
    (h4 : status ≠ DNS_ERROR_RCODE_NAME_ERROR) (h5 : status ≠ DNS_ERROR_RCODE_REFUSED) :
    query env self reply
        = ({ reply with error := .InvalidReplyError,
                        errorString := env.systemErrorString status },
           [PlatformCall.DnsQuery_W self.requestName self.requestType DNS_QUERY_STANDARD
              (legacySrvList self)])
      ∧ ERROR_TIMEOUT ≠ ERROR_SUCCESS ∧ ERROR_TIMEOUT ≠ DNS_ERROR_RCODE_FORMAT_ERROR
      ∧ ERROR_TIMEOUT ≠ DNS_ERROR_RCODE_SERVER_FAILURE
      ∧ ERROR_TIMEOUT ≠ DNS_ERROR_RCODE_NOT_IMPLEMENTED
      ∧ ERROR_TIMEOUT ≠ DNS_ERROR_RCODE_NAME_ERROR ∧ ERROR_TIMEOUT ≠ DNS_ERROR_RCODE_REFUSED := by
  refine ⟨?_, by decide, by decide, by decide, by decide, by decide, by decide⟩
  rw [query_legacy_eq_call env self reply hEx hNs]
  unfold queryLegacyCall
  simp only [hRes]
  rw [if_neg h0, if_neg h1, if_neg (not_or.mpr ⟨h2, h3⟩), if_neg h4, if_neg h5]

/-- The status `ERROR_TIMEOUT` under the legacy strategy: `InvalidReplyError`. -/
theorem query_legacy_other_status_witness :
    (legacyDouble ERROR_TIMEOUT [sampleA]).myDnsQueryEx = none
      ∧ sampleRequest.nameserver.protocol ≠ .IPv6Protocol
      ∧ (query (legacyDouble ERROR_TIMEOUT [sampleA]) sampleRequest {}).1
          = { error := .InvalidReplyError, errorString := "System error 1460" } :=
  ⟨rfl, by decide,
    congrArg Prod.fst
      (query_legacy_other_status (legacyDouble ERROR_TIMEOUT [sampleA]) sampleRequest {}
        ERROR_TIMEOUT [sampleA] rfl (by decide) rfl (by decide) (by decide) (by decide)
        (by decide) (by decide) (by decide)).1⟩

/-! ## Errors and records -/

/-- Writing the error fields leaves the record sequences alone. -/
theorem sameRecords_setError (reply : QDnsLookupReply) (e : QDnsLookup.Error) (msg : QString) :
    ({ reply with error := e, errorString := msg } : QDnsLookupReply).sameRecords reply :=
  ⟨rfl, rfl, rfl, rfl, rfl, rfl, rfl⟩

/-- Replies with the same record sequences keep each other's records. -/
theorem keepsRecordsOf_of_sameRecords (out reply : QDnsLookupReply)
    (h : out.sameRecords reply) : out.keepsRecordsOf reply := by
  obtain ⟨h1, h2, h3, h4, h5, h6, h7⟩ := h
  unfold QDnsLookupReply.keepsRecordsOf
  rw [h1, h2, h3, h4, h5, h6, h7]
  exact ⟨List.prefix_refl _, List.prefix_refl _, List.prefix_refl _, List.prefix_refl _,
    List.prefix_refl _, List.prefix_refl _, List.prefix_refl _⟩

/-- The shared tail of `query` only appends to the record sequences. -/
theorem extractResults_keepsRecords (env : Env) (reply : QDnsLookupReply)
    (records : PDNS_RECORD) (calls : List PlatformCall) :
    (extractResults env reply records calls).1.keepsRecordsOf reply := by
  rw [extractResults_fst]
  obtain ⟨names, -, -, h1, h2, h3, h4, h5, h6, h7⟩ :=
    decodeLoop_wire_order env records reply
      { lastEncodedName := "", cachedDecodedName := "" } (Or.inr ⟨rfl, rfl⟩)
  exact ⟨⟨_, h2.symm⟩, ⟨_, h1.symm⟩, ⟨_, h3.symm⟩, ⟨_, h4.symm⟩, ⟨_, h5.symm⟩, ⟨_, h6.symm⟩,
    ⟨_, h7.symm⟩⟩

/-- The shared tail of `query` makes at most one platform call. -/
theorem extractResults_calls_length (env : Env) (reply : QDnsLookupReply)
    (records : PDNS_RECORD) (calls : List PlatformCall) :
    (extractResults env reply records calls).2.length ≤ calls.length + 1 := by
  cases records <;> simp [extractResults]

/-- Under the legacy strategy a status other than success leaves the record sequences alone. -/
theorem queryLegacyCall_error_records (env : Env) (self : QDnsLookupRunnable)
    (reply : QDnsLookupReply) (name : QString) (srvList : IP4_ARRAY)
    (hErr : (env.DnsQuery_W name self.requestType DNS_QUERY_STANDARD srvList).1
              ≠ ERROR_SUCCESS) :
    (queryLegacyCall env self reply name srvList).1.sameRecords reply := by
  unfold queryLegacyCall
  simp only
  split_ifs <;> first | contradiction | exact sameRecords_setError reply _ _

/-- Under the extended strategy a status other than success leaves the record sequences alone,
when the error helpers do. -/
theorem query_extended_error_records (env : Env) (self : QDnsLookupRunnable)
    (reply : QDnsLookupReply) (myDnsQueryEx : DNS_QUERY_REQUEST → DNS_STATUS × PDNS_RECORD)
    (hHelpers : env.HelpersSetErrorOnly)
    (hEx : env.myDnsQueryEx = some myDnsQueryEx)
    (hErr : (myDnsQueryEx (buildRequest env self)).1 ≠ ERROR_SUCCESS) :
    (query env self reply).1.sameRecords reply := by
  unfold query
  rw [hEx]
  simp only
  split_ifs
  · exact hHelpers.1 _ _
  · exact hHelpers.2.1 _
  · exact hHelpers.2.2 _ _

/-- The double's error helpers write the error fields only. -/
theorem platformDouble_helpers (extended : Bool) (status : DNS_STATUS) (records : PDNS_RECORD) :
    (platformDouble extended status records).HelpersSetErrorOnly := by
  refine ⟨?_, ?_, ?_⟩
  · intro rcode reply
    show (makeDnsRcodeErrorDouble rcode reply).sameRecords reply
    unfold makeDnsRcodeErrorDouble
    split_ifs <;> exact sameRecords_setError reply _ _
  · intro reply
    exact sameRecords_setError reply _ _
  · intro code reply
    exact sameRecords_setError reply _ _

/-- The legacy rejection of an IPv6 nameserver leaves the record sequences alone. -/
theorem query_legacy_ipv6_records (env : Env) (self : QDnsLookupRunnable)
    (reply : QDnsLookupReply) (hEx : env.myDnsQueryEx = none)
    (hNs : self.nameserver.protocol = .IPv6Protocol) :
    (query env self reply).1.sameRecords reply := by
  unfold query
  rw [hEx]
  cases hn : self.nameserver <;> simp [hn, QHostAddress.protocol] at hNs
  simp only [QHostAddress.isNull, QHostAddress.protocol]
  exact sameRecords_setError reply _ _

/-- C13: errors and records exclude each other. With error helpers that write the error fields
only, every run of `query` that ends by reporting an error leaves all seven record sequences as
they were: a status other than success under the extended strategy, the rejection of an IPv6
nameserver under the legacy strategy, and a status other than success from `DnsQuery_W`.
Conversely, when some record sequence differs after the call, the platform call was made and
its status was success. -/
theorem errors_exclude_records (env : Env) (self : QDnsLookupRunnable)
    (reply : QDnsLookupReply) (hHelpers : env.HelpersSetErrorOnly) :
    (∀ myDnsQueryEx, env.myDnsQueryEx = some myDnsQueryEx
        → (myDnsQueryEx (buildRequest env self)).1 ≠ ERROR_SUCCESS
        → (query env self reply).1.sameRecords reply)
      ∧ (env.myDnsQueryEx = none → self.nameserver.protocol = .IPv6Protocol
        → (query env self reply).1.sameRecords reply)
      ∧ (env.myDnsQueryEx = none → self.nameserver.protocol ≠ .IPv6Protocol
        → (env.DnsQuery_W self.requestName self.requestType DNS_QUERY_STANDARD
              (legacySrvList self)).1 ≠ ERROR_SUCCESS
        → (query env self reply).1.sameRecords reply)
      ∧ (¬ (query env self reply).1.sameRecords reply
        → (∃ myDnsQueryEx, env.myDnsQueryEx = some myDnsQueryEx
              ∧ (myDnsQueryEx (buildRequest env self)).1 = ERROR_SUCCESS)
          ∨ (env.myDnsQueryEx = none ∧ self.nameserver.protocol ≠ .IPv6Protocol
              ∧ (env.DnsQuery_W self.requestName self.requestType DNS_QUERY_STANDARD
                    (legacySrvList self)).1 = ERROR_SUCCESS)) := by
  have hExt : ∀ myDnsQueryEx, env.myDnsQueryEx = some myDnsQueryEx
      → (myDnsQueryEx (buildRequest env self)).1 ≠ ERROR_SUCCESS
      → (query env self reply).1.sameRecords reply :=
    fun f hEx hErr => query_extended_error_records env self reply f hHelpers hEx hErr
  have hLeg : env.myDnsQueryEx = none → self.nameserver.protocol ≠ .IPv6Protocol
      → (env.DnsQuery_W self.requestName self.requestType DNS_QUERY_STANDARD
            (legacySrvList self)).1 ≠ ERROR_SUCCESS
      → (query env self reply).1.sameRecords reply := by
    intro hEx hNs hErr
    rw [query_legacy_eq_call env self reply hEx hNs]
    exact queryLegacyCall_error_records env self reply _ _ hErr
  refine ⟨hExt, query_legacy_ipv6_records env self reply, hLeg, ?_⟩
  intro hDiff
  cases hEx : env.myDnsQueryEx with
  | some f =>
    refine Or.inl ⟨f, rfl, ?_⟩
    by_contra hErr
    exact hDiff (hExt f hEx hErr)
  | none =>
    have hNs : self.nameserver.protocol ≠ .IPv6Protocol :=
      fun h => hDiff (query_legacy_ipv6_records env self reply hEx h)
    refine Or.inr ⟨rfl, hNs, ?_⟩
    by_contra hErr
    exact hDiff (hLeg hEx hNs hErr)

/-- A name error under the extended strategy on a reply that already holds a record. -/
theorem errors_exclude_records_witness :
    (platformDouble true DNS_ERROR_RCODE_NAME_ERROR [sampleA]).HelpersSetErrorOnly
      ∧ (query (platformDouble true DNS_ERROR_RCODE_NAME_ERROR [sampleA]) sampleRequest
            sampleReply).1.sameRecords sampleReply :=
  ⟨platformDouble_helpers true DNS_ERROR_RCODE_NAME_ERROR [sampleA],
    (errors_exclude_records (platformDouble true DNS_ERROR_RCODE_NAME_ERROR [sampleA])
      sampleRequest sampleReply
      (platformDouble_helpers true DNS_ERROR_RCODE_NAME_ERROR [sampleA])).1
      (fun _ => (DNS_ERROR_RCODE_NAME_ERROR, [sampleA])) rfl (by decide)⟩

/-! ## Every run returns -/

/-- The legacy strategy, once `DnsQuery_W` is called, ends in one of the listed ways after at
most two platform calls. -/
theorem queryLegacyCall_returns (env : Env) (self : QDnsLookupRunnable)
    (reply : QDnsLookupReply) (name : QString) (srvList : IP4_ARRAY) :
    ReturnsNormally env reply (queryLegacyCall env self reply name srvList).1
      ∧ (queryLegacyCall env self reply name srvList).2.length ≤ 2 := by
  unfold queryLegacyCall
  simp only
  split_ifs
  · exact ⟨Or.inr (Or.inr (Or.inr (Or.inr ⟨_, extractResults_fst env reply _ _⟩))),
      extractResults_calls_length env reply _ _⟩
  all_goals
    exact ⟨Or.inr (Or.inr (Or.inr (Or.inl ⟨_, _, by decide, rfl⟩))), by simp⟩

/-- Every run of `query` ends in one of the listed ways after at most two platform calls. -/
theorem query_outcome (env : Env) (self : QDnsLookupRunnable) (reply : QDnsLookupReply) :
    ReturnsNormally env reply (query env self reply).1
      ∧ (query env self reply).2.length ≤ 2 := by
  unfold query
  cases hEx : env.myDnsQueryEx with
  | some f =>
    simp only
    split_ifs
    · exact ⟨Or.inl ⟨_, rfl⟩, by simp⟩
    · exact ⟨Or.inr (Or.inl rfl), by simp⟩
    · exact ⟨Or.inr (Or.inr (Or.inl ⟨_, rfl⟩)), by simp⟩
    · exact ⟨Or.inr (Or.inr (Or.inr (Or.inr ⟨_, extractResults_fst env reply _ _⟩))),
        extractResults_calls_length env reply _ _⟩
  | none =>
    simp only
    split_ifs
    · exact queryLegacyCall_returns env self reply _ _
    · exact ⟨Or.inr (Or.inr (Or.inr (Or.inl ⟨_, _, by decide, rfl⟩))), by simp⟩
    · exact queryLegacyCall_returns env self reply _ _
    · exact queryLegacyCall_returns env self reply _ _

/-- On a finite null-terminated list in memory the record loop returns, within as many passes
as the list has nodes, what the loop over the list as a value gives. -/
theorem walkRecords_of_list (env : Env) (memory : RecordMemory) (records : PDNS_RECORD) :
    ∀ (steps ptr : Nat) (st : QDnsLookupReply × NameCache),
      IsRecordList memory ptr records → records.length ≤ steps →
      walkRecords env memory steps ptr st = Run.returned (decodeLoop env st records) := by
  induction records with
  | nil =>
    intro steps ptr st hList _
    have hPtr : ptr = 0 := hList
    subst hPtr
    cases steps <;> simp [walkRecords, decodeLoop]
  | cons record rest ih =>
    intro steps ptr st hList hSteps
    obtain ⟨hNe, pNext, hMem, hRest⟩ := hList
    cases steps with
    | zero => simp at hSteps
    | succ k =>
      have hk : rest.length ≤ k := by simpa using hSteps
      simp only [walkRecords, if_neg hNe, hMem]
      rw [ih k pNext _ hRest hk]
      simp [decodeLoop]

/-- On a cycle the record loop is still running after any number of passes. -/
theorem walkRecords_cycle (env : Env) (steps : Nat) (st : QDnsLookupReply × NameCache) :
    walkRecords env memoryCycle steps 1 st = Run.running := by
  induction steps generalizing st with
  | zero => simp [walkRecords]
  | succ k ih => simp [walkRecords, memoryCycle, ih]

/-- A read through a pointer at which no node stands is a fault. -/
theorem walkRecords_dangling (env : Env) (steps : Nat) (st : QDnsLookupReply × NameCache) :
    walkRecords env (fun _ => none) (steps + 1) 1 st = Run.fault := by
  simp [walkRecords]

/-- On a finite null-terminated list in memory the shared tail of `query` returns the reply
that the tail over the list as a value leaves. -/
theorem extractResultsRun_of_list (env : Env) (memory : RecordMemory) (records : PDNS_RECORD)
    (steps ptrStart : Nat) (reply : QDnsLookupReply) (calls : List PlatformCall)
    (hList : IsRecordList memory ptrStart records) (hSteps : records.length ≤ steps) :
    extractResultsRun env memory steps reply ptrStart
      = Run.returned (extractResults env reply records calls).1 := by
  rw [extractResults_fst]
  unfold extractResultsRun
  cases records with
  | nil =>
    have hPtr : ptrStart = 0 := hList
    simp [hPtr, decodeLoop]
  | cons record rest =>
    have hNe : ptrStart ≠ 0 := hList.1
    rw [if_neg hNe, walkRecords_of_list env memory (record :: rest) steps ptrStart _ hList hSteps]

/-- The legacy strategy from the call of `DnsQuery_W` on returns, on a list in memory, the reply
it leaves on the list as a value. -/
theorem queryLegacyCallRun_returns (env : Env) (pm : PlatformMemory) (steps : Nat)
    (self : QDnsLookupRunnable) (reply : QDnsLookupReply) (name : QString)
    (srvList : IP4_ARRAY) (hHolds : pm.Holds env)
    (hSteps : (env.DnsQuery_W name self.requestType DNS_QUERY_STANDARD srvList).2.length
                ≤ steps) :
    queryLegacyCallRun env pm steps self reply name srvList
      = Run.returned (queryLegacyCall env self reply name srvList).1 := by
  obtain ⟨hStatus, hList⟩ := hHolds.2 name self.requestType DNS_QUERY_STANDARD srvList
  unfold queryLegacyCallRun queryLegacyCall
  simp only [hStatus]
  split_ifs
  · exact extractResultsRun_of_list env pm.memory _ steps _ reply _ hList hSteps
  all_goals rfl

/-- With the platform handing back finite null-terminated lists, a run of `query` on the memory
returns, once the record loop is allowed as many passes as the list has nodes, the reply that
`query` leaves on the list as a value. -/
theorem queryRun_returns (env : Env) (pm : PlatformMemory) (self : QDnsLookupRunnable)
    (reply : QDnsLookupReply) (hHolds : pm.Holds env) :
    ∃ steps0, ∀ steps, steps0 ≤ steps →
      queryRun env pm steps self reply = Run.returned (query env self reply).1 := by
  have hFst := hHolds.1
  cases hPm : pm.myDnsQueryEx with
  | some onMemory =>
    cases hEnv : env.myDnsQueryEx with
    | none => simp [hPm, hEnv] at hFst
    | some onLists =>
      simp only [hPm, hEnv] at hFst
      obtain ⟨hStatus, hList⟩ := hFst (buildRequest env self)
      refine ⟨(onLists (buildRequest env self)).2.length, fun steps hSteps => ?_⟩
      unfold queryRun query
      simp only [hPm, hEnv, hStatus]
      split_ifs
      · rfl
      · rfl
      · rfl
      · exact extractResultsRun_of_list env pm.memory _ steps _ reply _ hList hSteps
  | none =>
    cases hEnv : env.myDnsQueryEx with
    | some onLists => simp [hPm, hEnv] at hFst
    | none =>
      refine ⟨(env.DnsQuery_W self.requestName self.requestType DNS_QUERY_STANDARD
          { AddrCount := 1, AddrArray0 := htonl self.nameserver.toIPv4Address }).2.length
        + (env.DnsQuery_W self.requestName self.requestType DNS_QUERY_STANDARD {}).2.length,
        fun steps hSteps => ?_⟩
      unfold queryRun query
      simp only [hPm, hEnv]
      split_ifs
      · exact queryLegacyCallRun_returns env pm steps self reply _ _ hHolds (by omega)
      · rfl
      · exact queryLegacyCallRun_returns env pm steps self reply _ _ hHolds (by omega)
      · exact queryLegacyCallRun_returns env pm steps self reply _ _ hHolds (by omega)

/-- A status other than success under the extended strategy is reported on the reply. -/
theorem query_extended_reports (env : Env) (self : QDnsLookupRunnable)
    (reply : QDnsLookupReply) (myDnsQueryEx : DNS_QUERY_REQUEST → DNS_STATUS × PDNS_RECORD)
    (hEx : env.myDnsQueryEx = some myDnsQueryEx)
    (hErr : (myDnsQueryEx (buildRequest env self)).1 ≠ ERROR_SUCCESS) :
    ReportsError env reply (query env self reply).1 := by
  unfold query
  rw [hEx]
  simp only
  split_ifs
  · exact Or.inl ⟨_, rfl⟩
  · exact Or.inr (Or.inl rfl)
  · exact Or.inr (Or.inr (Or.inl ⟨_, rfl⟩))

/-- A status other than success from `DnsQuery_W` is reported on the reply. -/
theorem queryLegacyCall_reports (env : Env) (self : QDnsLookupRunnable)
    (reply : QDnsLookupReply) (name : QString) (srvList : IP4_ARRAY)
    (hErr : (env.DnsQuery_W name self.requestType DNS_QUERY_STANDARD srvList).1
              ≠ ERROR_SUCCESS) :
    ReportsError env reply (queryLegacyCall env self reply name srvList).1 := by
  unfold queryLegacyCall
  simp only
  split_ifs
  · contradiction
  all_goals exact Or.inr (Or.inr (Or.inr ⟨_, _, by decide, rfl⟩))

/-- The legacy rejection of an IPv6 nameserver is reported on the reply. -/
theorem query_legacy_ipv6_reports (env : Env) (self : QDnsLookupRunnable)
    (reply : QDnsLookupReply) (hEx : env.myDnsQueryEx = none)
    (hNs : self.nameserver.protocol = .IPv6Protocol) :
    ReportsError env reply (query env self reply).1 := by
  unfold query
  rw [hEx]
  cases hn : self.nameserver <;> simp [hn, QHostAddress.protocol] at hNs
  simp only [QHostAddress.isNull, QHostAddress.protocol]
  exact Or.inr (Or.inr (Or.inr ⟨_, _, by decide, rfl⟩))

/-- C14: `query` is total. For every request, every incoming reply, every status the platform
call returns and every finite null-terminated record list it hands back in memory, under either
strategy, the run of `query` that follows the `pNext` pointers returns: once the record loop is
allowed as many passes as the list has nodes the run ends, it ends neither in a fault nor still
running, and the reply it returns is the one `query` leaves on that list. Every failure is
reported on that reply: after a status other than success, and after the rejection of an IPv6
nameserver under the legacy strategy, the reply returned is the incoming one after one of the
error helpers, or with an error kind assigned to its error fields. -/
theorem query_terminates (env : Env) (pm : PlatformMemory) (self : QDnsLookupRunnable)
    (reply : QDnsLookupReply) (hHolds : pm.Holds env) :
    (∃ steps0, ∀ steps, steps0 ≤ steps →
        queryRun env pm steps self reply = Run.returned (query env self reply).1)
      ∧ (∀ myDnsQueryEx, env.myDnsQueryEx = some myDnsQueryEx
        → (myDnsQueryEx (buildRequest env self)).1 ≠ ERROR_SUCCESS
        → ReportsError env reply (query env self reply).1)
      ∧ (env.myDnsQueryEx = none → self.nameserver.protocol = .IPv6Protocol
        → ReportsError env reply (query env self reply).1)
      ∧ (env.myDnsQueryEx = none → self.nameserver.protocol ≠ .IPv6Protocol
        → (env.DnsQuery_W self.requestName self.requestType DNS_QUERY_STANDARD
              (legacySrvList self)).1 ≠ ERROR_SUCCESS
        → ReportsError env reply (query env self reply).1) := by
  refine ⟨queryRun_returns env pm self reply hHolds,
    fun f hEx hErr => query_extended_reports env self reply f hEx hErr,
    query_legacy_ipv6_reports env self reply, ?_⟩
  intro hEx hNs hErr
  rw [query_legacy_eq_call env self reply hEx hNs]
  exact queryLegacyCall_reports env self reply _ _ hErr

/-- The memory double holds the list `sampleChain` at the address 1. -/
theorem memoryDouble_isList : IsRecordList memoryDouble 1 sampleChain :=
  ⟨by decide, 2, rfl, by decide, 3, rfl, by decide, 0, rfl, rfl⟩

/-- The platform double on memory hands back what the platform double on lists answers with. -/
theorem platformMemoryDouble_holds (extended : Bool) (status : DNS_STATUS) :
    (platformMemoryDouble extended status).Holds (platformDouble extended status sampleChain) := by
  refine ⟨?_, fun _ _ _ _ => ⟨rfl, memoryDouble_isList⟩⟩
  cases extended
  · trivial
  · exact fun _ => ⟨rfl, memoryDouble_isList⟩

/-- The list `sampleChain` in memory, returned with success: three passes are enough and two
are not; with a name error nothing is walked and the error is on the reply. -/
theorem query_terminates_witness :
    (platformMemoryDouble true ERROR_SUCCESS).Holds
        (platformDouble true ERROR_SUCCESS sampleChain)
      ∧ queryRun (platformDouble true ERROR_SUCCESS sampleChain)
            (platformMemoryDouble true ERROR_SUCCESS) 2 sampleRequest {}
          = Run.running
      ∧ queryRun (platformDouble true ERROR_SUCCESS sampleChain)
            (platformMemoryDouble true ERROR_SUCCESS) 3 sampleRequest {}
          = Run.returned
              (query (platformDouble true ERROR_SUCCESS sampleChain) sampleRequest {}).1
      ∧ queryRun (platformDouble false DNS_ERROR_RCODE_NAME_ERROR sampleChain)
            (platformMemoryDouble false DNS_ERROR_RCODE_NAME_ERROR) 0 sampleRequest {}
          = Run.returned { error := .NotFoundError, errorString := "Non existent domain" }
      ∧ ∃ steps0, ∀ steps, steps0 ≤ steps →
          queryRun (platformDouble true ERROR_SUCCESS sampleChain)
              (platformMemoryDouble true ERROR_SUCCESS) steps sampleRequest {}
            = Run.returned
                (query (platformDouble true ERROR_SUCCESS sampleChain) sampleRequest {}).1 :=
  ⟨platformMemoryDouble_holds true ERROR_SUCCESS, rfl, rfl, rfl,
    (query_terminates (platformDouble true ERROR_SUCCESS sampleChain)
      (platformMemoryDouble true ERROR_SUCCESS) sampleRequest {}
      (platformMemoryDouble_holds true ERROR_SUCCESS)).1⟩

/-! ## The record sequences only grow -/

/-- C19: the record sequences are append-only. For every incoming reply, whatever it already
holds, and every record list, each record sequence after the decode pass starts with the whole
of the sequence before it, unchanged and in the same order; and so does each record sequence
after `query`, on every path, when the error helpers write the error fields only. -/
theorem records_append_only (env : Env) (self : QDnsLookupRunnable) (reply : QDnsLookupReply)
    (records : PDNS_RECORD) (calls : List PlatformCall) :
    (extractResults env reply records calls).1.keepsRecordsOf reply
      ∧ (decodeLoop env (reply, NameCache.start) records).1.keepsRecordsOf reply
      ∧ (env.HelpersSetErrorOnly → (query env self reply).1.keepsRecordsOf reply) := by
  have hLoop : ∀ l, (decodeLoop env (reply, NameCache.start) l).1.keepsRecordsOf reply := by
    intro l
    have h := extractResults_keepsRecords env reply l []
    rw [extractResults_fst] at h
    exact h
  refine ⟨extractResults_keepsRecords env reply records calls, hLoop records, ?_⟩
  intro hHelpers
  rcases (query_outcome env self reply).1 with ⟨rcode, h⟩ | h | ⟨status, h⟩ | ⟨e, msg, -, h⟩
      | ⟨l, h⟩
  · rw [h]
    exact keepsRecordsOf_of_sameRecords _ _ (hHelpers.1 _ _)
  · rw [h]
    exact keepsRecordsOf_of_sameRecords _ _ (hHelpers.2.1 _)
  · rw [h]
    exact keepsRecordsOf_of_sameRecords _ _ (hHelpers.2.2 _ _)
  · rw [h]
    exact keepsRecordsOf_of_sameRecords _ _ (sameRecords_setError reply e msg)
  · rw [h]
    exact hLoop l

/-- Decoding one A node into a reply that already holds a host-address record. -/
theorem records_append_only_witness :
    (extractResults (platformDouble true ERROR_SUCCESS [sampleA]) sampleReply [sampleA]
        []).1.hostAddressRecords
        = sampleReply.hostAddressRecords
            ++ [{ name := "example.com", timeToLive := 300,
                  value := .IPv4 (93 * 2 ^ 24 + 184 * 2 ^ 16 + 216 * 2 ^ 8 + 34) }]
      ∧ (platformDouble true ERROR_SUCCESS [sampleA]).HelpersSetErrorOnly
      ∧ (query (platformDouble true ERROR_SUCCESS [sampleA]) sampleRequest
            sampleReply).1.keepsRecordsOf sampleReply :=
  ⟨by decide, platformDouble_helpers true ERROR_SUCCESS [sampleA],
    (records_append_only (platformDouble true ERROR_SUCCESS [sampleA]) sampleRequest sampleReply
      [sampleA] []).2.2 (platformDouble_helpers true ERROR_SUCCESS [sampleA])⟩

/-! ## The fields of the decoded records -/

/-- C15: for every SRV node, whatever the reply and the cache hold when the loop reaches it, the
decoder appends one ServiceRecord to the service sequence and changes nothing else in the
reply. Its name is the owner name as resolved through the cache (that is, `decodeLabel` of the
node's name, the empty string for an empty name), its target is `decodeLabel` of the target
name, and port, priority, weight and time-to-live are the node's port, priority, weight and
TTL, each in its own field. -/
theorem srv_record_fields (env : Env) (reply : QDnsLookupReply) (c : NameCache)
    (ptr : DNS_RECORD) (hType : ptr.wType = QDnsLookup.SRV) :
    ∃ record : QDnsServiceRecord,
      (decodeRecord env (reply, c) ptr).1
          = { reply with serviceRecords := reply.serviceRecords ++ [record] }
        ∧ record.name = (extractMaybeCachedHost env c ptr.pName).1
        ∧ (c.Settled env →
            record.name = env.decodeLabel ptr.pName ∨ (ptr.pName = "" ∧ record.name = ""))
        ∧ record.target = env.decodeLabel ptr.Data.Srv.pNameTarget
        ∧ record.port = ptr.Data.Srv.wPort
        ∧ record.priority = ptr.Data.Srv.wPriority
        ∧ record.weight = ptr.Data.Srv.wWeight
        ∧ record.timeToLive = ptr.dwTtl := by
  refine ⟨serviceEntry env (extractMaybeCachedHost env c ptr.pName).1 ptr, ?_, rfl,
    fun hc => (extractMaybeCachedHost_settled env c ptr.pName hc).1, rfl, rfl, rfl, rfl, rfl⟩
  rw [decodeRecord_fst]
  simp [appendDecoded, hType, serviceEntry, QDnsLookup.SRV, QDnsLookup.A, QDnsLookup.AAAA,
    QDnsLookup.CNAME, QDnsLookup.MX, QDnsLookup.NS, QDnsLookup.PTR]

/-- An SRV node with port 5060, priority 10 and weight 20. -/
theorem srv_record_fields_witness :
    sampleSrv.wType = QDnsLookup.SRV
      ∧ (extractResults (platformDouble true ERROR_SUCCESS [sampleSrv]) {} [sampleSrv] []).1
          = { serviceRecords :=
                [{ name := "_sip._tcp.example.com", target := "sip.example.com", port := 5060,
                   priority := 10, timeToLive := 120, weight := 20 }] }
      ∧ ∃ record : QDnsServiceRecord,
          (decodeRecord (platformDouble true ERROR_SUCCESS [sampleSrv]) ({}, NameCache.start)
              sampleSrv).1
              = { serviceRecords := [record] }
            ∧ record.name
                = (extractMaybeCachedHost (platformDouble true ERROR_SUCCESS [sampleSrv])
                    NameCache.start sampleSrv.pName).1
            ∧ (NameCache.start.Settled (platformDouble true ERROR_SUCCESS [sampleSrv]) →
                record.name
                    = (platformDouble true ERROR_SUCCESS [sampleSrv]).decodeLabel sampleSrv.pName
                  ∨ (sampleSrv.pName = "" ∧ record.name = ""))
            ∧ record.target
                = (platformDouble true ERROR_SUCCESS [sampleSrv]).decodeLabel
                    sampleSrv.Data.Srv.pNameTarget
            ∧ record.port = sampleSrv.Data.Srv.wPort
            ∧ record.priority = sampleSrv.Data.Srv.wPriority
            ∧ record.weight = sampleSrv.Data.Srv.wWeight
            ∧ record.timeToLive = sampleSrv.dwTtl :=
  ⟨rfl, by decide,
    srv_record_fields (platformDouble true ERROR_SUCCESS [sampleSrv]) {} NameCache.start
      sampleSrv rfl⟩

/-- C16: for every MX node, whatever the reply and the cache hold when the loop reaches it, the
decoder appends one MailExchangeRecord to the mail-exchange sequence and changes nothing else in
the reply. Its name is the owner name as resolved through the cache, its exchange is
`decodeLabel` of the exchange name, its preference the node's preference and its time-to-live
the node's TTL. -/
theorem mx_record_fields (env : Env) (reply : QDnsLookupReply) (c : NameCache)
    (ptr : DNS_RECORD) (hType : ptr.wType = QDnsLookup.MX) :
    ∃ record : QDnsMailExchangeRecord,
      (decodeRecord env (reply, c) ptr).1
          = { reply with mailExchangeRecords := reply.mailExchangeRecords ++ [record] }
        ∧ record.name = (extractMaybeCachedHost env c ptr.pName).1
        ∧ (c.Settled env →
            record.name = env.decodeLabel ptr.pName ∨ (ptr.pName = "" ∧ record.name = ""))
        ∧ record.exchange = env.decodeLabel ptr.Data.Mx.pNameExchange
        ∧ record.preference = ptr.Data.Mx.wPreference
        ∧ record.timeToLive = ptr.dwTtl := by
  refine ⟨mailExchangeEntry env (extractMaybeCachedHost env c ptr.pName).1 ptr, ?_, rfl,
    fun hc => (extractMaybeCachedHost_settled env c ptr.pName hc).1, rfl, rfl, rfl⟩
  rw [decodeRecord_fst]
  simp [appendDecoded, hType, mailExchangeEntry, QDnsLookup.MX, QDnsLookup.A, QDnsLookup.AAAA,
    QDnsLookup.CNAME]

/-- An MX node with preference 10. -/
theorem mx_record_fields_witness :
    sampleMx.wType = QDnsLookup.MX
      ∧ (extractResults (platformDouble true ERROR_SUCCESS [sampleMx]) {} [sampleMx] []).1
          = { mailExchangeRecords :=
                [{ name := "example.com", exchange := "mail.example.com", preference := 10,
                   timeToLive := 3600 }] }
      ∧ ∃ record : QDnsMailExchangeRecord,
          (decodeRecord (platformDouble true ERROR_SUCCESS [sampleMx]) ({}, NameCache.start)
              sampleMx).1
              = { mailExchangeRecords := [record] }
            ∧ record.name
                = (extractMaybeCachedHost (platformDouble true ERROR_SUCCESS [sampleMx])
                    NameCache.start sampleMx.pName).1
            ∧ (NameCache.start.Settled (platformDouble true ERROR_SUCCESS [sampleMx]) →
                record.name
                    = (platformDouble true ERROR_SUCCESS [sampleMx]).decodeLabel sampleMx.pName
                  ∨ (sampleMx.pName = "" ∧ record.name = ""))
            ∧ record.exchange
                = (platformDouble true ERROR_SUCCESS [sampleMx]).decodeLabel
                    sampleMx.Data.Mx.pNameExchange
            ∧ record.preference = sampleMx.Data.Mx.wPreference
            ∧ record.timeToLive = sampleMx.dwTtl :=
  ⟨rfl, by decide,
    mx_record_fields (platformDouble true ERROR_SUCCESS [sampleMx]) {} NameCache.start
      sampleMx rfl⟩

/-- C17: for every CNAME, NS or PTR node, whatever the reply and the cache hold when the loop
reaches it, the decoder appends exactly one DomainNameRecord, with the owner name as resolved
through the cache, the node's TTL and `decodeLabel` of the node's own name payload, to the
sequence of its own kind: CNAME to the canonical-name sequence, NS to the name-server sequence,
PTR to the pointer sequence. Nothing else in the reply changes; in particular the sequences of
the other two kinds are the ones the reply had. -/
theorem domain_name_record_kinds (env : Env) (reply : QDnsLookupReply) (c : NameCache)
    (ptr : DNS_RECORD) :
    (ptr.wType = QDnsLookup.CNAME →
        (decodeRecord env (reply, c) ptr).1
            = { reply with canonicalNameRecords := reply.canonicalNameRecords ++
                  [{ name := (extractMaybeCachedHost env c ptr.pName).1,
                     timeToLive := ptr.dwTtl,
                     value := env.decodeLabel ptr.Data.Cname.pNameHost }] }
          ∧ (decodeRecord env (reply, c) ptr).1.nameServerRecords = reply.nameServerRecords
          ∧ (decodeRecord env (reply, c) ptr).1.pointerRecords = reply.pointerRecords)
      ∧ (ptr.wType = QDnsLookup.NS →
        (decodeRecord env (reply, c) ptr).1
            = { reply with nameServerRecords := reply.nameServerRecords ++
                  [{ name := (extractMaybeCachedHost env c ptr.pName).1,
                     timeToLive := ptr.dwTtl,
                     value := env.decodeLabel ptr.Data.Ns.pNameHost }] }
          ∧ (decodeRecord env (reply, c) ptr).1.canonicalNameRecords
              = reply.canonicalNameRecords
          ∧ (decodeRecord env (reply, c) ptr).1.pointerRecords = reply.pointerRecords)
      ∧ (ptr.wType = QDnsLookup.PTR →
        (decodeRecord env (reply, c) ptr).1
            = { reply with pointerRecords := reply.pointerRecords ++
                  [{ name := (extractMaybeCachedHost env c ptr.pName).1,
                     timeToLive := ptr.dwTtl,
                     value := env.decodeLabel ptr.Data.Ptr.pNameHost }] }
          ∧ (decodeRecord env (reply, c) ptr).1.canonicalNameRecords
              = reply.canonicalNameRecords
          ∧ (decodeRecord env (reply, c) ptr).1.nameServerRecords = reply.nameServerRecords)
      ∧ (c.Settled env →
          (extractMaybeCachedHost env c ptr.pName).1 = env.decodeLabel ptr.pName
            ∨ (ptr.pName = "" ∧ (extractMaybeCachedHost env c ptr.pName).1 = "")) := by
  refine ⟨?_, ?_, ?_, fun hc => (extractMaybeCachedHost_settled env c ptr.pName hc).1⟩
  · intro hType
    have h : (decodeRecord env (reply, c) ptr).1
        = { reply with canonicalNameRecords := reply.canonicalNameRecords ++
              [{ name := (extractMaybeCachedHost env c ptr.pName).1,
                 timeToLive := ptr.dwTtl,
                 value := env.decodeLabel ptr.Data.Cname.pNameHost }] } := by
      rw [decodeRecord_fst]
      simp [appendDecoded, hType, QDnsLookup.CNAME, QDnsLookup.A, QDnsLookup.AAAA]
    exact ⟨h, by rw [h], by rw [h]⟩
  · intro hType
    have h : (decodeRecord env (reply, c) ptr).1
        = { reply with nameServerRecords := reply.nameServerRecords ++
              [{ name := (extractMaybeCachedHost env c ptr.pName).1,
                 timeToLive := ptr.dwTtl,
                 value := env.decodeLabel ptr.Data.Ns.pNameHost }] } := by
      rw [decodeRecord_fst]
      simp [appendDecoded, hType, QDnsLookup.NS, QDnsLookup.A, QDnsLookup.AAAA,
        QDnsLookup.CNAME, QDnsLookup.MX]
    exact ⟨h, by rw [h], by rw [h]⟩
  · intro hType
    have h : (decodeRecord env (reply, c) ptr).1
        = { reply with pointerRecords := reply.pointerRecords ++
              [{ name := (extractMaybeCachedHost env c ptr.pName).1,
                 timeToLive := ptr.dwTtl,
                 value := env.decodeLabel ptr.Data.Ptr.pNameHost }] } := by
      rw [decodeRecord_fst]
      simp [appendDecoded, hType, QDnsLookup.PTR, QDnsLookup.NS, QDnsLookup.A, QDnsLookup.AAAA,
        QDnsLookup.CNAME, QDnsLookup.MX]
    exact ⟨h, by rw [h], by rw [h]⟩

/-- A CNAME, an NS and a PTR node, each decoded into an empty reply. -/
theorem domain_name_record_kinds_witness :
    sampleCname.wType = QDnsLookup.CNAME
      ∧ (extractResults (platformDouble true ERROR_SUCCESS []) {} [sampleCname] []).1
          = { canonicalNameRecords :=
                [{ name := "www.example.com", timeToLive := 60, value := "example.com" }] }
      ∧ (extractResults (platformDouble true ERROR_SUCCESS []) {} [sampleNs] []).1
          = { nameServerRecords :=
                [{ name := "example.com", timeToLive := 86400,
                   value := "a.iana-servers.net" }] }
      ∧ (extractResults (platformDouble true ERROR_SUCCESS []) {} [samplePtr] []).1
          = { pointerRecords :=
                [{ name := "34.216.184.93.in-addr.arpa", timeToLive := 30,
                   value := "example.com" }] }
      ∧ (decodeRecord (platformDouble true ERROR_SUCCESS []) ({}, NameCache.start)
            sampleCname).1.nameServerRecords = []
      ∧ (decodeRecord (platformDouble true ERROR_SUCCESS []) ({}, NameCache.start)
            sampleCname).1.pointerRecords = [] :=
  ⟨rfl, by decide, by decide, by decide,
    ((domain_name_record_kinds (platformDouble true ERROR_SUCCESS []) {} NameCache.start
      sampleCname).1 rfl).2.1,
    ((domain_name_record_kinds (platformDouble true ERROR_SUCCESS []) {} NameCache.start
      sampleCname).1 rfl).2.2⟩

/-! ## Byte order of the addresses -/

/-- Reading the stored word of the bytes `b0 b1 b2 b3` through `ntohl` gives the number of the
address `b0.b1.b2.b3`. -/
theorem ntohl_wordOfBytes (b0 b1 b2 b3 : Nat) (h0 : b0 < 256) (h1 : b1 < 256) (h2 : b2 < 256)
    (h3 : b3 < 256) :
    ntohl (wordOfBytes b0 b1 b2 b3) = b0 * 2 ^ 24 + b1 * 2 ^ 16 + b2 * 2 ^ 8 + b3 := by
  have h : wordOfBytes b0 b1 b2 b3 = b3 * 2 ^ 24 + b2 * 2 ^ 16 + b1 * 2 ^ 8 + b0 := by
    unfold wordOfBytes
    omega
  unfold ntohl
  rw [h, byteSwap32_bytes b3 b2 b1 b0 h3 h2 h1 h0]

/-- C18: addresses are decoded from network byte order. For every A node whose four payload
bytes in wire order are `b0 b1 b2 b3` (the stored 32-bit word being those bytes in memory
order), the appended HostAddressRecord holds the IPv4 address of host-order value
`b0 * 2^24 + b1 * 2^16 + b2 * 2^8 + b3`, which is `ntohl` of the stored word; for every AAAA
node it holds the IPv6 address made of the payload's bytes in the same order. -/
theorem address_byte_order (env : Env) (reply : QDnsLookupReply) (c : NameCache)
    (ptr : DNS_RECORD) :
    (ptr.wType = QDnsLookup.A →
        ∀ b0 b1 b2 b3 : Nat, b0 < 256 → b1 < 256 → b2 < 256 → b3 < 256 →
          ptr.Data.A.IpAddress = wordOfBytes b0 b1 b2 b3 →
          ntohl ptr.Data.A.IpAddress = b0 * 2 ^ 24 + b1 * 2 ^ 16 + b2 * 2 ^ 8 + b3
            ∧ (decodeRecord env (reply, c) ptr).1
                = { reply with hostAddressRecords := reply.hostAddressRecords ++
                      [{ name := (extractMaybeCachedHost env c ptr.pName).1,
                         timeToLive := ptr.dwTtl,
                         value := .IPv4 (b0 * 2 ^ 24 + b1 * 2 ^ 16 + b2 * 2 ^ 8 + b3) }] })
      ∧ (ptr.wType = QDnsLookup.AAAA →
        (decodeRecord env (reply, c) ptr).1
            = { reply with hostAddressRecords := reply.hostAddressRecords ++
                  [{ name := (extractMaybeCachedHost env c ptr.pName).1,
                     timeToLive := ptr.dwTtl,
                     value := .IPv6 ptr.Data.AAAA.Ip6Address }] }) := by
  refine ⟨?_, ?_⟩
  · intro hType b0 b1 b2 b3 h0 h1 h2 h3 hWord
    have hn := ntohl_wordOfBytes b0 b1 b2 b3 h0 h1 h2 h3
    rw [← hWord] at hn
    refine ⟨hn, ?_⟩
    rw [decodeRecord_fst]
    simp [appendDecoded, hType, hn]
  · intro hType
    rw [decodeRecord_fst]
    simp [appendDecoded, hType, QDnsLookup.AAAA, QDnsLookup.A]

/-- The address 93.184.216.34 from its four wire bytes, and `2001:db8::1` from its sixteen. -/
theorem address_byte_order_witness :
    sampleA.wType = QDnsLookup.A
      ∧ sampleA.Data.A.IpAddress = wordOfBytes 93 184 216 34
      ∧ (decodeRecord (platformDouble true ERROR_SUCCESS []) ({}, NameCache.start) sampleA).1
          = { hostAddressRecords :=
                [{ name := "example.com", timeToLive := 300,
                   value := .IPv4 (93 * 2 ^ 24 + 184 * 2 ^ 16 + 216 * 2 ^ 8 + 34) }] }
      ∧ (decodeRecord (platformDouble true ERROR_SUCCESS []) ({}, NameCache.start)
            sampleAAAA).1
          = { hostAddressRecords :=
                [{ name := "example.com", timeToLive := 300,
                   value := .IPv6 [0x20, 0x01, 0x0d, 0xb8, 0, 0, 0, 0, 0, 0, 0, 0, 0, 0, 0, 1] }] } :=
  ⟨rfl, by decide,
    ((address_byte_order (platformDouble true ERROR_SUCCESS []) {} NameCache.start sampleA).1
      rfl 93 184 216 34 (by decide) (by decide) (by decide) (by decide) (by decide)).2,
    (address_byte_order (platformDouble true ERROR_SUCCESS []) {} NameCache.start sampleAAAA).2
      rfl⟩

/-! ## The cache slot after a CNAME node -/

/-- C23, as the claim states it, fails: for the CNAME node `www.example.com -> example.com`
reached with the cache in its start state, the slot after the node holds the target name, which
is not what resolving the owner name left in it. -/
theorem cname_updates_cache_counterexample :
    (decodeRecord (platformDouble true ERROR_SUCCESS []) ({}, NameCache.start) sampleCname).2
        = { lastEncodedName := "example.com", cachedDecodedName := "example.com" }
      ∧ (extractMaybeCachedHost (platformDouble true ERROR_SUCCESS []) NameCache.start
            sampleCname.pName).2
          = { lastEncodedName := "www.example.com", cachedDecodedName := "www.example.com" }
      ∧ (decodeRecord (platformDouble true ERROR_SUCCESS []) ({}, NameCache.start)
            sampleCname).2
          ≠ (extractMaybeCachedHost (platformDouble true ERROR_SUCCESS []) NameCache.start
              sampleCname.pName).2 := by
  refine ⟨by decide, by decide, by decide⟩

/-- C23, amended: for every CNAME node, whatever the cache holds, the target name is decoded by
`decodeLabel` without the slot being consulted (the value of the record does not depend on the
cache), and the result is stored in the slot: after the node the slot holds the target name and
its decoded string. -/
theorem cname_target_decoded_and_cached (env : Env) (reply : QDnsLookupReply) (c : NameCache)
    (ptr : DNS_RECORD) (hType : ptr.wType = QDnsLookup.CNAME) :
    (decodeRecord env (reply, c) ptr).1
        = { reply with canonicalNameRecords := reply.canonicalNameRecords ++
              [{ name := (extractMaybeCachedHost env c ptr.pName).1,
                 timeToLive := ptr.dwTtl,
                 value := env.decodeLabel ptr.Data.Cname.pNameHost }] }
      ∧ (decodeRecord env (reply, c) ptr).2
          = { lastEncodedName := ptr.Data.Cname.pNameHost,
              cachedDecodedName := env.decodeLabel ptr.Data.Cname.pNameHost } := by
  refine ⟨?_, ?_⟩
  · rw [decodeRecord_fst]
    simp [appendDecoded, hType, QDnsLookup.CNAME, QDnsLookup.A, QDnsLookup.AAAA]
  · simp [decodeRecord, hType, extractAndCacheHost, QDnsLookup.CNAME, QDnsLookup.A,
      QDnsLookup.AAAA]

/-- The CNAME node `www.example.com -> example.com` on the platform double. -/
theorem cname_target_decoded_and_cached_witness :
    sampleCname.wType = QDnsLookup.CNAME
      ∧ (decodeRecord (platformDouble true ERROR_SUCCESS []) ({}, NameCache.start)
            sampleCname).2
          = { lastEncodedName := sampleCname.Data.Cname.pNameHost,
              cachedDecodedName :=
                (platformDouble true ERROR_SUCCESS []).decodeLabel
                  sampleCname.Data.Cname.pNameHost } :=
  ⟨rfl,
    (cname_target_decoded_and_cached (platformDouble true ERROR_SUCCESS []) {} NameCache.start
      sampleCname rfl).2⟩

/-- C27: owner name and CNAME target are not confused. For every CNAME node reached by the loop
(the cache slot settled) whose owner name is not empty or is decoded to the empty string, the
appended DomainNameRecord has name `decodeLabel` of the owner name and value `decodeLabel` of
the target name, although decoding the target overwrites the slot the owner name was read
from. -/
theorem cname_owner_and_target (env : Env) (reply : QDnsLookupReply) (c : NameCache)
    (ptr : DNS_RECORD) (hType : ptr.wType = QDnsLookup.CNAME) (hc : c.Settled env)
    (hOwner : ptr.pName ≠ "" ∨ env.decodeLabel "" = "") :
    (decodeRecord env (reply, c) ptr).1
        = { reply with canonicalNameRecords := reply.canonicalNameRecords ++
              [{ name := env.decodeLabel ptr.pName, timeToLive := ptr.dwTtl,
                 value := env.decodeLabel ptr.Data.Cname.pNameHost }] }
      ∧ (decodeRecord env (reply, c) ptr).2.cachedDecodedName
          = env.decodeLabel ptr.Data.Cname.pNameHost := by
  have hName : (extractMaybeCachedHost env c ptr.pName).1 = env.decodeLabel ptr.pName := by
    rcases (extractMaybeCachedHost_settled env c ptr.pName hc).1 with h | ⟨h1, h2⟩
    · exact h
    · rcases hOwner with hne | hEmpty
      · exact absurd h1 hne
      · rw [h2, h1, hEmpty]
  refine ⟨?_, ?_⟩
  · rw [decodeRecord_fst, hName]
    simp [appendDecoded, hType, QDnsLookup.CNAME, QDnsLookup.A, QDnsLookup.AAAA]
  · simp [decodeRecord, hType, extractAndCacheHost, QDnsLookup.CNAME, QDnsLookup.A,
      QDnsLookup.AAAA]

/-- The CNAME node `www.example.com -> example.com`: owner and target differ and each lands in
its own field. -/
theorem cname_owner_and_target_witness :
    sampleCname.wType = QDnsLookup.CNAME
      ∧ NameCache.start.Settled (platformDouble true ERROR_SUCCESS [])
      ∧ sampleCname.pName ≠ sampleCname.Data.Cname.pNameHost
      ∧ (decodeRecord (platformDouble true ERROR_SUCCESS []) ({}, NameCache.start)
            sampleCname).1
          = { canonicalNameRecords :=
                [{ name := "www.example.com", timeToLive := 60, value := "example.com" }] } :=
  ⟨rfl, Or.inr ⟨rfl, rfl⟩, by decide,
    (cname_owner_and_target (platformDouble true ERROR_SUCCESS []) {} NameCache.start
      sampleCname rfl (Or.inr ⟨rfl, rfl⟩) (Or.inl (by decide))).1⟩

/-! ## Success: the shared decoder -/

/-- Under the extended strategy a success hands the returned list to the shared tail. -/
theorem query_extended_success (env : Env) (self : QDnsLookupRunnable)
    (reply : QDnsLookupReply) (myDnsQueryEx : DNS_QUERY_REQUEST → DNS_STATUS × PDNS_RECORD)
    (records : PDNS_RECORD) (hEx : env.myDnsQueryEx = some myDnsQueryEx)
    (hRes : myDnsQueryEx (buildRequest env self) = (ERROR_SUCCESS, records)) :
    query env self reply
      = extractResults env reply records [PlatformCall.DnsQueryEx (buildRequest env self)] := by
  unfold query
  rw [hEx]
  simp only [hRes]
  rw [if_neg (by decide), if_neg (by decide)]
  simp

/-- Under the legacy strategy a success hands the returned list to the shared tail. -/
theorem query_legacy_success (env : Env) (self : QDnsLookupRunnable)
    (reply : QDnsLookupReply) (records : PDNS_RECORD)
    (hEx : env.myDnsQueryEx = none) (hNs : self.nameserver.protocol ≠ .IPv6Protocol)
    (hRes : env.DnsQuery_W self.requestName self.requestType DNS_QUERY_STANDARD
              (legacySrvList self) = (ERROR_SUCCESS, records)) :
    query env self reply
      = extractResults env reply records
          [PlatformCall.DnsQuery_W self.requestName self.requestType DNS_QUERY_STANDARD
            (legacySrvList self)] := by
  rw [query_legacy_eq_call env self reply hEx hNs]
  unfold queryLegacyCall
  simp only [hRes]
  simp

/-- C24: both strategies converge on the same decoder. For every record list and every incoming
reply, when the platform call reports success and returns that list (under the legacy strategy
the call is made, the nameserver not being an IPv6 address), the reply left by the extended
strategy equals the reply left by the legacy strategy, the Qt helpers being the same. -/
theorem strategies_agree_on_success (envEx envLegacy : Env) (self : QDnsLookupRunnable)
    (reply : QDnsLookupReply) (myDnsQueryEx : DNS_QUERY_REQUEST → DNS_STATUS × PDNS_RECORD)
    (records : PDNS_RECORD)
    (hEx : envEx.myDnsQueryEx = some myDnsQueryEx)
    (hResEx : myDnsQueryEx (buildRequest envEx self) = (ERROR_SUCCESS, records))
    (hLegacy : envLegacy.myDnsQueryEx = none)
    (hNs : self.nameserver.protocol ≠ .IPv6Protocol)
    (hResLegacy : envLegacy.DnsQuery_W self.requestName self.requestType DNS_QUERY_STANDARD
              (legacySrvList self) = (ERROR_SUCCESS, records))
    (hDecode : envLegacy.decodeLabel = envEx.decodeLabel)
    (hLatin1 : envLegacy.toLatin1 = envEx.toLatin1) :
    (query envEx self reply).1 = (query envLegacy self reply).1 := by
  have hLoop : ∀ (l : PDNS_RECORD) (st : QDnsLookupReply × NameCache),
      decodeLoop envLegacy st l = decodeLoop envEx st l := by
    have hRec : decodeRecord envLegacy = decodeRecord envEx := by
      funext st ptr
      simp only [decodeRecord, extractMaybeCachedHost, extractAndCacheHost, txtValues, hDecode,
        hLatin1]
    intro l st
    simp only [decodeLoop, hRec]
  rw [query_extended_success envEx self reply myDnsQueryEx records hEx hResEx,
    query_legacy_success envLegacy self reply records hLegacy hNs hResLegacy,
    extractResults_fst, extractResults_fst, hLoop]

/-- The list `sampleChain` returned with success under both strategies of the double. -/
theorem strategies_agree_on_success_witness :
    (platformDouble true ERROR_SUCCESS sampleChain).myDnsQueryEx
        = some (fun _ => (ERROR_SUCCESS, sampleChain))
      ∧ (legacyDouble ERROR_SUCCESS sampleChain).myDnsQueryEx = none
      ∧ sampleRequest.nameserver.protocol ≠ .IPv6Protocol
      ∧ (query (platformDouble true ERROR_SUCCESS sampleChain) sampleRequest sampleReply).1
          = (query (legacyDouble ERROR_SUCCESS sampleChain) sampleRequest sampleReply).1 :=
  ⟨rfl, rfl, by decide,
    strategies_agree_on_success (platformDouble true ERROR_SUCCESS sampleChain)
      (legacyDouble ERROR_SUCCESS sampleChain) sampleRequest sampleReply
      (fun _ => (ERROR_SUCCESS, sampleChain)) sampleChain rfl rfl rfl (by decide) rfl rfl rfl⟩

/-- C26: success with no records is a no-op. Under either strategy, when the platform call
reports success and returns the null list, `query` returns the incoming reply unchanged, error
kind and message included, and its only platform call is the query: `DnsRecordListFree` is not
called. -/
theorem query_success_null_list (env : Env) (self : QDnsLookupRunnable)
    (reply : QDnsLookupReply) :
    (∀ myDnsQueryEx, env.myDnsQueryEx = some myDnsQueryEx
        → myDnsQueryEx (buildRequest env self) = (ERROR_SUCCESS, [])
        → query env self reply = (reply, [PlatformCall.DnsQueryEx (buildRequest env self)]))
      ∧ (env.myDnsQueryEx = none → self.nameserver.protocol ≠ .IPv6Protocol
        → env.DnsQuery_W self.requestName self.requestType DNS_QUERY_STANDARD
              (legacySrvList self) = (ERROR_SUCCESS, [])
        → query env self reply
            = (reply,
               [PlatformCall.DnsQuery_W self.requestName self.requestType DNS_QUERY_STANDARD
                  (legacySrvList self)])) := by
  refine ⟨?_, ?_⟩
  · intro f hEx hRes
    rw [query_extended_success env self reply f [] hEx hRes]
    rfl
  · intro hEx hNs hRes
    rw [query_legacy_success env self reply [] hEx hNs hRes]
    rfl

/-- A success with the null list under both strategies of the double, on a reply that already
holds a record. -/
theorem query_success_null_list_witness :
    (query (platformDouble true ERROR_SUCCESS []) sampleRequest sampleReply).1 = sampleReply
      ∧ ((query (platformDouble true ERROR_SUCCESS []) sampleRequest sampleReply).2.filter
            PlatformCall.isListFree).length = 0
      ∧ query (legacyDouble ERROR_SUCCESS []) sampleRequest sampleReply
          = (sampleReply,
             [PlatformCall.DnsQuery_W sampleRequest.requestName sampleRequest.requestType
                DNS_QUERY_STANDARD (legacySrvList sampleRequest)]) :=
  ⟨congrArg Prod.fst
      ((query_success_null_list (platformDouble true ERROR_SUCCESS []) sampleRequest
        sampleReply).1 (fun _ => (ERROR_SUCCESS, [])) rfl rfl),
    by decide,
    (query_success_null_list (legacyDouble ERROR_SUCCESS []) sampleRequest sampleReply).2
      rfl (by decide) rfl⟩

/-! ## The request of the extended strategy -/

/-- The request built for a nameserver that is not null. -/
theorem buildRequest_nameserver (env : Env) (self : QDnsLookupRunnable)
    (hNs : self.nameserver.isNull = false) :
    (buildRequest env self).pDnsServerList
      = some
          { MaxCount := sizeof_DNS_ADDR_ARRAY + sizeof_DNS_ADDR, AddrCount := 1,
            Family := (env.setSockaddr {} self.nameserver
                        (if self.port = DnsPort then 0 else self.port)).sa_family,
            AddrArray := [{ MaxSa := env.setSockaddr {} self.nameserver
                                      (if self.port = DnsPort then 0 else self.port) }] } := by
  simp [buildRequest, hNs]

/-- The field `MaxCount` of the server list holds the size in bytes of the buffer the list is
built in, 96 for the nameserver 192.0.2.53 as for any other. -/
theorem request_maxCount (env : Env) (self : QDnsLookupRunnable)
    (hNs : self.nameserver.isNull = false) :
    (buildRequest env self).pDnsServerList.map (fun arr => arr.MaxCount) = some 96 := by
  rw [buildRequest_nameserver env self hNs]
  rfl

/-- The double's `setSockaddr` writes the family of the address. -/
theorem platformDouble_sockaddr (extended : Bool) (status : DNS_STATUS)
    (records : PDNS_RECORD) :
    (platformDouble extended status records).SetSockaddrWritesFamily :=
  ⟨fun _ _ _ => rfl, fun _ _ _ => rfl⟩

/-- C25: request construction of the extended strategy. When a nameserver is supplied, the
server list of the request is a single-entry list: its address count is one, it holds exactly
one entry, and the buffer whose size it records has room for one entry and no more. With
`setSockaddr` writing the family of the address it is given, the family of the list is the
nameserver's own: `AF_INET` for an IPv4 nameserver, `AF_INET6` for an IPv6 one, and it is the
family of the entry's socket address. When no nameserver is supplied the request carries no
server list. -/
theorem request_server_list (env : Env) (self : QDnsLookupRunnable)
    (hFamily : env.SetSockaddrWritesFamily) :
    (self.nameserver.isNull = false →
        ∃ arr : DNS_ADDR_ARRAY, (buildRequest env self).pDnsServerList = some arr
          ∧ arr.AddrCount = 1
          ∧ arr.AddrArray.length = 1
          ∧ (arr.MaxCount - sizeof_DNS_ADDR_ARRAY) / sizeof_DNS_ADDR = 1
          ∧ (∀ ip4Addr, self.nameserver = .IPv4 ip4Addr → arr.Family = AF_INET)
          ∧ (∀ ip6Addr, self.nameserver = .IPv6 ip6Addr → arr.Family = AF_INET6)
          ∧ arr.AddrArray.map (fun addr => addr.MaxSa.sa_family) = [arr.Family])
      ∧ (self.nameserver.isNull = true → (buildRequest env self).pDnsServerList = none) := by
  refine ⟨?_, ?_⟩
  · intro hNs
    have h1 : (sizeof_DNS_ADDR_ARRAY + sizeof_DNS_ADDR - sizeof_DNS_ADDR_ARRAY)
        / sizeof_DNS_ADDR = 1 := by decide
    refine ⟨_, buildRequest_nameserver env self hNs, rfl, rfl, h1, ?_, ?_, rfl⟩
    · intro a ha
      simp only [ha]
      exact hFamily.1 _ _ _
    · intro a ha
      simp only [ha]
      exact hFamily.2 _ _ _
  · intro hNs
    simp [buildRequest, hNs]

/-- The server lists built for an IPv4 nameserver, an IPv6 nameserver and no nameserver. -/
theorem request_server_list_witness :
    (platformDouble true ERROR_SUCCESS []).SetSockaddrWritesFamily
      ∧ sampleRequestV4.nameserver.isNull = false
      ∧ ((buildRequest (platformDouble true ERROR_SUCCESS []) sampleRequestV4).pDnsServerList.map
            (fun arr => (arr.AddrCount, arr.AddrArray.length, arr.Family)))
          = some (1, 1, AF_INET)
      ∧ ((buildRequest (platformDouble true ERROR_SUCCESS []) sampleRequestV6).pDnsServerList.map
            (fun arr => (arr.AddrCount, arr.AddrArray.length, arr.Family)))
          = some (1, 1, AF_INET6)
      ∧ sampleRequest.nameserver.isNull = true
      ∧ (buildRequest (platformDouble true ERROR_SUCCESS []) sampleRequest).pDnsServerList
          = none := by
  refine ⟨platformDouble_sockaddr true ERROR_SUCCESS [], rfl, ?_, ?_, rfl,
    (request_server_list (platformDouble true ERROR_SUCCESS []) sampleRequest
      (platformDouble_sockaddr true ERROR_SUCCESS [])).2 rfl⟩
  · obtain ⟨arr, hArr, hCount, hLen, -, h4, -, -⟩ :=
      (request_server_list (platformDouble true ERROR_SUCCESS []) sampleRequestV4
        (platformDouble_sockaddr true ERROR_SUCCESS [])).1 rfl
    rw [hArr]
    simp [hCount, hLen, h4 _ rfl]
  · obtain ⟨arr, hArr, hCount, hLen, -, -, h6, -⟩ :=
      (request_server_list (platformDouble true ERROR_SUCCESS []) sampleRequestV6
        (platformDouble_sockaddr true ERROR_SUCCESS [])).1 rfl
    rw [hArr]
    simp [hCount, hLen, h6 _ rfl]

/-- C28: port handling of the extended strategy. When a nameserver is supplied, the socket
address of the single server entry is the one `setSockaddr` fills in for that nameserver and
the port 0 if the requested port is `DnsPort` (53), the requested port otherwise. -/
theorem request_port (env : Env) (self : QDnsLookupRunnable)
    (hNs : self.nameserver.isNull = false) :
    ∃ arr : DNS_ADDR_ARRAY, (buildRequest env self).pDnsServerList = some arr
      ∧ (self.port = DnsPort →
          arr.AddrArray.map (fun addr => addr.MaxSa) = [env.setSockaddr {} self.nameserver 0])
      ∧ (self.port ≠ DnsPort →
          arr.AddrArray.map (fun addr => addr.MaxSa)
            = [env.setSockaddr {} self.nameserver self.port]) := by
  refine ⟨_, buildRequest_nameserver env self hNs, ?_, ?_⟩
  · intro h
    simp [h]
  · intro h
    simp [h]

/-- The ports written for a request on port 53 and for one on port 5353. -/
theorem request_port_witness :
    sampleRequestV4.nameserver.isNull = false
      ∧ sampleRequestV4.port = DnsPort
      ∧ ((buildRequest (platformDouble true ERROR_SUCCESS []) sampleRequestV4).pDnsServerList.map
            (fun arr => arr.AddrArray.map (fun addr => addr.MaxSa.sa_port))) = some [0]
      ∧ ((buildRequest (platformDouble true ERROR_SUCCESS [])
            sampleRequestPort).pDnsServerList.map
            (fun arr => arr.AddrArray.map (fun addr => addr.MaxSa.sa_port))) = some [5353]
      ∧ ∃ arr : DNS_ADDR_ARRAY,
          (buildRequest (platformDouble true ERROR_SUCCESS []) sampleRequestV4).pDnsServerList
              = some arr
            ∧ (sampleRequestV4.port = DnsPort →
                arr.AddrArray.map (fun addr => addr.MaxSa)
                  = [(platformDouble true ERROR_SUCCESS []).setSockaddr {}
                      sampleRequestV4.nameserver 0])
            ∧ (sampleRequestV4.port ≠ DnsPort →
                arr.AddrArray.map (fun addr => addr.MaxSa)
                  = [(platformDouble true ERROR_SUCCESS []).setSockaddr {}
                      sampleRequestV4.nameserver sampleRequestV4.port]) :=
  ⟨rfl, rfl, by decide, by decide,
    request_port (platformDouble true ERROR_SUCCESS []) sampleRequestV4 rfl⟩

end QDnsLookupWin

namespace vxkex

/-! ## GetSystemMetricsForDpi -/

/-- The product of an `INT` and a `UINT`, taken in `UINT` and stored in an `INT`, is the product
of the two numbers when that product is an `INT`. -/
theorem toINT_mul (v : Int) (Dpi : Nat) (hLo : -2 ^ 31 ≤ v * Dpi) (hHi : v * Dpi < 2 ^ 31) :
    toINT (toUINT v * Dpi) = v * Dpi := by
  have hv : ((toUINT v : Nat) : Int) = v % 2 ^ 32 := by
    unfold toUINT
    exact Int.toNat_of_nonneg (Int.emod_nonneg _ (by norm_num))
  have key : (((toUINT v * Dpi) % 2 ^ 32 : Nat) : Int) = (v * Dpi) % 2 ^ 32 := by
    push_cast
    rw [hv]
    exact Int.ModEq.mul_right _ (Int.mod_modEq v _)
  unfold toINT
  generalize v * (Dpi : Int) = P at hLo hHi key
  generalize (toUINT v * Dpi) % 2 ^ 32 = m at key
  split_ifs <;> omega

/-- C29, as the claim states it, fails where the 32 bits are left: with `GetSystemMetrics`
giving 32 for `SM_CXICON` and `Dpi = 2^27` the product wraps to 0 and the result is 0, not
`(32 * 2^27) / 96`; and with `Dpi = 96` and `GetSystemMetrics` giving `2^25` the result is
`-11184810`, not `2^25`. -/
theorem GetSystemMetricsForDpi_counterexample :
    SM_CXICON ∈ pixelMetrics
      ∧ GetSystemMetricsForDpi (fun _ => 32) SM_CXICON (2 ^ 27) = 0
      ∧ GetSystemMetricsForDpi (fun _ => 32) SM_CXICON (2 ^ 27)
          ≠ Int.tdiv ((32 : Int) * ((2 ^ 27 : Nat) : Int)) 96
      ∧ GetSystemMetricsForDpi (fun _ => 2 ^ 25) SM_CXICON 96 = -11184810
      ∧ GetSystemMetricsForDpi (fun _ => 2 ^ 25) SM_CXICON 96 ≠ 2 ^ 25 := by
  refine ⟨by decide, by decide, by decide, by decide, by decide⟩

/-- C29, amended: for each of the listed pixel-size indices the result is
`(GetSystemMetrics(Index) * Dpi) / 96` with truncating division whenever the product
`GetSystemMetrics(Index) * Dpi` is an `INT` (at least `-2^31` and below `2^31`); for every other
index it is `GetSystemMetrics(Index)` unchanged; hence for `Dpi = 96` the result equals
`GetSystemMetrics(Index)` for every index whenever that value is between `-22369621` and
`22369621`. -/
theorem GetSystemMetricsForDpi_scaled (GetSystemMetrics : Int → Int) (Index : Int) (Dpi : Nat) :
    (Index ∈ pixelMetrics → -2 ^ 31 ≤ GetSystemMetrics Index * Dpi
        → GetSystemMetrics Index * Dpi < 2 ^ 31
        → GetSystemMetricsForDpi GetSystemMetrics Index Dpi
            = Int.tdiv (GetSystemMetrics Index * Dpi) 96)
      ∧ (Index ∉ pixelMetrics
        → GetSystemMetricsForDpi GetSystemMetrics Index Dpi = GetSystemMetrics Index)
      ∧ (-22369621 ≤ GetSystemMetrics Index → GetSystemMetrics Index ≤ 22369621
        → GetSystemMetricsForDpi GetSystemMetrics Index 96 = GetSystemMetrics Index) := by
  refine ⟨?_, ?_, ?_⟩
  · intro hIdx hLo hHi
    unfold GetSystemMetricsForDpi
    rw [if_pos hIdx]
    simp only [toINT_mul _ _ hLo hHi, USER_DEFAULT_SCREEN_DPI]
  · intro hIdx
    unfold GetSystemMetricsForDpi
    rw [if_neg hIdx]
  · intro hLo hHi
    unfold GetSystemMetricsForDpi
    split_ifs with hIdx
    · have h1 : -2 ^ 31 ≤ GetSystemMetrics Index * ((96 : Nat) : Int) := by push_cast; omega
      have h2 : GetSystemMetrics Index * ((96 : Nat) : Int) < 2 ^ 31 := by push_cast; omega
      simp only [toINT_mul _ _ h1 h2, USER_DEFAULT_SCREEN_DPI]
      push_cast
      exact Int.mul_tdiv_cancel _ (by decide)
    · rfl

/-- An icon of 32 pixels at 144 dots per inch is 48 pixels; the width of the screen is not
scaled; at 96 dots per inch nothing changes. -/
theorem GetSystemMetricsForDpi_scaled_witness :
    SM_CXICON ∈ pixelMetrics ∧ SM_CXSCREEN ∉ pixelMetrics
      ∧ GetSystemMetricsForDpi (fun _ => 32) SM_CXICON 144 = 48
      ∧ GetSystemMetricsForDpi (fun _ => 1920) SM_CXSCREEN 144 = 1920
      ∧ GetSystemMetricsForDpi (fun _ => 32) SM_CXICON 96 = 32
      ∧ GetSystemMetricsForDpi (fun _ => 32) SM_CXICON 144
          = Int.tdiv ((fun _ => (32 : Int)) SM_CXICON * ((144 : Nat) : Int)) 96 :=
  ⟨by decide, by decide, by decide, by decide, by decide,
    (GetSystemMetricsForDpi_scaled (fun _ => 32) SM_CXICON 144).1 (by decide) (by decide)
      (by decide)⟩

/-! ## GetDpiForMonitor -/

/-- A number below `2^32` is its own `UINT`. -/
theorem toUINT_natCast (n : Nat) (h : n < 2 ^ 32) : toUINT (n : Int) = n := by
  unfold toUINT
  omega

/-- C30, as the claim states it, fails: in a DPI-aware process with device DPI 192 in both
directions, when the call of `GetDC` inside `GetScaleFactorForMonitor` returns the null handle,
the scale factor is `SCALE_100_PERCENT` and `GetDpiForMonitor` writes 192 to `*DpiX` and
`*DpiY`: not `(192 * (9600 / 192)) / 100 = 96`, and more than 96. When the first call of `GetDC`
returns the null handle and the device DPI is 144, it writes 96, not 95. -/
theorem GetDpiForMonitor_counterexample :
    (gdiSecondDcFails 192).IsProcessDPIAware = true
      ∧ (gdiSecondDcFails 192).GetDeviceCaps 0 LOGPIXELSX = 192
      ∧ (gdiSecondDcFails 192).GetDeviceCaps 0 LOGPIXELSY = 192
      ∧ GetDpiForMonitor (gdiSecondDcFails 192) 0 MDT_EFFECTIVE_DPI true true
          = some (S_OK, some (192, 192))
      ∧ GetDpiForMonitor (gdiSecondDcFails 192) 0 MDT_EFFECTIVE_DPI true true
          ≠ some (S_OK, some (192 * (9600 / 192) / 100, 192 * (9600 / 192) / 100))
      ∧ ¬ (192 ≤ 96)
      ∧ GetDpiForMonitor (gdiNoDc 144) 0 MDT_EFFECTIVE_DPI true true
          = some (S_OK, some (96, 96))
      ∧ GetDpiForMonitor (gdiNoDc 144) 0 MDT_EFFECTIVE_DPI true true
          ≠ some (S_OK, some (144 * (9600 / 144) / 100, 144 * (9600 / 144) / 100)) := by
  refine ⟨rfl, rfl, rfl, by decide, by decide, by decide, by decide, by decide⟩

/-- C30, amended: `GetDpiForMonitor` with `MDT_EFFECTIVE_DPI` in a DPI-aware process, for every
device DPI `L` between 1 and 9600 reported for both directions. When `GetDC` provides a device
context both in `GetDpiForMonitor` and in `GetScaleFactorForMonitor`, the call returns `S_OK`
and writes `(L * (9600 / L)) / 100`, with truncating unsigned division, to both `*DpiX` and
`*DpiY`, a number that never exceeds 96. When the call of `GetDC` in `GetDpiForMonitor` returns
the null handle, it returns `S_OK` and writes 96 to both. When only the call of `GetDC` in
`GetScaleFactorForMonitor` returns the null handle, it returns `S_OK` and writes `L` to both. -/
theorem GetDpiForMonitor_effective (gdi : Gdi) (calls L : Nat)
    (hAware : gdi.IsProcessDPIAware = true) (hLo : 1 ≤ L) (hHi : L ≤ 9600) :
    (∀ dc0 dc1, gdi.GetDC calls = some dc0 → gdi.GetDC (calls + 1) = some dc1
        → gdi.GetDeviceCaps dc0 LOGPIXELSX = L → gdi.GetDeviceCaps dc0 LOGPIXELSY = L
        → gdi.GetDeviceCaps dc1 LOGPIXELSX = L
        → GetDpiForMonitor gdi calls MDT_EFFECTIVE_DPI true true
            = some (S_OK, some (L * (9600 / L) / 100, L * (9600 / L) / 100)))
      ∧ L * (9600 / L) / 100 ≤ 96
      ∧ (gdi.GetDC calls = none
        → GetDpiForMonitor gdi calls MDT_EFFECTIVE_DPI true true = some (S_OK, some (96, 96)))
      ∧ (∀ dc0, gdi.GetDC calls = some dc0 → gdi.GetDC (calls + 1) = none
        → gdi.GetDeviceCaps dc0 LOGPIXELSX = L → gdi.GetDeviceCaps dc0 LOGPIXELSY = L
        → GetDpiForMonitor gdi calls MDT_EFFECTIVE_DPI true true
            = some (S_OK, some (L, L))) := by
  have hL : toUINT (L : Int) = L := toUINT_natCast L (by omega)
  have hq : 9600 / L ≤ 9600 := Nat.div_le_self _ _
  have hS : toUINT ((9600 / L : Nat) : Int) = 9600 / L := toUINT_natCast _ (by omega)
  have hP : L * (9600 / L) ≤ 9600 := Nat.mul_div_le 9600 L
  have hMod : L * (9600 / L) % 2 ^ 32 = L * (9600 / L) := Nat.mod_eq_of_lt (by omega)
  refine ⟨?_, by omega, ?_, ?_⟩
  · intro dc0 dc1 hDC0 hDC1 hX hY hX1
    have hScale : GetScaleFactorForMonitor gdi (calls + 1)
        = some (S_OK, ((9600 / L : Nat) : Int), calls + 1 + 1) := by
      unfold GetScaleFactorForMonitor
      rw [hDC1]
      simp only [hX1, hL]
      rw [if_neg (by omega)]
    unfold GetDpiForMonitor
    rw [if_neg (by decide)]
    simp only [hAware, hDC0, hX, hY, hL, hScale, hS, hMod]
    simp
  · intro hDC0
    unfold GetDpiForMonitor
    rw [if_neg (by decide)]
    simp only [hAware, hDC0]
    simp [USER_DEFAULT_SCREEN_DPI]
  · intro dc0 hDC0 hDC1 hX hY
    have hScale : GetScaleFactorForMonitor gdi (calls + 1)
        = some (S_OK, SCALE_100_PERCENT, calls + 1 + 1) := by
      unfold GetScaleFactorForMonitor
      rw [hDC1]
    have h100 : toUINT SCALE_100_PERCENT = 100 := by decide
    have hM : L * 100 % 2 ^ 32 = L * 100 := Nat.mod_eq_of_lt (by omega)
    have hD : L * 100 / 100 = L := Nat.mul_div_cancel L (by decide)
    unfold GetDpiForMonitor
    rw [if_neg (by decide)]
    simp only [hAware, hDC0, hX, hY, hL, hScale, h100, hM, hD]
    simp

/-- The device DPI 192 gives 96, and 144 gives 95, when `GetDC` succeeds. -/
theorem GetDpiForMonitor_effective_witness :
    (gdiDouble 192).IsProcessDPIAware = true ∧ 1 ≤ 192 ∧ 192 ≤ 9600
      ∧ GetDpiForMonitor (gdiDouble 144) 0 MDT_EFFECTIVE_DPI true true
          = some (S_OK, some (95, 95))
      ∧ GetDpiForMonitor (gdiDouble 192) 0 MDT_EFFECTIVE_DPI true true
          = some (S_OK, some (192 * (9600 / 192) / 100, 192 * (9600 / 192) / 100))
      ∧ 192 * (9600 / 192) / 100 ≤ 96 :=
  ⟨rfl, by decide, by decide, by decide,
    (GetDpiForMonitor_effective (gdiDouble 192) 0 192 rfl (by decide) (by decide)).1 0 1
      rfl rfl rfl rfl rfl,
    (GetDpiForMonitor_effective (gdiDouble 192) 0 192 rfl (by decide) (by decide)).2.1⟩

end vxkex

namespace QVulkan

/-! ## The setters and `create` -/

/-- When `ensureVulkan` returns true the platform instance is not null. -/
theorem ensureVulkan_true (plat : Platform) (d : QVulkanInstancePrivate)
    (h : (ensureVulkan plat d).1 = true) :
    ∃ platformInst, (ensureVulkan plat d).2.platformInst = some platformInst := by
  unfold ensureVulkan at h ⊢
  cases hp : d.platformInst with
  | none =>
    simp only [hp] at h ⊢
    cases hc : plat.createPlatformVulkanInstance d with
    | none => simp [hc] at h
    | some p => exact ⟨p, by simp [hc]⟩
  | some p => exact ⟨p, by simp [hp]⟩

/-- While the instance is valid each of the five setters returns the state it was given. -/
theorem setters_of_valid (d : QVulkanInstancePrivate) (hValid : isValid d = true)
    (existingVkInstance : VkInstance) (flags : Nat) (layers extensions : List String)
    (vulkanVersion : List Nat) :
    setVkInstance d existingVkInstance = d ∧ setFlags d flags = d ∧ setLayers d layers = d
      ∧ setExtensions d extensions = d ∧ setApiVersion d vulkanVersion = d := by
  simp [setVkInstance, setFlags, setLayers, setExtensions, setApiVersion, hValid]

/-- When `create` returns true it leaves a valid instance, given that setting the debug filters
does not change whether the platform instance is valid. -/
theorem create_true_valid (plat : Platform) (d : QVulkanInstancePrivate)
    (hCreate : (create plat d).1 = true)
    (hFilters : ∀ fs p, (plat.setDebugFilters fs p).isValid = p.isValid)
    (hUtils : ∀ fs p, (plat.setDebugUtilsFilters fs p).isValid = p.isValid) :
    isValid (create plat d).2 = true := by
  unfold create at hCreate ⊢
  simp only at hCreate ⊢
  generalize (if isValid d = true then destroy d else d) = d1 at hCreate ⊢
  cases hOk : (ensureVulkan plat d1).1 with
  | false => simp [hOk] at hCreate
  | true =>
    obtain ⟨p, hp⟩ := ensureVulkan_true plat d1 hOk
    simp only [hOk, hp] at hCreate ⊢
    cases hV : (plat.createOrAdoptInstance (ensureVulkan plat d1).2 p).isValid with
    | false => simp [hV] at hCreate
    | true => simp [hV, isValid, hFilters, hUtils]

/-- C21, as the claim states it, fails: after a `create()` that fails, because the platform
plugin has no Vulkan instance to give or because the creation of the instance fails, and after
`destroy()`, `setFlags` does change `flags()`, and `setVkInstance` changes `vkInstance()`. -/
theorem setters_after_failed_create_counterexample :
    (create noVulkan {}).1 = false
      ∧ (create noVulkan {}).2.flags = 0
      ∧ (setFlags (create noVulkan {}).2 1).flags = 1
      ∧ (create failingVulkan {}).1 = false
      ∧ (setFlags (create failingVulkan {}).2 1).flags ≠ (create failingVulkan {}).2.flags
      ∧ (setVkInstance (create failingVulkan {}).2 5).vkInst
          ≠ (create failingVulkan {}).2.vkInst
      ∧ (create workingVulkan {}).1 = true
      ∧ (setFlags (destroy (create workingVulkan {}).2) 1).flags
          ≠ (destroy (create workingVulkan {}).2).flags := by
  refine ⟨by decide, by decide, by decide, by decide, by decide, by decide, by decide,
    by decide⟩

/-- While the instance is not valid each of the five setters writes its own field and nothing
else. -/
theorem setters_of_invalid (d : QVulkanInstancePrivate) (hInvalid : isValid d = false)
    (existingVkInstance : VkInstance) (flags : Nat) (layers extensions : List String)
    (vulkanVersion : List Nat) :
    setVkInstance d existingVkInstance = { d with vkInst := existingVkInstance }
      ∧ setFlags d flags = { d with flags := flags }
      ∧ setLayers d layers = { d with layers := layers }
      ∧ setExtensions d extensions = { d with extensions := extensions }
      ∧ setApiVersion d vulkanVersion = { d with apiVersion := vulkanVersion } := by
  simp [setVkInstance, setFlags, setLayers, setExtensions, setApiVersion, hInvalid]

/-- When `create` returns false it leaves an instance that is not valid. -/
theorem create_false_invalid (plat : Platform) (d : QVulkanInstancePrivate)
    (hCreate : (create plat d).1 = false) : isValid (create plat d).2 = false := by
  unfold create at hCreate ⊢
  simp only at hCreate ⊢
  generalize (if isValid d = true then destroy d else d) = d1 at hCreate ⊢
  cases hOk : (ensureVulkan plat d1).1 with
  | false =>
    have hNone : (ensureVulkan plat d1).2.platformInst = none := by
      unfold ensureVulkan at hOk ⊢
      cases hp : d1.platformInst with
      | none =>
        simp only [hp] at hOk ⊢
        cases hc : plat.createPlatformVulkanInstance d1 with
        | none => simp [hc]
        | some p => simp [hc] at hOk
      | some p => simp [hp] at hOk
    simp [hOk, isValid, hNone]
  | true =>
    obtain ⟨p, hp⟩ := ensureVulkan_true plat d1 hOk
    simp only [hOk, hp] at hCreate ⊢
    cases hV : (plat.createOrAdoptInstance (ensureVulkan plat d1).2 p).isValid with
    | false => simp [hV, isValid]
    | true => simp [hV] at hCreate

/-- After `destroy()` the instance is not valid. -/
theorem destroy_invalid (d : QVulkanInstancePrivate) : isValid (destroy d) = false := rfl

/-- C21, amended: the configuration setters have no effect on a valid instance, and take effect
otherwise. For every instance for which `isValid()` holds, a call of `setVkInstance`,
`setFlags`, `setLayers`, `setExtensions` or `setApiVersion` leaves the whole state, and so
`vkInstance()`, `flags()`, `layers()`, `extensions()` and `apiVersion()`, unchanged; an instance
on which `create()` has returned true is valid (setting the debug filters not changing whether
the platform instance is valid). After a `create()` that returned false, and after `destroy()`,
the instance is not valid and each setter writes its value: the getter of the same name returns
it afterwards. -/
theorem setters_no_effect_while_valid (plat : Platform) (d : QVulkanInstancePrivate)
    (existingVkInstance : VkInstance) (flags : Nat) (layers extensions : List String)
    (vulkanVersion : List Nat) :
    (isValid d = true →
        setVkInstance d existingVkInstance = d ∧ setFlags d flags = d
          ∧ setLayers d layers = d ∧ setExtensions d extensions = d
          ∧ setApiVersion d vulkanVersion = d)
      ∧ ((create plat d).1 = true
        → (∀ fs p, (plat.setDebugFilters fs p).isValid = p.isValid)
        → (∀ fs p, (plat.setDebugUtilsFilters fs p).isValid = p.isValid)
        → isValid (create plat d).2 = true
          ∧ setVkInstance (create plat d).2 existingVkInstance = (create plat d).2
          ∧ setFlags (create plat d).2 flags = (create plat d).2
          ∧ setLayers (create plat d).2 layers = (create plat d).2
          ∧ setExtensions (create plat d).2 extensions = (create plat d).2
          ∧ setApiVersion (create plat d).2 vulkanVersion = (create plat d).2)
      ∧ ((create plat d).1 = false
        → isValid (create plat d).2 = false
          ∧ (setVkInstance (create plat d).2 existingVkInstance).vkInst = existingVkInstance
          ∧ (setFlags (create plat d).2 flags).flags = flags
          ∧ (setLayers (create plat d).2 layers).layers = layers
          ∧ (setExtensions (create plat d).2 extensions).extensions = extensions
          ∧ (setApiVersion (create plat d).2 vulkanVersion).apiVersion = vulkanVersion)
      ∧ (isValid (destroy d) = false
          ∧ (setVkInstance (destroy d) existingVkInstance).vkInst = existingVkInstance
          ∧ (setFlags (destroy d) flags).flags = flags
          ∧ (setLayers (destroy d) layers).layers = layers
          ∧ (setExtensions (destroy d) extensions).extensions = extensions
          ∧ (setApiVersion (destroy d) vulkanVersion).apiVersion = vulkanVersion)
      ∧ (isValid d = false →
          setVkInstance d existingVkInstance = { d with vkInst := existingVkInstance }
            ∧ setFlags d flags = { d with flags := flags }
            ∧ setLayers d layers = { d with layers := layers }
            ∧ setExtensions d extensions = { d with extensions := extensions }
            ∧ setApiVersion d vulkanVersion = { d with apiVersion := vulkanVersion }) := by
  have hWrites : ∀ d0 : QVulkanInstancePrivate, isValid d0 = false →
      (setVkInstance d0 existingVkInstance).vkInst = existingVkInstance
        ∧ (setFlags d0 flags).flags = flags
        ∧ (setLayers d0 layers).layers = layers
        ∧ (setExtensions d0 extensions).extensions = extensions
        ∧ (setApiVersion d0 vulkanVersion).apiVersion = vulkanVersion := by
    intro d0 h0
    obtain ⟨h1, h2, h3, h4, h5⟩ :=
      setters_of_invalid d0 h0 existingVkInstance flags layers extensions vulkanVersion
    rw [h1, h2, h3, h4, h5]
    exact ⟨rfl, rfl, rfl, rfl, rfl⟩
  refine ⟨fun hValid =>
    setters_of_valid d hValid existingVkInstance flags layers extensions vulkanVersion, ?_, ?_,
    ⟨destroy_invalid d, hWrites _ (destroy_invalid d)⟩,
    fun hInvalid =>
      setters_of_invalid d hInvalid existingVkInstance flags layers extensions vulkanVersion⟩
  · intro hCreate hFilters hUtils
    have hValid := create_true_valid plat d hCreate hFilters hUtils
    exact ⟨hValid,
      setters_of_valid _ hValid existingVkInstance flags layers extensions vulkanVersion⟩
  · intro hCreate
    have hInvalid := create_false_invalid plat d hCreate
    exact ⟨hInvalid, hWrites _ hInvalid⟩

/-- On a platform where creation succeeds, `setFlags` and `setLayers` after `create()` change
nothing; on one where it fails, `setFlags` after `create()` sets the flags. -/
theorem setters_no_effect_while_valid_witness :
    (create workingVulkan {}).1 = true
      ∧ isValid (create workingVulkan {}).2 = true
      ∧ setFlags (create workingVulkan {}).2 1 = (create workingVulkan {}).2
      ∧ setLayers (create workingVulkan {}).2 ["VK_LAYER_KHRONOS_validation"]
          = (create workingVulkan {}).2
      ∧ (create failingVulkan {}).1 = false
      ∧ (setFlags (create failingVulkan {}).2 1).flags = 1 :=
  ⟨by decide, by decide,
    ((setters_no_effect_while_valid workingVulkan (create workingVulkan {}).2 5 1
        ["VK_LAYER_KHRONOS_validation"] [] [1, 1]).1 (by decide)).2.1,
    ((setters_no_effect_while_valid workingVulkan (create workingVulkan {}).2 5 1
        ["VK_LAYER_KHRONOS_validation"] [] [1, 1]).1 (by decide)).2.2.1,
    by decide,
    ((setters_no_effect_while_valid failingVulkan {} 5 1
        ["VK_LAYER_KHRONOS_validation"] [] [1, 1]).2.2.1 (by decide)).2.2.1⟩

/-! ## The error code -/

/-- After `destroy()` the error code is `VK_SUCCESS`. -/
theorem errorCode_destroy (d : QVulkanInstancePrivate) :
    errorCode (destroy d) = VK_SUCCESS := rfl

/-- When the platform plugin has no Vulkan instance to give and the instance holds no platform
instance yet, or a valid one, `create()` returns false and does not write the error code: it is
`VK_SUCCESS` if the instance was valid (it has been destroyed), and what it was before
otherwise. -/
theorem create_without_platform (plat : Platform) (d : QVulkanInstancePrivate)
    (hNone : ∀ d0, plat.createPlatformVulkanInstance d0 = none)
    (hInst : d.platformInst = none ∨ isValid d = true) :
    (create plat d).1 = false
      ∧ errorCode (create plat d).2 = if isValid d = true then VK_SUCCESS else d.errorCode := by
  unfold create
  cases hp : d.platformInst with
  | none => simp [isValid, hp, ensureVulkan, hNone, errorCode]
  | some p =>
    have hv : p.isValid = true := by
      rcases hInst with h | h
      · rw [hp] at h
        exact absurd h (by simp)
      · simpa [isValid, hp] using h
    simp [isValid, hp, hv, ensureVulkan, hNone, errorCode, destroy, reset]

/-- When `create()` returns true the error code is `VK_SUCCESS`; when it returns false after
the platform plugin has given an instance, the error code is the one of that instance. -/
theorem create_errorCode (plat : Platform) (d : QVulkanInstancePrivate) :
    ((create plat d).1 = true → errorCode (create plat d).2 = VK_SUCCESS)
      ∧ ((create plat d).1 = false →
          (ensureVulkan plat (if isValid d = true then destroy d else d)).1 = true →
          ∃ p, (ensureVulkan plat (if isValid d = true then destroy d else d)).2.platformInst
                = some p
            ∧ errorCode (create plat d).2
                = (plat.createOrAdoptInstance
                    (ensureVulkan plat (if isValid d = true then destroy d else d)).2
                    p).errorCode) := by
  unfold create
  simp only
  generalize (if isValid d = true then destroy d else d) = d1
  cases hOk : (ensureVulkan plat d1).1 with
  | false => simp [hOk]
  | true =>
    obtain ⟨p, hp⟩ := ensureVulkan_true plat d1 hOk
    simp only [hOk, hp]
    cases hV : (plat.createOrAdoptInstance (ensureVulkan plat d1).2 p).isValid <;>
      simp [hV, errorCode]

/-- C22, at the failing input: on a platform plugin that has no Vulkan instance to give, a
destroyed (or never created) instance answers `create()` with false and `errorCode()` with
`VK_SUCCESS` afterwards, not with `VK_NOT_READY`. Where the plugin gives an instance whose
creation fails, `errorCode()` is the error of that instance, and after a successful `create()`
it is `VK_SUCCESS`. -/
theorem errorCode_after_create_without_platform :
    (create noVulkan (destroy {})).1 = false
      ∧ errorCode (create noVulkan (destroy {})).2 = VK_SUCCESS
      ∧ errorCode (create noVulkan (destroy {})).2 ≠ VK_NOT_READY
      ∧ (create failingVulkan (destroy {})).1 = false
      ∧ errorCode (create failingVulkan (destroy {})).2 = -9
      ∧ (create workingVulkan (destroy {})).1 = true
      ∧ errorCode (create workingVulkan (destroy {})).2 = VK_SUCCESS := by
  refine ⟨by decide, by decide, by decide, by decide, by decide, by decide, by decide⟩

end QVulkan
